import Mathlib

/-!
# Compositor pixel tests, update-check glue and signal sets

A shallow embedding of

* `cc/output/renderer_pixeltest.cc`: the render-pass lists that the pixel tests
  build, together with a model of the compositor they are handed to;
* `chrome/browser/ui/webui/help/version_updater_chromeos.cc`: the update check,
  the display of the update status and the choice of the release channel;
* `native_client_sdk/src/libraries/nacl_io/syscalls/sigdelset.c`: the removal of
  a signal from a signal set.

The test bodies, their helper functions, the updater code and `sigdelset` are
translated from the sources.  The renderer, the resource provider, the geometry types and
the Skia colour constants are not among the sources; every definition that
stands for one of them says so in its doc comment.

Scalars that are `float` in the sources (`opacity`, matrix entries, scale
factors) are rationals here.
-/

/-! ## Geometry (`ui/gfx`) -/

namespace gfx

/-- Modelled from the spec: `gfx::Size` (ui/gfx is not among the sources), an
integer width and height. -/
structure Size where
  width : Int
  height : Int
deriving DecidableEq

/-- Modelled from the spec: `gfx::Vector2d`, an integer offset. -/
structure Vector2d where
  x : Int
  y : Int
deriving DecidableEq

/-- Modelled from the spec: `gfx::Point`. -/
structure Point where
  x : Int
  y : Int
deriving DecidableEq

/-- Modelled from the spec: `gfx::Rect`, the integer rectangle type: origin and
size. -/
structure Rect where
  x : Int
  y : Int
  width : Int
  height : Int
deriving DecidableEq

/-- Modelled from the spec: `gfx::RectF`, the float rectangle type. -/
structure RectF where
  x : ℚ
  y : ℚ
  width : ℚ
  height : ℚ
deriving DecidableEq

/-- Modelled from the spec: `gfx::Transform`, restricted to the axis-aligned
scale-and-translate transforms; rotations and perspective matrices are outside
this embedding.  A point `p` of content space is mapped to
`(scale_x * p.x + translate_x, scale_y * p.y + translate_y)`. -/
structure Transform where
  scale_x : ℚ
  scale_y : ℚ
  translate_x : ℚ
  translate_y : ℚ
deriving DecidableEq

/-- The constructor `gfx::Size()`. -/
def Size.empty : Size := ⟨0, 0⟩

/-- The value `size.GetArea()`. -/
def Size.GetArea (s : Size) : Int := s.width * s.height

/-- The constructor `gfx::Rect(size)`: origin `(0, 0)`. -/
def Rect.ofSize (s : Size) : Rect := ⟨0, 0, s.width, s.height⟩

/-- The constructor `gfx::Rect(width, height)`: origin `(0, 0)`. -/
def Rect.ofWH (w h : Int) : Rect := ⟨0, 0, w, h⟩

/-- The constructor `gfx::Rect(origin, size)`. -/
def Rect.ofPointSize (p : Point) (s : Size) : Rect := ⟨p.x, p.y, s.width, s.height⟩

/-- The constructor `gfx::Rect()`. -/
def Rect.empty : Rect := ⟨0, 0, 0, 0⟩

/-- The value `rect.size()`. -/
def Rect.size (r : Rect) : Size := ⟨r.width, r.height⟩

/-- The value `rect.right()`. -/
def Rect.right (r : Rect) : Int := r.x + r.width

/-- The value `rect.bottom()`. -/
def Rect.bottom (r : Rect) : Int := r.y + r.height

/-- The value `rect.bottom_right()`. -/
def Rect.bottom_right (r : Rect) : Point := ⟨r.right, r.bottom⟩

/-- The difference of two points, `a - b`, a `gfx::Vector2d`. -/
def Point.sub (a b : Point) : Vector2d := ⟨a.x - b.x, a.y - b.y⟩

/-- The test `rect.Contains(px, py)`: the right and bottom edges are excluded. -/
def Rect.Contains (r : Rect) (px py : Int) : Bool :=
  decide (r.x ≤ px) && decide (px < r.right) && decide (r.y ≤ py) && decide (py < r.bottom)

/-- The statement `rect += vector`. -/
def Rect.Offset (r : Rect) (v : Vector2d) : Rect := ⟨r.x + v.x, r.y + v.y, r.width, r.height⟩

/-- The statement `rect.Inset(left, top, right, bottom)`; a size never goes below
zero. -/
def Rect.Inset (r : Rect) (left top right bottom : Int) : Rect :=
  ⟨r.x + left, r.y + top, max 0 (r.width - left - right), max 0 (r.height - top - bottom)⟩

/-- The constructor `gfx::RectF()`. -/
def RectF.empty : RectF := ⟨0, 0, 0, 0⟩

/-- The implicit conversion of a `gfx::Rect` to a `gfx::RectF`. -/
def RectF.ofRect (r : Rect) : RectF := ⟨r.x, r.y, r.width, r.height⟩

/-- The function `gfx::ToEnclosingRect`: the smallest integer rectangle that
contains the float rectangle. -/
def ToEnclosingRect (r : RectF) : Rect :=
  ⟨⌊r.x⌋, ⌊r.y⌋, ⌈r.x + r.width⌉ - ⌊r.x⌋, ⌈r.y + r.height⌉ - ⌊r.y⌋⟩

/-- The constructor `gfx::Transform()`: the identity. -/
def Transform.identity : Transform := ⟨1, 1, 0, 0⟩

/-- The statement `transform.Translate(x, y)`: the translation is applied to
the content before the transform so far. -/
def Transform.Translate (t : Transform) (x y : ℚ) : Transform :=
  { t with translate_x := t.translate_x + t.scale_x * x,
           translate_y := t.translate_y + t.scale_y * y }

/-- The statement `transform.Scale(x, y)`. -/
def Transform.Scale (t : Transform) (x y : ℚ) : Transform :=
  { t with scale_x := t.scale_x * x, scale_y := t.scale_y * y }

/-- The statement `transform.TransformRect(&rect)` for non-negative scales. -/
def Transform.TransformRect (t : Transform) (r : RectF) : RectF :=
  ⟨t.scale_x * r.x + t.translate_x, t.scale_y * r.y + t.translate_y,
   t.scale_x * r.width, t.scale_y * r.height⟩

/-- The integer offset of a transform that is a translation by whole pixels,
`none` for every other transform. -/
def Transform.integerTranslation (t : Transform) : Option Vector2d :=
  if t.scale_x = 1 ∧ t.scale_y = 1 ∧ (⌊t.translate_x⌋ : ℚ) = t.translate_x
      ∧ (⌊t.translate_y⌋ : ℚ) = t.translate_y then
    some ⟨⌊t.translate_x⌋, ⌊t.translate_y⌋⟩
  else none

end gfx

/-! ## Colours (Skia) -/

/-- Modelled from the spec: `SkColor` (Skia is not among the sources), a colour
with explicit alpha, four 8-bit channels. -/
structure SkColor where
  a : Fin 256
  r : Fin 256
  g : Fin 256
  b : Fin 256
deriving DecidableEq

/-- Modelled from the spec: the Skia constant `SK_ColorTRANSPARENT`. -/
def SK_ColorTRANSPARENT : SkColor := ⟨0, 0, 0, 0⟩

/-- Modelled from the spec: the Skia constant `SK_ColorBLACK`. -/
def SK_ColorBLACK : SkColor := ⟨255, 0, 0, 0⟩

/-- Modelled from the spec: the Skia constant `SK_ColorWHITE`. -/
def SK_ColorWHITE : SkColor := ⟨255, 255, 255, 255⟩

/-- Modelled from the spec: the Skia constant `SK_ColorRED`. -/
def SK_ColorRED : SkColor := ⟨255, 255, 0, 0⟩

/-- Modelled from the spec: the Skia constant `SK_ColorGREEN`. -/
def SK_ColorGREEN : SkColor := ⟨255, 0, 255, 0⟩

/-- Modelled from the spec: the Skia constant `SK_ColorBLUE`. -/
def SK_ColorBLUE : SkColor := ⟨255, 0, 0, 255⟩

/-- Modelled from the spec: the Skia constant `SK_ColorYELLOW`. -/
def SK_ColorYELLOW : SkColor := ⟨255, 255, 255, 0⟩

/-- Modelled from the spec: `SkColorMatrixFilter`, a colour matrix of twenty
scalars: four rows of four factors and one translation term each. -/
structure SkColorMatrixFilter where
  matrix : Nat → ℚ

namespace cc

/-! ## Scene data model (`cc/quads`) -/

/-- Modelled from the spec: a resource id of the resource provider; `0` is no
resource. -/
abbrev ResourceId := Nat

/-- The address of a `SharedQuadState` object: quads hold a non-owning
`SharedQuadState*`. -/
abbrev SharedQuadStatePtr := Nat

/-- Modelled from the spec: `RenderPass::Id`, the composite id
`(layer_id, index)`. -/
structure RenderPass.Id where
  layer_id : Int
  index : Int
deriving DecidableEq

/-- Modelled from the spec: `SharedQuadState` with the attributes that
`SetAll` sets. -/
structure SharedQuadState where
  content_to_target_transform : gfx.Transform
  content_bounds : gfx.Size
  visible_content_rect : gfx.Rect
  clip_rect : gfx.Rect
  is_clipped : Bool
  opacity : ℚ
deriving DecidableEq

/-- Modelled from the spec: one operation of a `FilterOperations` list; the
tests only build the invert filter (`FilterOperation::CreateInvertFilter`). -/
inductive FilterOperation where
  | Invert (amount : ℚ)
deriving DecidableEq

/-- Modelled from the spec: `FilterOperations`, an ordered list of filter
operations. -/
abbrev FilterOperations := List FilterOperation

/-- Modelled from the spec: `FakePicturePileImpl`, the recorded drawing
commands of a picture quad: rectangles with a paint colour, in recording
order. -/
structure FakePicturePileImpl where
  tile_size : gfx.Size
  layer_bounds : gfx.Size
  draw_rects : List (gfx.Rect × SkColor)

/-- Modelled from the spec: `DrawQuad`, a tagged variant; the fields of each
variant are the arguments of its `SetNew` as the tests call it. -/
inductive DrawQuad where
  | SolidColor (shared_quad_state : SharedQuadStatePtr) (rect : gfx.Rect)
      (color : SkColor) (force_anti_aliasing_off : Bool)
  | RenderPass (shared_quad_state : SharedQuadStatePtr) (rect : gfx.Rect)
      (render_pass_id : RenderPass.Id) (is_replica : Bool)
      (mask_resource_id : ResourceId)
      (contents_changed_since_last_frame : gfx.Rect) (mask_uv_rect : gfx.RectF)
      (filters : FilterOperations) (filter : Option SkColorMatrixFilter)
      (background_filters : FilterOperations)
  | YUVVideo (shared_quad_state : SharedQuadStatePtr) (rect : gfx.Rect)
      (opaque_rect : gfx.Rect) (tex_scale : gfx.Size)
      (y_plane_resource_id u_plane_resource_id v_plane_resource_id
        a_plane_resource_id : ResourceId)
  | Picture (shared_quad_state : SharedQuadStatePtr) (rect : gfx.Rect)
      (opaque_rect : gfx.Rect) (tex_coord_rect : gfx.RectF)
      (texture_size : gfx.Size) (swizzle_contents : Bool)
      (content_rect : gfx.Rect) (contents_scale : ℚ)
      (can_draw_direct_to_backbuffer : Bool) (picture_pile : FakePicturePileImpl)

/-- The shared-state reference of a quad. -/
def DrawQuad.shared_quad_state : DrawQuad → SharedQuadStatePtr
  | .SolidColor s _ _ _ => s
  | .RenderPass s _ _ _ _ _ _ _ _ _ => s
  | .YUVVideo s _ _ _ _ _ _ _ => s
  | .Picture s _ _ _ _ _ _ _ _ _ => s

/-- The quad rectangle of a quad. -/
def DrawQuad.rect : DrawQuad → gfx.Rect
  | .SolidColor _ r _ _ => r
  | .RenderPass _ r _ _ _ _ _ _ _ _ => r
  | .YUVVideo _ r _ _ _ _ _ _ => r
  | .Picture _ r _ _ _ _ _ _ _ _ => r

/-- Modelled from the spec: `RenderPass`.  `quad_list` is the ordered list of
quads; `shared_quad_state_list` holds the addresses of the shared states that
the pass owns. -/
structure RenderPass where
  id : RenderPass.Id
  output_rect : gfx.Rect
  damage_rect : gfx.RectF
  transform_to_root_target : gfx.Transform
  has_transparent_background : Bool
  quad_list : List DrawQuad
  shared_quad_state_list : List SharedQuadStatePtr

/-- The ordered pass list, `RenderPassList`. -/
abbrev RenderPassList := List RenderPass

/-- The call `RenderPass::Create()` followed by
`SetNew(id, output_rect, damage_rect, transform_to_root_target)`: a pass with
empty lists and a transparent background. -/
def RenderPass.SetNew (id : RenderPass.Id) (output_rect : gfx.Rect)
    (damage_rect : gfx.RectF) (transform_to_root_target : gfx.Transform) : RenderPass :=
  { id := id, output_rect := output_rect, damage_rect := damage_rect,
    transform_to_root_target := transform_to_root_target,
    has_transparent_background := true, quad_list := [], shared_quad_state_list := [] }

/-! ## Helpers of `renderer_pixeltest.cc` -/

/-- The helper `CreateTestRootRenderPass(id, rect)`. -/
def CreateTestRootRenderPass (id : RenderPass.Id) (rect : gfx.Rect) : RenderPass :=
  let output_rect := rect
  let damage_rect := gfx.RectF.ofRect rect
  let transform_to_root_target := gfx.Transform.identity
  RenderPass.SetNew id output_rect damage_rect transform_to_root_target

/-- The helper `CreateTestRenderPass(id, rect, transform_to_root_target)`. -/
def CreateTestRenderPass (id : RenderPass.Id) (rect : gfx.Rect)
    (transform_to_root_target : gfx.Transform) : RenderPass :=
  let output_rect := rect
  let damage_rect := gfx.RectF.ofRect rect
  RenderPass.SetNew id output_rect damage_rect transform_to_root_target

/-- The helper `CreateTestSharedQuadState(content_to_target_transform, rect)`:
not clipped, opacity one. -/
def CreateTestSharedQuadState (content_to_target_transform : gfx.Transform)
    (rect : gfx.Rect) : SharedQuadState :=
  let content_bounds := rect.size
  let visible_content_rect := rect
  let clip_rect := rect
  let is_clipped := false
  let opacity : ℚ := 1
  { content_to_target_transform := content_to_target_transform,
    content_bounds := content_bounds, visible_content_rect := visible_content_rect,
    clip_rect := clip_rect, is_clipped := is_clipped, opacity := opacity }

/-- The helper `CreateTestSharedQuadStateClipped(content_to_target_transform,
rect, clip_rect)`. -/
def CreateTestSharedQuadStateClipped (content_to_target_transform : gfx.Transform)
    (rect : gfx.Rect) (clip_rect : gfx.Rect) : SharedQuadState :=
  let content_bounds := rect.size
  let visible_content_rect := clip_rect
  let is_clipped := true
  let opacity : ℚ := 1
  { content_to_target_transform := content_to_target_transform,
    content_bounds := content_bounds, visible_content_rect := visible_content_rect,
    clip_rect := clip_rect, is_clipped := is_clipped, opacity := opacity }

/-- The helper `CreateTestRenderPassDrawQuad(shared_state, rect, pass_id)`: no
mask, no filter. -/
def CreateTestRenderPassDrawQuad (shared_state : SharedQuadStatePtr) (rect : gfx.Rect)
    (pass_id : RenderPass.Id) : DrawQuad :=
  DrawQuad.RenderPass shared_state rect pass_id
    false             -- is_replica
    0                 -- mask_resource_id
    rect              -- contents_changed_since_last_frame
    gfx.RectF.empty   -- mask_uv_rect
    []                -- foreground filters
    none              -- foreground filter
    []                -- background filters

/-- The renderer types that the typed tests are instantiated with. -/
inductive RendererType where
  | GLRenderer
  | SoftwareRenderer
  | GLRendererWithExpandedViewport
  | SoftwareRendererWithExpandedViewport
  | GLRendererWithSkiaGPUBackend
deriving DecidableEq

/-- The software backends among the renderer types. -/
def RendererType.isSoftware : RendererType → Bool
  | .SoftwareRenderer => true
  | .SoftwareRendererWithExpandedViewport => true
  | _ => false

/-! ## Resource provider -/

/-- Modelled from the spec: the error taxonomy of a frame. -/
inductive RenderError where
  | InvalidScene
  | DanglingPassReference
  | InvalidResource
  | AllocationError
  | OutOfBounds
  | BackendUnavailable
  | Unmodelled
deriving DecidableEq

/-- Modelled from the spec: the texture formats that the tests ask for. -/
inductive GLFormat where
  | GL_LUMINANCE
  | GL_RGBA
deriving DecidableEq

/-- Modelled from the spec: a resource of the resource provider, a buffer of
bytes: `texel i j` is the byte in column `i` of row `j`. -/
structure Resource where
  size : gfx.Size
  format : GLFormat
  texel : Int → Int → Nat

/-- Modelled from the spec: the resource provider (`resource_provider.cc` is not
among the sources).  Ids are handed out in increasing order and never reused:
the resource with id `n` is entry `n - 1` of the list, and `0` is no
resource. -/
structure ResourceProvider where
  resources : List Resource

/-- Modelled from the spec: `CreateResource(size, format, usage) -> id`, which
fails with `AllocationError` if the size has zero area. -/
def ResourceProvider.CreateResource (provider : ResourceProvider) (size : gfx.Size)
    (format : GLFormat) : Except RenderError (ResourceId × ResourceProvider) :=
  if size.width ≤ 0 ∨ size.height ≤ 0 then .error .AllocationError
  else .ok (provider.resources.length + 1,
            { resources := provider.resources ++ [⟨size, format, fun _ _ => 0⟩] })

/-- Modelled from the spec: the resource behind an id; an unknown id fails with
`InvalidResource`. -/
def ResourceProvider.GetResource (provider : ResourceProvider) (id : ResourceId) :
    Except RenderError Resource :=
  if id = 0 then .error .InvalidResource
  else match provider.resources[id - 1]? with
    | some resource => .ok resource
    | none => .error .InvalidResource

/-- Modelled from the spec: `SetPixels(id, image, image_rect, source_rect,
dest_offset)` uploads the part `source_rect` of the CPU-side `image` (rows of
`image_rect.width` bytes) into the resource at `dest_offset`.  It fails with
`InvalidResource` if the id is unknown and with `OutOfBounds` if the
destination exceeds the resource. -/
def ResourceProvider.SetPixels (provider : ResourceProvider) (id : ResourceId)
    (image : List Nat) (image_rect source_rect : gfx.Rect) (dest_offset : gfx.Vector2d) :
    Except RenderError ResourceProvider := do
  let resource ← provider.GetResource id
  let dest : gfx.Rect := ⟨dest_offset.x, dest_offset.y, source_rect.width, source_rect.height⟩
  if dest.x < 0 ∨ dest.y < 0 ∨ resource.size.width < dest.right
      ∨ resource.size.height < dest.bottom then .error .OutOfBounds
  else
    let texel : Int → Int → Nat := fun i j =>
      if dest.Contains i j then
        image.getD (((j - dest.y + source_rect.y - image_rect.y) * image_rect.width
          + (i - dest.x + source_rect.x - image_rect.x)).toNat) 0
      else resource.texel i j
    .ok { resources := provider.resources.set (id - 1) { resource with texel := texel } }

/-! ## Compositor core -/

/-- Modelled from the spec: the bitmap that a frame is read back into. -/
structure SkBitmap where
  width : Int
  height : Int
  pixel : Int → Int → SkColor

/-- Modelled from the spec: the intermediate pixel buffer of a non-root pass, a
row-major array of `width * height` colours. -/
structure PassTexture where
  width : Nat
  height : Nat
  data : List SkColor

/-- The colour in column `i` of row `j` of a pass buffer, transparent outside
of it. -/
def PassTexture.texel (texture : PassTexture) (i j : Int) : SkColor :=
  if 0 ≤ i ∧ i < texture.width ∧ 0 ≤ j ∧ j < texture.height then
    texture.data.getD (j.toNat * texture.width + i.toNat) SK_ColorTRANSPARENT
  else SK_ColorTRANSPARENT

/-- Modelled from the spec: a channel value computed in real arithmetic, stored
as an 8-bit channel.  The hardware backends round to the nearest value and the
software backends round down, so the backends agree up to one level per
channel, and exactly on whole values. -/
def Quantize (renderer : RendererType) (v : ℚ) : Fin 256 :=
  ⟨min (if renderer.isSoftware then ⌊v⌋ else ⌊v + 1 / 2⌋).toNat 255,
    Nat.lt_succ_of_le (min_le_right _ _)⟩

/-- Modelled from the spec: compositing the colour `src` over `dst` with the
shared-state opacity multiplied into the alpha of `src`. -/
def Blend (renderer : RendererType) (opacity : ℚ) (src dst : SkColor) : SkColor :=
  let alpha : ℚ := opacity * src.a.val
  let over : Fin 256 → Fin 256 → Fin 256 := fun s d =>
    Quantize renderer ((s.val * alpha + d.val * (255 - alpha)) / 255)
  { a := Quantize renderer (alpha + d_alpha_rest alpha dst),
    r := over src.r dst.r, g := over src.g dst.g, b := over src.b dst.b }
where
  /-- The share of the destination alpha that stays visible. -/
  d_alpha_rest (alpha : ℚ) (dst : SkColor) : ℚ := dst.a.val * (255 - alpha) / 255

/-- Modelled from the spec: the BT.601 conversion of one YUV sample to RGB,
`R = 1.164 (Y - 16) + 1.596 (V - 128)`,
`G = 1.164 (Y - 16) - 0.391 (U - 128) - 0.813 (V - 128)`,
`B = 1.164 (Y - 16) + 2.018 (U - 128)`, each clamped to an 8-bit channel; the
alpha plane value becomes the alpha of the colour. -/
def YUVToRGB (renderer : RendererType) (y u v a : Nat) : SkColor :=
  let yy : ℚ := 1164 / 1000 * ((y : ℚ) - 16)
  let uu : ℚ := (u : ℚ) - 128
  let vv : ℚ := (v : ℚ) - 128
  { a := Quantize renderer a,
    r := Quantize renderer (yy + 1596 / 1000 * vv),
    g := Quantize renderer (yy - 391 / 1000 * uu - 813 / 1000 * vv),
    b := Quantize renderer (yy + 2018 / 1000 * uu) }

/-- Modelled from the spec: the colour-matrix filter applied to one colour: row
`k` of the matrix gives channel `k` (red, green, blue, alpha) as
`m[5k] r + m[5k+1] g + m[5k+2] b + m[5k+3] a + m[5k+4]`, before clamping. -/
def ColorMatrixRow (m : Nat → ℚ) (k : Nat) (c : SkColor) : ℚ :=
  m (5 * k) * c.r.val + m (5 * k + 1) * c.g.val + m (5 * k + 2) * c.b.val
    + m (5 * k + 3) * c.a.val + m (5 * k + 4)

/-- Modelled from the spec: the colour-matrix filter applied to one colour. -/
def ApplyColorMatrix (renderer : RendererType) (f : SkColorMatrixFilter) (c : SkColor) :
    SkColor :=
  { r := Quantize renderer (ColorMatrixRow f.matrix 0 c),
    g := Quantize renderer (ColorMatrixRow f.matrix 1 c),
    b := Quantize renderer (ColorMatrixRow f.matrix 2 c),
    a := Quantize renderer (ColorMatrixRow f.matrix 3 c) }

/-- Modelled from the spec: one filter operation applied to one colour; the
invert filter moves each colour channel towards its complement. -/
def FilterOperation.Apply (renderer : RendererType) : FilterOperation → SkColor → SkColor
  | .Invert amount, c =>
    let inv : Fin 256 → Fin 256 := fun v =>
      Quantize renderer (v.val * (1 - amount) + (255 - (v.val : ℚ)) * amount)
    { a := c.a, r := inv c.r, g := inv c.g, b := inv c.b }

/-- Modelled from the spec: a filter list is a pipeline, applied left to
right. -/
def ApplyFilterOperations (renderer : RendererType) (filters : FilterOperations)
    (c : SkColor) : SkColor :=
  filters.foldl (fun acc op => op.Apply renderer acc) c

/-- The pixels of the pass that is being drawn, by target-space position. -/
abbrev Canvas := Int → Int → SkColor

/-- A finished non-root pass: its id, its output rectangle and its buffer. -/
structure FinishedPass where
  id : RenderPass.Id
  output_rect : gfx.Rect
  texture : PassTexture

/-- What the renderer reads while it draws a frame: the backend, the shared
states by address, the resources, and the passes finished so far. -/
structure DrawingFrame where
  renderer : RendererType
  shared_states : List SharedQuadState
  resource_provider : ResourceProvider
  finished : List FinishedPass

/-- Modelled from the spec: the colour that a recorded picture shows at a
content position: the recorded rectangles are painted in recording order, so the
last one that contains the position decides; nothing is painted elsewhere. -/
def FakePicturePileImpl.ColorAt (pile : FakePicturePileImpl) (x y : Int) : SkColor :=
  pile.draw_rects.foldl (fun acc entry => if entry.1.Contains x y then entry.2 else acc)
    SK_ColorTRANSPARENT

/-- Modelled from the spec: the content of a quad before compositing, by
content-space position, dispatched once per quad kind.

* A solid-colour quad shows its colour.
* A render-pass quad samples the buffer of the referenced pass, which must be
  finished already (`DanglingPassReference` otherwise), texel for texel from the
  origin of the quad rectangle; the optional mask multiplies the sampled alpha,
  and the foreground filters, then the foreground colour filter, are applied to
  the sampled content.
* A YUV video quad converts its planes to RGB at draw time; the chroma planes
  have half the resolution, and the alpha plane, if present, gives the alpha.
* A picture quad plays back its recording; only a content scale of one is
  covered. -/
def QuadContents (frame : DrawingFrame) : DrawQuad → Except RenderError Canvas
  | .SolidColor _ _ color _ => .ok fun _ _ => color
  | .RenderPass _ rect render_pass_id _ mask_resource_id _ _ filters filter _ =>
    match frame.finished.find? (fun p => decide (p.id = render_pass_id)) with
    | none => .error .DanglingPassReference
    | some pass =>
      if rect.size ≠ pass.output_rect.size then .error .Unmodelled
      else do
        let mask : Int → Int → SkColor → SkColor ←
          if mask_resource_id = 0 then pure fun _ _ c => c
          else do
            let m ← frame.resource_provider.GetResource mask_resource_id
            pure fun (x y : Int) (c : SkColor) =>
              let masked : ℚ := (c.a.val : ℚ) * (m.texel (x - rect.x) (y - rect.y)) / 255
              ({ a := Quantize frame.renderer masked, r := c.r, g := c.g, b := c.b } : SkColor)
        let colour_filter : SkColor → SkColor :=
          match filter with
          | some f => ApplyColorMatrix frame.renderer f
          | none => id
        pure fun x y =>
          mask x y (colour_filter (ApplyFilterOperations frame.renderer filters
            (pass.texture.texel (x - rect.x) (y - rect.y))))
  | .YUVVideo _ rect _ _ y_id u_id v_id a_id => do
    let y_plane ← frame.resource_provider.GetResource y_id
    let u_plane ← frame.resource_provider.GetResource u_id
    let v_plane ← frame.resource_provider.GetResource v_id
    let alpha : Int → Int → Nat ←
      if a_id = 0 then pure fun _ _ => 255
      else do
        let a_plane ← frame.resource_provider.GetResource a_id
        pure a_plane.texel
    pure fun x y =>
      let i := x - rect.x
      let j := y - rect.y
      YUVToRGB frame.renderer (y_plane.texel i j) (u_plane.texel (i / 2) (j / 2))
        (v_plane.texel (i / 2) (j / 2)) (alpha i j)
  | .Picture _ rect _ _ _ _ content_rect contents_scale _ picture_pile =>
    if contents_scale ≠ 1 ∨ content_rect ≠ rect then .error .Unmodelled
    else .ok fun x y => picture_pile.ColorAt x y

/-- The background filters of a quad: only render-pass quads carry any. -/
def DrawQuad.background_filters : DrawQuad → FilterOperations
  | .RenderPass _ _ _ _ _ _ _ _ _ background_filters => background_filters
  | _ => []

/-- The target-space pixels that a quad writes: those of its rectangle, moved
by the whole-pixel translation `offset` of its shared state, inside the hard
clip of the shared state and inside the scissor of the pass. -/
def QuadCovers (scissor : gfx.Rect) (state : SharedQuadState) (offset : gfx.Vector2d)
    (rect : gfx.Rect) (x y : Int) : Bool :=
  scissor.Contains x y && rect.Contains (x - offset.x) (y - offset.y)
    && (!state.is_clipped || state.clip_rect.Contains x y)

/-- Modelled from the spec: drawing one quad onto the target.  The shared-state
reference must point to a live shared state (`InvalidScene` otherwise); only
transforms that translate by whole pixels are covered.  Inside the quad the
background filters are applied to the destination beneath the quad, and the
content of the quad is composited atop with the shared-state opacity; no pixel
outside is written. -/
def DrawOneQuad (frame : DrawingFrame) (scissor : gfx.Rect) (quad : DrawQuad)
    (dst : Canvas) : Except RenderError Canvas := do
  let state ← match frame.shared_states[quad.shared_quad_state]? with
    | some state => Except.ok state
    | none => Except.error RenderError.InvalidScene
  let offset ← match state.content_to_target_transform.integerTranslation with
    | some offset => Except.ok offset
    | none => Except.error RenderError.Unmodelled
  let contents ← QuadContents frame quad
  pure fun x y =>
    if QuadCovers scissor state offset quad.rect x y then
      Blend frame.renderer state.opacity (contents (x - offset.x) (y - offset.y))
        (ApplyFilterOperations frame.renderer quad.background_filters (dst x y))
    else dst x y

/-- Modelled from the spec: the colour a target is cleared to: the root target
is cleared to opaque unless the root pass has a transparent background; every
other target starts out transparent. -/
def ClearColor (is_root : Bool) (pass : RenderPass) : SkColor :=
  if is_root && !pass.has_transparent_background then SK_ColorBLACK else SK_ColorTRANSPARENT

/-- Modelled from the spec: drawing one pass (the renderer is not among the
sources): the quads are rasterized in list order onto the cleared target, later
quads over earlier ones (the painter's algorithm, without depth test), and
nothing is written outside the output rectangle. -/
def DrawRenderPass (frame : DrawingFrame) (is_root : Bool) (pass : RenderPass) :
    Except RenderError Canvas :=
  pass.quad_list.foldl
    (fun drawn quad => drawn >>= DrawOneQuad frame pass.output_rect quad)
    (.ok fun _ _ => ClearColor is_root pass)

/-- Modelled from the spec: the intermediate buffer of a finished non-root pass:
a buffer of the size of the output rectangle, enlarged by the margin
`enlarge_pass_texture_amount`, that holds the pass's pixels from its first
texel on.  A buffer of zero area cannot be allocated. -/
def AllocatePassTexture (enlarge_pass_texture_amount : gfx.Vector2d) (pass : RenderPass)
    (canvas : Canvas) : Except RenderError PassTexture :=
  let width := pass.output_rect.width + enlarge_pass_texture_amount.x
  let height := pass.output_rect.height + enlarge_pass_texture_amount.y
  if width ≤ 0 ∨ height ≤ 0 then .error .AllocationError
  else .ok
    { width := width.toNat, height := height.toNat,
      data := (List.range (width.toNat * height.toNat)).map fun k =>
        canvas (pass.output_rect.x + ((k % width.toNat : Nat) : Int))
          (pass.output_rect.y + ((k / width.toNat : Nat) : Int)) }

/-- Modelled from the spec: the renderer with its test-only knob, the margin
set by `SetEnlargePassTextureAmountForTesting`. -/
structure Renderer where
  type : RendererType
  enlarge_pass_texture_amount : gfx.Vector2d

/-- Modelled from the spec: the non-root passes are drawn in list order, each
into its own buffer, which is then available to the passes after it. -/
def DrawNonRootPasses (renderer : Renderer) (shared_states : List SharedQuadState)
    (provider : ResourceProvider) :
    RenderPassList → List FinishedPass → Except RenderError (List FinishedPass)
  | [], finished => .ok finished
  | pass :: rest, finished => do
    let frame : DrawingFrame :=
      { renderer := renderer.type, shared_states := shared_states,
        resource_provider := provider, finished := finished }
    let canvas ← DrawRenderPass frame false pass
    let texture ← AllocatePassTexture renderer.enlarge_pass_texture_amount pass canvas
    DrawNonRootPasses renderer shared_states provider rest
      (finished ++ [⟨pass.id, pass.output_rect, texture⟩])

/-- Modelled from the spec: one frame.  The root pass is the last pass of the
list; every pass before it is drawn into an intermediate buffer, then the root
pass is drawn into the final target.  The result is the bitmap of the readback
target: the viewport-sized final target, or, if a non-root pass is named as
readback target, the pixels of that pass's output rectangle.  Any failure
fails the frame. -/
def DrawFrame (renderer : Renderer) (device_viewport_size : gfx.Size)
    (shared_states : List SharedQuadState) (provider : ResourceProvider)
    (pass_list : RenderPassList) (readback_target : Option RenderPass.Id) :
    Except RenderError SkBitmap :=
  match pass_list.getLast? with
  | none => .error .InvalidScene
  | some root => do
    let finished ← DrawNonRootPasses renderer shared_states provider pass_list.dropLast []
    let frame : DrawingFrame :=
      { renderer := renderer.type, shared_states := shared_states,
        resource_provider := provider, finished := finished }
    let canvas ← DrawRenderPass frame true root
    match readback_target with
    | none =>
      pure { width := device_viewport_size.width, height := device_viewport_size.height,
             pixel := canvas }
    | some target =>
      if target = root.id then
        pure { width := device_viewport_size.width, height := device_viewport_size.height,
               pixel := canvas }
      else match finished.find? (fun p => decide (p.id = target)) with
        | none => .error .InvalidScene
        | some pass =>
          pure { width := pass.output_rect.width, height := pass.output_rect.height,
                 pixel := pass.texture.texel }

/-! ## The pixel-test fixture (`cc/test/pixel_test.h`) -/

/-- What a test body has built when it runs the pixel test.  `shared_states`
are the `SharedQuadState` objects the body has created, by address: the `n`-th
object created has address `n`.  `pass_list` is the list handed to the
renderer. -/
structure PixelTestScene where
  shared_states : List SharedQuadState
  resource_provider_ : ResourceProvider
  enlarge_pass_texture_amount : gfx.Vector2d
  pass_list : RenderPassList
  readback_target : Option RenderPass.Id
  ref_file : String

/-- The statement `pass->quad_list.push_back(quad)`. -/
def RenderPass.push_quad (pass : RenderPass) (quad : DrawQuad) : RenderPass :=
  { pass with quad_list := pass.quad_list ++ [quad] }

/-- The statement `pass->shared_quad_state_list.push_back(shared_state.Pass())`:
the pass takes over the object at the address `shared_state`. -/
def RenderPass.push_shared_quad_state (pass : RenderPass) (shared_state : SharedQuadStatePtr) :
    RenderPass :=
  { pass with shared_quad_state_list := pass.shared_quad_state_list ++ [shared_state] }

/-- Modelled from the spec: `ExactPixelComparator(discard_alpha).Compare`, the
bit-exact comparison of two bitmaps of the same size; with `discard_alpha` the
alpha channel is left out of the comparison. -/
def ExactPixelComparator.Compare (discard_alpha : Bool) (actual_bmp expected_bmp : SkBitmap) :
    Bool :=
  decide (actual_bmp.width = expected_bmp.width)
    && decide (actual_bmp.height = expected_bmp.height)
    && (List.range actual_bmp.height.toNat).all fun j =>
        (List.range actual_bmp.width.toNat).all fun i =>
          let actual := actual_bmp.pixel i j
          let expected := expected_bmp.pixel i j
          decide (actual.r = expected.r) && decide (actual.g = expected.g)
            && decide (actual.b = expected.b)
            && (discard_alpha || decide (actual.a = expected.a))

/-- Modelled from the spec: `RunPixelTest` and `RunPixelTestWithReadbackTarget`:
the frame is drawn, the readback target is read back and compared with the
reference image; a failed frame fails the test. -/
def RunPixelTest (type : RendererType) (device_viewport_size_ : gfx.Size)
    (scene : PixelTestScene) (reference : SkBitmap)
    (comparator : SkBitmap → SkBitmap → Bool) : Bool :=
  match DrawFrame ⟨type, scene.enlarge_pass_texture_amount⟩ device_viewport_size_
      scene.shared_states scene.resource_provider_ scene.pass_list scene.readback_target with
  | .ok bitmap => comparator bitmap reference
  | .error _ => false

/-- Modelled from the spec: the reference image `green.png`, the all-green
image of the size of the viewport. -/
def green_png (device_viewport_size_ : gfx.Size) : SkBitmap :=
  { width := device_viewport_size_.width, height := device_viewport_size_.height,
    pixel := fun _ _ => SK_ColorGREEN }

/-- Modelled from the spec: the reference image `green_small.png`, the 100×100
green image. -/
def green_small_png : SkBitmap :=
  { width := 100, height := 100, pixel := fun _ _ => SK_ColorGREEN }

/-! ## The test scenes of `renderer_pixeltest.cc` -/

/-- The body of `TYPED_TEST(RendererPixelTest, SimpleGreenRect)`. -/
def SimpleGreenRect (device_viewport_size_ : gfx.Size) : PixelTestScene :=
  let rect := gfx.Rect.ofSize device_viewport_size_
  let id : RenderPass.Id := ⟨1, 1⟩
  let pass := CreateTestRootRenderPass id rect
  -- address 0
  let shared_state := CreateTestSharedQuadState gfx.Transform.identity rect
  let color_quad := DrawQuad.SolidColor 0 rect SK_ColorGREEN false
  let pass := pass.push_quad color_quad
  let pass_list : RenderPassList := [pass]
  { shared_states := [shared_state], resource_provider_ := ⟨[]⟩,
    enlarge_pass_texture_amount := ⟨0, 0⟩, pass_list := pass_list,
    readback_target := none, ref_file := "green.png" }

/-- The body of `TYPED_TEST(RendererPixelTest, SimpleGreenRect_NonRootRenderPass)`;
the child pass is the readback target. -/
def SimpleGreenRect_NonRootRenderPass (device_viewport_size_ : gfx.Size) : PixelTestScene :=
  let rect := gfx.Rect.ofSize device_viewport_size_
  let small_rect := gfx.Rect.ofWH 100 100
  let child_id : RenderPass.Id := ⟨2, 1⟩
  let child_pass := CreateTestRenderPass child_id small_rect gfx.Transform.identity
  -- address 0
  let child_shared_state := CreateTestSharedQuadState gfx.Transform.identity small_rect
  let color_quad := DrawQuad.SolidColor 0 rect SK_ColorGREEN false
  let child_pass := child_pass.push_quad color_quad
  let root_id : RenderPass.Id := ⟨1, 1⟩
  let root_pass := CreateTestRenderPass root_id rect gfx.Transform.identity
  -- address 1
  let root_shared_state := CreateTestSharedQuadState gfx.Transform.identity rect
  let render_pass_quad := CreateTestRenderPassDrawQuad 1 small_rect child_id
  let root_pass := root_pass.push_quad render_pass_quad
  let pass_list : RenderPassList := [child_pass, root_pass]
  { shared_states := [child_shared_state, root_shared_state], resource_provider_ := ⟨[]⟩,
    enlarge_pass_texture_amount := ⟨0, 0⟩, pass_list := pass_list,
    readback_target := some child_pass.id, ref_file := "green_small.png" }

/-- The helper `VideoGLRendererPixelTest::CreateTestYUVVideoDrawQuad(shared_state,
with_alpha, is_transparent)`: it creates one resource per plane, fills the
planes with the YUV values of green and uploads them; it returns the quad and
leaves the resources in the provider. -/
def CreateTestYUVVideoDrawQuad (device_viewport_size_ : gfx.Size)
    (resource_provider_ : ResourceProvider) (shared_state : SharedQuadStatePtr)
    (with_alpha is_transparent : Bool) : Except RenderError (DrawQuad × ResourceProvider) := do
  let rect := gfx.Rect.ofSize device_viewport_size_
  let opaque_rect : gfx.Rect := ⟨0, 0, 0, 0⟩
  let (y_resource, provider) ←
    resource_provider_.CreateResource device_viewport_size_ GLFormat.GL_LUMINANCE
  let (u_resource, provider) ←
    provider.CreateResource device_viewport_size_ GLFormat.GL_LUMINANCE
  let (v_resource, provider) ←
    provider.CreateResource device_viewport_size_ GLFormat.GL_LUMINANCE
  let (a_resource, provider) ←
    if with_alpha then provider.CreateResource device_viewport_size_ GLFormat.GL_LUMINANCE
    else pure (0, provider)
  let w := device_viewport_size_.width
  let h := device_viewport_size_.height
  let y_plane_size := w * h
  let uv_rect := gfx.Rect.ofWH (Int.tdiv (w + 1) 2) (Int.tdiv (h + 1) 2)
  let uv_plane_size := uv_rect.size.GetArea
  -- YUV values representing Green.
  let y_plane : List Nat := List.replicate y_plane_size.toNat 149
  let u_plane : List Nat := List.replicate uv_plane_size.toNat 43
  let v_plane : List Nat := List.replicate uv_plane_size.toNat 21
  let a_plane : List Nat :=
    if with_alpha then List.replicate y_plane_size.toNat (if is_transparent then 0 else 128)
    else []
  let provider ← provider.SetPixels y_resource y_plane rect rect ⟨0, 0⟩
  let provider ← provider.SetPixels u_resource u_plane uv_rect uv_rect ⟨0, 0⟩
  let provider ← provider.SetPixels v_resource v_plane uv_rect uv_rect ⟨0, 0⟩
  let provider ←
    if with_alpha then provider.SetPixels a_resource a_plane rect rect ⟨0, 0⟩
    else pure provider
  let yuv_quad := DrawQuad.YUVVideo shared_state rect opaque_rect gfx.Size.empty
    y_resource u_resource v_resource a_resource
  pure (yuv_quad, provider)

/-- The body of `TEST_F(VideoGLRendererPixelTest, SimpleYUVRect)`. -/
def SimpleYUVRect (device_viewport_size_ : gfx.Size) : Except RenderError PixelTestScene := do
  let rect := gfx.Rect.ofSize device_viewport_size_
  let id : RenderPass.Id := ⟨1, 1⟩
  let pass := CreateTestRootRenderPass id rect
  -- address 0
  let shared_state := CreateTestSharedQuadState gfx.Transform.identity rect
  let (yuv_quad, provider) ← CreateTestYUVVideoDrawQuad device_viewport_size_ ⟨[]⟩ 0 false false
  let pass := pass.push_quad yuv_quad
  let pass_list : RenderPassList := [pass]
  pure { shared_states := [shared_state], resource_provider_ := provider,
         enlarge_pass_texture_amount := ⟨0, 0⟩, pass_list := pass_list,
         readback_target := none, ref_file := "green.png" }

/-- The colour matrix `SkScalar matrix[20]` that `FastPassColorFilterAlpha`
fills in: `matrix_k` is the value that the test assigns to `matrix[k]`, in the
order of the assignments. -/
def FastPassColorFilterAlpha_matrix : Nat → ℚ :=
  let amount : ℚ := 0.5
  let matrix_0 : ℚ := 0.213 + 0.787 * amount
  let matrix_1 : ℚ := 0.715 - 0.715 * amount
  let matrix_2 : ℚ := 1 - (matrix_0 + matrix_1)
  let matrix_4 : ℚ := 0
  let matrix_3 : ℚ := matrix_4
  let matrix_5 : ℚ := 0.213 - 0.213 * amount
  let matrix_6 : ℚ := 0.715 + 0.285 * amount
  let matrix_7 : ℚ := 1 - (matrix_5 + matrix_6)
  let matrix_9 : ℚ := 0
  let matrix_8 : ℚ := matrix_9
  let matrix_10 : ℚ := 0.213 - 0.213 * amount
  let matrix_11 : ℚ := 0.715 - 0.715 * amount
  let matrix_12 : ℚ := 1 - (matrix_10 + matrix_11)
  let matrix_14 : ℚ := 0
  let matrix_13 : ℚ := matrix_14
  let matrix_19 : ℚ := 0
  let matrix_17 : ℚ := matrix_19
  let matrix_16 : ℚ := matrix_17
  let matrix_15 : ℚ := matrix_16
  let matrix_18 : ℚ := 1
  fun i =>
    [matrix_0, matrix_1, matrix_2, matrix_3, matrix_4, matrix_5, matrix_6, matrix_7, matrix_8,
     matrix_9, matrix_10, matrix_11, matrix_12, matrix_13, matrix_14, matrix_15, matrix_16,
     matrix_17, matrix_18, matrix_19].getD i 0

/-- The colour matrix `SkScalar matrix[20]` that
`FastPassColorFilterAlphaTranslation` fills in: `matrix_k` is the value that
the test assigns to `matrix[k]`, in the order of the assignments. -/
def FastPassColorFilterAlphaTranslation_matrix : Nat → ℚ :=
  let amount : ℚ := 0.5
  let matrix_0 : ℚ := 0.213 + 0.787 * amount
  let matrix_1 : ℚ := 0.715 - 0.715 * amount
  let matrix_2 : ℚ := 1 - (matrix_0 + matrix_1)
  let matrix_3 : ℚ := 0
  let matrix_4 : ℚ := 20
  let matrix_5 : ℚ := 0.213 - 0.213 * amount
  let matrix_6 : ℚ := 0.715 + 0.285 * amount
  let matrix_7 : ℚ := 1 - (matrix_5 + matrix_6)
  let matrix_8 : ℚ := 0
  let matrix_9 : ℚ := 200
  let matrix_10 : ℚ := 0.213 - 0.213 * amount
  let matrix_11 : ℚ := 0.715 - 0.715 * amount
  let matrix_12 : ℚ := 1 - (matrix_10 + matrix_11)
  let matrix_13 : ℚ := 0
  let matrix_14 : ℚ := 1.5
  let matrix_19 : ℚ := 0
  let matrix_17 : ℚ := matrix_19
  let matrix_16 : ℚ := matrix_17
  let matrix_15 : ℚ := matrix_16
  let matrix_18 : ℚ := 1
  fun i =>
    [matrix_0, matrix_1, matrix_2, matrix_3, matrix_4, matrix_5, matrix_6, matrix_7, matrix_8,
     matrix_9, matrix_10, matrix_11, matrix_12, matrix_13, matrix_14, matrix_15, matrix_16,
     matrix_17, matrix_18, matrix_19].getD i 0

/-- The body of `TYPED_TEST(RendererPixelTest, FastPassColorFilterAlpha)`. -/
def FastPassColorFilterAlpha (device_viewport_size_ : gfx.Size) : PixelTestScene :=
  let viewport_rect := gfx.Rect.ofSize device_viewport_size_
  let root_pass_id : RenderPass.Id := ⟨1, 1⟩
  let root_pass := CreateTestRootRenderPass root_pass_id viewport_rect
  let child_pass_id : RenderPass.Id := ⟨2, 2⟩
  let pass_rect := gfx.Rect.ofSize device_viewport_size_
  let transform_to_root := gfx.Transform.identity
  let child_pass := CreateTestRenderPass child_pass_id pass_rect transform_to_root
  let content_to_target_transform := gfx.Transform.identity
  -- address 0
  let shared_state := CreateTestSharedQuadState content_to_target_transform viewport_rect
  let shared_state := { shared_state with opacity := 0.5 }
  let blue := DrawQuad.SolidColor 0
    ⟨0, 0, device_viewport_size_.width, Int.tdiv device_viewport_size_.height 2⟩
    SK_ColorBLUE false
  let yellow := DrawQuad.SolidColor 0
    ⟨0, Int.tdiv device_viewport_size_.height 2, device_viewport_size_.width,
      Int.tdiv device_viewport_size_.height 2⟩
    SK_ColorYELLOW false
  -- address 1
  let blank_state := CreateTestSharedQuadState content_to_target_transform viewport_rect
  let white := DrawQuad.SolidColor 1 viewport_rect SK_ColorWHITE false
  let child_pass := child_pass.push_quad blue
  let child_pass := child_pass.push_quad yellow
  let child_pass := child_pass.push_quad white
  -- address 2
  let pass_shared_state := CreateTestSharedQuadState gfx.Transform.identity pass_rect
  let filter : SkColorMatrixFilter := ⟨FastPassColorFilterAlpha_matrix⟩
  let render_pass_quad := DrawQuad.RenderPass 2 pass_rect child_pass_id false 0 pass_rect
    gfx.RectF.empty [] (some filter) []
  let root_pass := root_pass.push_quad render_pass_quad
  let pass_list : RenderPassList := [child_pass, root_pass]
  { shared_states := [shared_state, blank_state, pass_shared_state],
    resource_provider_ := ⟨[]⟩, enlarge_pass_texture_amount := ⟨0, 0⟩,
    pass_list := pass_list, readback_target := none, ref_file := "blue_yellow_alpha.png" }

/-- The body of `TYPED_TEST(RendererPixelTest, FastPassColorFilterAlphaTranslation)`. -/
def FastPassColorFilterAlphaTranslation (device_viewport_size_ : gfx.Size) : PixelTestScene :=
  let viewport_rect := gfx.Rect.ofSize device_viewport_size_
  let root_pass_id : RenderPass.Id := ⟨1, 1⟩
  let root_pass := CreateTestRootRenderPass root_pass_id viewport_rect
  let child_pass_id : RenderPass.Id := ⟨2, 2⟩
  let pass_rect := gfx.Rect.ofSize device_viewport_size_
  let transform_to_root := gfx.Transform.identity
  let child_pass := CreateTestRenderPass child_pass_id pass_rect transform_to_root
  let content_to_target_transform := gfx.Transform.identity
  -- address 0
  let shared_state := CreateTestSharedQuadState content_to_target_transform viewport_rect
  let shared_state := { shared_state with opacity := 0.5 }
  let blue := DrawQuad.SolidColor 0
    ⟨0, 0, device_viewport_size_.width, Int.tdiv device_viewport_size_.height 2⟩
    SK_ColorBLUE false
  let yellow := DrawQuad.SolidColor 0
    ⟨0, Int.tdiv device_viewport_size_.height 2, device_viewport_size_.width,
      Int.tdiv device_viewport_size_.height 2⟩
    SK_ColorYELLOW false
  -- address 1
  let blank_state := CreateTestSharedQuadState content_to_target_transform viewport_rect
  let white := DrawQuad.SolidColor 1 viewport_rect SK_ColorWHITE false
  let child_pass := child_pass.push_quad blue
  let child_pass := child_pass.push_quad yellow
  let child_pass := child_pass.push_quad white
  -- address 2
  let pass_shared_state := CreateTestSharedQuadState gfx.Transform.identity pass_rect
  let filter : SkColorMatrixFilter := ⟨FastPassColorFilterAlphaTranslation_matrix⟩
  let render_pass_quad := DrawQuad.RenderPass 2 pass_rect child_pass_id false 0 pass_rect
    gfx.RectF.empty [] (some filter) []
  let root_pass := root_pass.push_quad render_pass_quad
  let pass_list : RenderPassList := [child_pass, root_pass]
  { shared_states := [shared_state, blank_state, pass_shared_state],
    resource_provider_ := ⟨[]⟩, enlarge_pass_texture_amount := ⟨0, 0⟩,
    pass_list := pass_list, readback_target := none,
    ref_file := "blue_yellow_alpha_translate.png" }

/-- The body of `TYPED_TEST(RendererPixelTest, EnlargedRenderPassTexture)`. -/
def EnlargedRenderPassTexture (device_viewport_size_ : gfx.Size) : PixelTestScene :=
  let viewport_rect := gfx.Rect.ofSize device_viewport_size_
  let root_pass_id : RenderPass.Id := ⟨1, 1⟩
  let root_pass := CreateTestRootRenderPass root_pass_id viewport_rect
  let child_pass_id : RenderPass.Id := ⟨2, 2⟩
  let pass_rect := gfx.Rect.ofSize device_viewport_size_
  let transform_to_root := gfx.Transform.identity
  let child_pass := CreateTestRenderPass child_pass_id pass_rect transform_to_root
  let content_to_target_transform := gfx.Transform.identity
  -- address 0
  let shared_state := CreateTestSharedQuadState content_to_target_transform viewport_rect
  let blue := DrawQuad.SolidColor 0
    ⟨0, 0, device_viewport_size_.width, Int.tdiv device_viewport_size_.height 2⟩
    SK_ColorBLUE false
  let yellow := DrawQuad.SolidColor 0
    ⟨0, Int.tdiv device_viewport_size_.height 2, device_viewport_size_.width,
      Int.tdiv device_viewport_size_.height 2⟩
    SK_ColorYELLOW false
  let child_pass := child_pass.push_quad blue
  let child_pass := child_pass.push_quad yellow
  -- address 1
  let pass_shared_state := CreateTestSharedQuadState gfx.Transform.identity pass_rect
  let root_pass := root_pass.push_quad (CreateTestRenderPassDrawQuad 1 pass_rect child_pass_id)
  let pass_list : RenderPassList := [child_pass, root_pass]
  { shared_states := [shared_state, pass_shared_state], resource_provider_ := ⟨[]⟩,
    enlarge_pass_texture_amount := ⟨50, 75⟩, pass_list := pass_list,
    readback_target := none, ref_file := "blue_yellow.png" }

/-- The body of
`TYPED_TEST(RendererPixelTest, EnlargedRenderPassTextureWithAntiAliasing)`. -/
def EnlargedRenderPassTextureWithAntiAliasing (device_viewport_size_ : gfx.Size) :
    PixelTestScene :=
  let viewport_rect := gfx.Rect.ofSize device_viewport_size_
  let root_pass_id : RenderPass.Id := ⟨1, 1⟩
  let root_pass := CreateTestRootRenderPass root_pass_id viewport_rect
  let child_pass_id : RenderPass.Id := ⟨2, 2⟩
  let pass_rect := gfx.Rect.ofSize device_viewport_size_
  let transform_to_root := gfx.Transform.identity
  let child_pass := CreateTestRenderPass child_pass_id pass_rect transform_to_root
  let content_to_target_transform := gfx.Transform.identity
  -- address 0
  let shared_state := CreateTestSharedQuadState content_to_target_transform viewport_rect
  let blue := DrawQuad.SolidColor 0
    ⟨0, 0, device_viewport_size_.width, Int.tdiv device_viewport_size_.height 2⟩
    SK_ColorBLUE false
  let yellow := DrawQuad.SolidColor 0
    ⟨0, Int.tdiv device_viewport_size_.height 2, device_viewport_size_.width,
      Int.tdiv device_viewport_size_.height 2⟩
    SK_ColorYELLOW false
  let child_pass := child_pass.push_quad blue
  let child_pass := child_pass.push_quad yellow
  let aa_transform := gfx.Transform.identity
  let aa_transform := aa_transform.Translate 0.5 0.0
  -- address 1
  let pass_shared_state := CreateTestSharedQuadState aa_transform pass_rect
  let root_pass := root_pass.push_quad (CreateTestRenderPassDrawQuad 1 pass_rect child_pass_id)
  -- address 2
  let root_shared_state := CreateTestSharedQuadState gfx.Transform.identity viewport_rect
  let background := DrawQuad.SolidColor 2 (gfx.Rect.ofSize device_viewport_size_)
    SK_ColorWHITE false
  let root_pass := root_pass.push_quad background
  let pass_list : RenderPassList := [child_pass, root_pass]
  { shared_states := [shared_state, pass_shared_state, root_shared_state],
    resource_provider_ := ⟨[]⟩, enlarge_pass_texture_amount := ⟨50, 75⟩,
    pass_list := pass_list, readback_target := none,
    ref_file := "blue_yellow_anti_aliasing.png" }

/-- One of the three loops of `SetUpRenderPassList`,
`for (int i = 0; rect.y() < device_viewport_rect.height(); ++i)`: each round
creates a shared state, pushes a solid-colour quad of the column's colour and
the shared state onto the root pass, and moves the rectangle down by its height
plus one.  `rounds` bounds the number of rounds. -/
def SetUpRenderPassList_column (viewport_height : Int) (color : SkColor) :
    Nat → gfx.Rect → List SharedQuadState × RenderPass → List SharedQuadState × RenderPass
  | 0, _, built => built
  | rounds + 1, rect, (shared_states, root_pass) =>
    if rect.y < viewport_height then
      let shared_state := CreateTestSharedQuadState gfx.Transform.identity rect
      let address := shared_states.length
      let color_quad := DrawQuad.SolidColor address rect color false
      let root_pass := root_pass.push_quad color_quad
      let root_pass := root_pass.push_shared_quad_state address
      SetUpRenderPassList_column viewport_height color rounds
        (rect.Offset ⟨0, rect.height + 1⟩) (shared_states ++ [shared_state], root_pass)
    else (shared_states, root_pass)

/-- The fixture method `RendererPixelTestWithBackgroundFilter::SetUpRenderPassList`;
the members `background_filters_`, `filter_pass_to_target_transform_` and
`filter_pass_content_rect_` are set by the test before the call.  It returns the
shared states it created and the member `pass_list_`.  No column needs more
rounds than the viewport is high. -/
def SetUpRenderPassList (device_viewport_size_ : gfx.Size)
    (background_filters_ : FilterOperations)
    (filter_pass_to_target_transform_ : gfx.Transform)
    (filter_pass_content_rect_ : gfx.Rect) : List SharedQuadState × RenderPassList :=
  let device_viewport_rect := gfx.Rect.ofSize device_viewport_size_
  let root_id : RenderPass.Id := ⟨1, 1⟩
  let root_pass := CreateTestRootRenderPass root_id device_viewport_rect
  let root_pass := { root_pass with has_transparent_background := false }
  let identity_content_to_target_transform := gfx.Transform.identity
  let filter_pass_id : RenderPass.Id := ⟨2, 1⟩
  let transform_to_root := gfx.Transform.identity
  let filter_pass := CreateTestRenderPass filter_pass_id filter_pass_content_rect_
    transform_to_root
  -- A non-visible quad in the filtering render pass; its shared state has address 0.
  let shared_state_0 := CreateTestSharedQuadState identity_content_to_target_transform
    filter_pass_content_rect_
  let color_quad := DrawQuad.SolidColor 0 filter_pass_content_rect_ SK_ColorTRANSPARENT false
  let filter_pass := filter_pass.push_quad color_quad
  let filter_pass := filter_pass.push_shared_quad_state 0
  -- address 1
  let shared_state_1 := CreateTestSharedQuadState filter_pass_to_target_transform_
    filter_pass_content_rect_
  let filter_pass_quad := DrawQuad.RenderPass 1 filter_pass_content_rect_ filter_pass_id
    false 0 filter_pass_content_rect_ gfx.RectF.empty [] none background_filters_
  let root_pass := root_pass.push_quad filter_pass_quad
  let root_pass := root_pass.push_shared_quad_state 1
  let kColumnWidth := Int.tdiv device_viewport_rect.width 3
  let rounds := device_viewport_rect.height.toNat
  let left_rect : gfx.Rect := ⟨0, 0, kColumnWidth, 20⟩
  let built := SetUpRenderPassList_column device_viewport_rect.height SK_ColorGREEN rounds
    left_rect ([shared_state_0, shared_state_1], root_pass)
  let middle_rect : gfx.Rect := ⟨kColumnWidth + 1, 0, kColumnWidth, 20⟩
  let built := SetUpRenderPassList_column device_viewport_rect.height SK_ColorRED rounds
    middle_rect built
  let right_rect : gfx.Rect := ⟨(kColumnWidth + 1) * 2, 0, kColumnWidth, 20⟩
  let built := SetUpRenderPassList_column device_viewport_rect.height SK_ColorBLUE rounds
    right_rect built
  let shared_state := CreateTestSharedQuadState identity_content_to_target_transform
    device_viewport_rect
  let address := built.1.length
  let background_quad := DrawQuad.SolidColor address device_viewport_rect SK_ColorWHITE false
  let root_pass := built.2.push_quad background_quad
  let root_pass := root_pass.push_shared_quad_state address
  (built.1 ++ [shared_state], [filter_pass, root_pass])

/-- The call `FakePicturePileImpl::CreateFilledPile(tile_size, layer_bounds)`:
a pile with nothing recorded yet. -/
def FakePicturePileImpl.CreateFilledPile (tile_size layer_bounds : gfx.Size) :
    FakePicturePileImpl :=
  { tile_size := tile_size, layer_bounds := layer_bounds, draw_rects := [] }

/-- The call `pile->add_draw_rect_with_paint(rect, paint)`; the paint carries a
colour only. -/
def FakePicturePileImpl.add_draw_rect_with_paint (pile : FakePicturePileImpl)
    (rect : gfx.Rect) (paint : SkColor) : FakePicturePileImpl :=
  { pile with draw_rects := pile.draw_rects ++ [(rect, paint)] }

/-- The body of
`TYPED_TEST(RendererPixelTestWithSkiaGPUBackend, PictureDrawQuadIdentityScale)`:
the clipped blue quad is pushed first, the viewport-filling green quad second.
`use_skia_gpu_backend` and `contents_swizzled` come from the fixture and the
platform. -/
def PictureDrawQuadIdentityScale (device_viewport_size_ : gfx.Size)
    (use_skia_gpu_backend contents_swizzled : Bool) : PixelTestScene :=
  let pile_tile_size : gfx.Size := ⟨1000, 1000⟩
  let viewport := gfx.Rect.ofSize device_viewport_size_
  let id : RenderPass.Id := ⟨1, 1⟩
  let transform_to_root := gfx.Transform.identity
  let pass := CreateTestRenderPass id viewport transform_to_root
  -- One clipped blue quad in the lower right corner.  Outside the clip
  -- is red, which should not appear.
  let blue_rect := gfx.Rect.ofSize ⟨100, 100⟩
  let blue_clip_rect := gfx.Rect.ofPointSize ⟨50, 50⟩ ⟨50, 50⟩
  let blue_pile := FakePicturePileImpl.CreateFilledPile pile_tile_size blue_rect.size
  let red_paint := SK_ColorRED
  let blue_pile := blue_pile.add_draw_rect_with_paint blue_rect red_paint
  let blue_paint := SK_ColorBLUE
  let blue_pile := blue_pile.add_draw_rect_with_paint blue_clip_rect blue_paint
  let blue_content_to_target_transform := gfx.Transform.identity
  let offset := viewport.bottom_right.sub blue_rect.bottom_right
  let blue_content_to_target_transform :=
    blue_content_to_target_transform.Translate offset.x offset.y
  let blue_scissor_rect := gfx.RectF.ofRect blue_clip_rect
  let blue_scissor_rect := blue_content_to_target_transform.TransformRect blue_scissor_rect
  -- address 0
  let blue_shared_state := CreateTestSharedQuadStateClipped blue_content_to_target_transform
    blue_rect (gfx.ToEnclosingRect blue_scissor_rect)
  let blue_quad := DrawQuad.Picture 0
    viewport  -- Intentionally bigger than clip.
    gfx.Rect.empty (gfx.RectF.ofRect viewport) viewport.size contents_swizzled viewport 1
    use_skia_gpu_backend blue_pile
  let pass := pass.push_quad blue_quad
  -- One viewport-filling green quad.
  let green_pile := FakePicturePileImpl.CreateFilledPile pile_tile_size viewport.size
  let green_paint := SK_ColorGREEN
  let green_pile := green_pile.add_draw_rect_with_paint viewport green_paint
  let green_content_to_target_transform := gfx.Transform.identity
  -- address 1
  let green_shared_state := CreateTestSharedQuadState green_content_to_target_transform viewport
  let green_quad := DrawQuad.Picture 1 viewport gfx.Rect.empty ⟨0, 0, 1, 1⟩ viewport.size
    contents_swizzled viewport 1 use_skia_gpu_backend green_pile
  let pass := pass.push_quad green_quad
  let pass_list : RenderPassList := [pass]
  { shared_states := [blue_shared_state, green_shared_state], resource_provider_ := ⟨[]⟩,
    enlarge_pass_texture_amount := ⟨0, 0⟩, pass_list := pass_list,
    readback_target := none, ref_file := "green_with_blue_corner.png" }

/-! ## Properties of scenes and bitmaps -/

/-- A bitmap of the given size whose pixels all have the colour `c`. -/
def SkBitmap.FilledWith (bitmap : SkBitmap) (size : gfx.Size) (c : SkColor) : Prop :=
  bitmap.width = size.width ∧ bitmap.height = size.height
    ∧ ∀ x y : Int, 0 ≤ x → x < size.width → 0 ≤ y → y < size.height → bitmap.pixel x y = c

/-- The ids of the passes that the render-pass quads of a pass reference. -/
def RenderPass.referenced_passes (pass : RenderPass) : List RenderPass.Id :=
  pass.quad_list.filterMap fun quad =>
    match quad with
    | .RenderPass _ _ render_pass_id _ _ _ _ _ _ _ => some render_pass_id
    | _ => none

/-- The invariant of a pass list: every render-pass quad references the id of a
pass that occurs strictly earlier in the list than the pass that contains the
quad, and of no pass from there on. -/
def ReferencesOnlyEarlierPasses (pass_list : RenderPassList) : Prop :=
  ∀ (earlier : RenderPassList) (pass : RenderPass) (later : RenderPassList),
    pass_list = earlier ++ pass :: later →
    ∀ id ∈ pass.referenced_passes,
      (∃ p ∈ earlier, p.id = id) ∧ ∀ p ∈ pass :: later, p.id ≠ id

/-- The ownership invariant of a pass: every quad of the pass refers to a
shared state in the pass's own `shared_quad_state_list`. -/
def RenderPass.OwnsItsSharedStates (pass : RenderPass) : Prop :=
  ∀ quad ∈ pass.quad_list, quad.shared_quad_state ∈ pass.shared_quad_state_list

/-- The quad with the foreground colour filter of a render-pass quad replaced;
every other quad stays as it is. -/
def DrawQuad.withColorFilter (filter : Option SkColorMatrixFilter) : DrawQuad → DrawQuad
  | .RenderPass shared_quad_state rect render_pass_id is_replica mask_resource_id
      contents_changed_since_last_frame mask_uv_rect filters _ background_filters =>
    .RenderPass shared_quad_state rect render_pass_id is_replica mask_resource_id
      contents_changed_since_last_frame mask_uv_rect filters filter background_filters
  | quad => quad

/-- The pass with the foreground colour filter of its render-pass quads
replaced. -/
def RenderPass.withColorFilter (filter : Option SkColorMatrixFilter) (pass : RenderPass) :
    RenderPass :=
  { pass with quad_list := pass.quad_list.map (DrawQuad.withColorFilter filter) }

/-- Two finished passes that show the same to the passes after them: the same
id, the same output rectangle and the same colour at every texel position. -/
def FinishedPass.SamePixels (a b : FinishedPass) : Prop :=
  a.id = b.id ∧ a.output_rect = b.output_rect ∧ a.texture.texel = b.texture.texel

/-- A quad that the renderer can draw: its shared-state reference points to a
live shared state, its transform translates by whole pixels, and its content is
available. -/
def DrawQuad.Drawable (quad : DrawQuad) (frame : DrawingFrame) : Prop :=
  ∃ state offset contents,
    frame.shared_states[quad.shared_quad_state]? = some state
    ∧ state.content_to_target_transform.integerTranslation = some offset
    ∧ QuadContents frame quad = .ok contents

/-- Whether the quad writes the target pixel `(x, y)` when it is drawn. -/
def DrawQuad.CoversPixel (quad : DrawQuad) (frame : DrawingFrame) (scissor : gfx.Rect)
    (x y : Int) : Bool :=
  match frame.shared_states[quad.shared_quad_state]? with
  | none => false
  | some state =>
    match state.content_to_target_transform.integerTranslation with
    | none => false
    | some offset => QuadCovers scissor state offset quad.rect x y

/-- The colour that an opaque quad shows at the target pixel `(x, y)`: the quad
covers the pixel, has opacity one, and its content there has full alpha. -/
def DrawQuad.OpaqueColorAt (quad : DrawQuad) (frame : DrawingFrame) (scissor : gfx.Rect)
    (x y : Int) : Option SkColor :=
  match frame.shared_states[quad.shared_quad_state]? with
  | none => none
  | some state =>
    match state.content_to_target_transform.integerTranslation with
    | none => none
    | some offset =>
      match QuadContents frame quad with
      | .error _ => none
      | .ok contents =>
        let c := contents (x - offset.x) (y - offset.y)
        if QuadCovers scissor state offset quad.rect x y = true ∧ state.opacity = 1
            ∧ c.a = 255 then some c
        else none

end cc

/-! ## The update check (`version_updater_chromeos.cc`) -/

namespace chromeos

/-- Modelled from the spec: `base::Value` as far as the update check reads it: a
boolean, or a value of another type. -/
inductive Value where
  | Boolean (value : Bool)
  | Other
deriving DecidableEq

/-- The call `value->GetAsBoolean(&out)`: the boolean, if the value is one. -/
def Value.GetAsBoolean : Value → Option Bool
  | .Boolean value => some value
  | .Other => none

/-- Modelled from the spec: `chromeos::NetworkState` as far as the update check
reads it. -/
structure NetworkState where
  IsConnectedState : Bool
  type : String
deriving DecidableEq

/-- Modelled from the spec: `UpdateEngineClient::UpdateStatusOperation`. -/
inductive UpdateStatusOperation where
  | UPDATE_STATUS_ERROR
  | UPDATE_STATUS_IDLE
  | UPDATE_STATUS_CHECKING_FOR_UPDATE
  | UPDATE_STATUS_UPDATE_AVAILABLE
  | UPDATE_STATUS_DOWNLOADING
  | UPDATE_STATUS_VERIFYING
  | UPDATE_STATUS_FINALIZING
  | UPDATE_STATUS_UPDATED_NEED_REBOOT
  | UPDATE_STATUS_REPORTING_ERROR_EVENT
deriving DecidableEq

end chromeos

namespace flimflam

/-- Modelled from the spec: the connection type constant `flimflam::kTypeBluetooth`. -/
def kTypeBluetooth : String := "bluetooth"

/-- Modelled from the spec: the connection type constant `flimflam::kTypeCellular`. -/
def kTypeCellular : String := "cellular"

end flimflam

/-- Network status in the context of device update. -/
inductive NetworkStatus where
  /-- It is allowed in device policy to use current network for update. -/
  | NETWORK_STATUS_ALLOWED
  /-- It is disallowed in device policy to use current network for update. -/
  | NETWORK_STATUS_DISALLOWED
  /-- Device is in offline state. -/
  | NETWORK_STATUS_OFFLINE
deriving DecidableEq

/-- The constant `kDefaultAutoUpdateDisabled`. -/
def kDefaultAutoUpdateDisabled : Bool := false

/-- What the update check reads from the rest of the browser.

* `cros_settings`: `none` if `CrosSettings::Get()` is null; otherwise the result
  of `GetPref(kUpdateDisabled)`, `none` if that is null;
* `default_network`: the result of `DefaultNetwork()`, `none` if null;
* `update_over_cellular_allowed`: `help_utils_chromeos::IsUpdateOverCellularAllowed()`;
* `default_controller`: whether `WizardController::default_controller()` is non-null;
* `device_registered`: `StartupUtils::IsDeviceRegistered()`. -/
structure UpdateEnvironment where
  cros_settings : Option (Option chromeos.Value)
  default_network : Option chromeos.NetworkState
  update_over_cellular_allowed : Bool
  default_controller : Bool
  device_registered : Bool

/-- Modelled from the spec: `VersionUpdater::Status`. -/
inductive VersionUpdater.Status where
  | CHECKING
  | UPDATING
  | NEARLY_UPDATED
  | UPDATED
  | FAILED
  | FAILED_OFFLINE
  | FAILED_CONNECTION_TYPE_DISALLOWED
deriving DecidableEq

/-- The message strings that the update check passes to the callback. -/
inductive UpdateMessage where
  /-- The empty string, `string16()`. -/
  | empty
  /-- The string `l10n_util::GetStringUTF16(IDS_UPGRADE_DISABLED_BY_POLICY)`. -/
  | IDS_UPGRADE_DISABLED_BY_POLICY
  /-- The string `l10n_util::GetStringUTF16(IDS_UPGRADE_OFFLINE)`. -/
  | IDS_UPGRADE_OFFLINE
  /-- The string `l10n_util::GetStringFUTF16(IDS_UPGRADE_DISALLOWED, type)` for
  the connection type `help_utils_chromeos::GetConnectionTypeAsUTF16(type)`. -/
  | IDS_UPGRADE_DISALLOWED (connection_type : String)
deriving DecidableEq

/-- A status callback, by identity. -/
abbrev StatusCallback := Nat

/-- What the update check does to the rest of the browser, in order. -/
inductive UpdateEffect where
  /-- The call `callback.Run(status, progress, message)`. -/
  | Run (callback : StatusCallback) (status : VersionUpdater.Status) (progress : Int)
      (message : UpdateMessage)
  /-- The call `update_engine_client->AddObserver(this)`. -/
  | AddObserver
  /-- The call `update_engine_client->RequestUpdateCheck(...)`. -/
  | RequestUpdateCheck
deriving DecidableEq

/-- The members of `VersionUpdaterCros`; `callback_` is `none` until a callback
is set. -/
structure VersionUpdaterCros where
  callback_ : Option StatusCallback
  last_operation_ : chromeos.UpdateStatusOperation
deriving DecidableEq

/-- The function `GetNetworkStatus(network)`. -/
def GetNetworkStatus (env : UpdateEnvironment) (network : Option chromeos.NetworkState) :
    NetworkStatus :=
  match network with
  | none => .NETWORK_STATUS_OFFLINE
  | some network =>
    if !network.IsConnectedState then .NETWORK_STATUS_OFFLINE  -- Offline state.
    else if network.type = flimflam.kTypeBluetooth then .NETWORK_STATUS_DISALLOWED
    else if network.type = flimflam.kTypeCellular ∧ !env.update_over_cellular_allowed then
      .NETWORK_STATUS_DISALLOWED
    else .NETWORK_STATUS_ALLOWED

/-- The function `IsAutoUpdateDisabled()`: whether auto-update is disabled by
the system administrator.  The result is `none` if the `CHECK` fails, that is if
the setting is present and not a boolean. -/
def IsAutoUpdateDisabled (env : UpdateEnvironment) : Option Bool :=
  let update_disabled := kDefaultAutoUpdateDisabled
  match env.cros_settings with
  | none => some update_disabled
  | some update_disabled_value =>
    match update_disabled_value with
    | none => some update_disabled
    | some value => value.GetAsBoolean

/-- The method `VersionUpdaterCros::CheckForUpdate(callback)`: the updater
afterwards and the effects in order; `none` if a `CHECK` fails. -/
def VersionUpdaterCros.CheckForUpdate (self : VersionUpdaterCros) (env : UpdateEnvironment)
    (callback : StatusCallback) : Option (VersionUpdaterCros × List UpdateEffect) :=
  let self := { self with callback_ := some callback }
  match IsAutoUpdateDisabled env with
  | none => none
  | some true =>
    some (self, [.Run callback .FAILED 0 .IDS_UPGRADE_DISABLED_BY_POLICY])
  | some false =>
    let network := env.default_network
    -- Don't proceed to update if we're currently offline or connected
    -- to a network for which updates are disallowed.
    let status := GetNetworkStatus env network
    if status = .NETWORK_STATUS_OFFLINE then
      some (self, [.Run callback .FAILED_OFFLINE 0 .IDS_UPGRADE_OFFLINE])
    else if status = .NETWORK_STATUS_DISALLOWED then
      match network with
      | none => none
      | some network =>
        let message := UpdateMessage.IDS_UPGRADE_DISALLOWED network.type
        some (self, [.Run callback .FAILED_CONNECTION_TYPE_DISALLOWED 0 message])
    else
      -- Make sure that libcros is loaded and OOBE is complete.
      if !env.default_controller || env.device_registered then
        some (self, [.AddObserver, .RequestUpdateCheck])
      else some (self, [.AddObserver])

/-! ## The display of the update status -/

namespace chromeos

/-- Modelled from the spec: `UpdateEngineClient::Status` as far as the updater
reads it: the operation of the update engine and the download progress, a
`double` whose finite values are rationals here. -/
structure UpdateEngineClient.Status where
  status : UpdateStatusOperation
  download_progress : ℚ

end chromeos

namespace cmath

/-- The function `round` of `<cmath>` on a finite value: the nearest integer,
halfway cases away from zero. -/
def round (value : ℚ) : Int :=
  if 0 ≤ value then Rat.floor (value + 1 / 2) else -Rat.floor (-value + 1 / 2)

end cmath

/-- The conversion `static_cast<int>(value)` of an integral `double` to the
32-bit `int`: the value if `int` can represent it; otherwise the behaviour is
undefined, `none`. -/
def static_cast_int (value : Int) : Option Int :=
  if -2 ^ 31 ≤ value ∧ value < 2 ^ 31 then some value else none

/-- The local variable `operation_to_show` of `UpdateStatusChanged`: if the
updater is currently idle, the last operation (unless it was previously checking
for an update), otherwise the operation of the status. -/
def VersionUpdaterCros.operation_to_show (self : VersionUpdaterCros)
    (status : chromeos.UpdateEngineClient.Status) : chromeos.UpdateStatusOperation :=
  if status.status = .UPDATE_STATUS_IDLE
      ∧ self.last_operation_ ≠ .UPDATE_STATUS_CHECKING_FOR_UPDATE then
    self.last_operation_
  else status.status

/-- The `switch` of `UpdateStatusChanged`: `my_status` and `progress` after it,
`none` if the conversion of the download progress to `int` is undefined. -/
def VersionUpdaterCros.status_to_show (operation_to_show : chromeos.UpdateStatusOperation)
    (status : chromeos.UpdateEngineClient.Status) : Option (VersionUpdater.Status × Int) :=
  let my_status := VersionUpdater.Status.UPDATED
  let progress : Int := 0
  match operation_to_show with
  | .UPDATE_STATUS_ERROR => some (my_status, progress)
  | .UPDATE_STATUS_REPORTING_ERROR_EVENT =>
    -- The update engine reports errors for some conditions that shouldn't
    -- actually be displayed as errors to users.  Just use the UPDATED status.
    some (my_status, progress)
  | .UPDATE_STATUS_CHECKING_FOR_UPDATE => some (.CHECKING, progress)
  | .UPDATE_STATUS_DOWNLOADING =>
    match static_cast_int (cmath.round (status.download_progress * 100)) with
    | none => none
    | some progress => some (.UPDATING, progress)  -- Fall through.
  | .UPDATE_STATUS_UPDATE_AVAILABLE => some (.UPDATING, progress)
  | .UPDATE_STATUS_VERIFYING => some (.UPDATING, 100)
  | .UPDATE_STATUS_FINALIZING =>
    -- Once the download is finished, keep the progress at 100; it shouldn't
    -- go down while the status is the same.
    some (.UPDATING, 100)
  | .UPDATE_STATUS_UPDATED_NEED_REBOOT => some (.NEARLY_UPDATED, progress)
  | .UPDATE_STATUS_IDLE => some (my_status, progress)  -- default

/-- The method `VersionUpdaterCros::UpdateStatusChanged(status)`: the updater
afterwards and the effects in order; `none` if the conversion of the download
progress is undefined or if `callback_`, which is run, is null. -/
def VersionUpdaterCros.UpdateStatusChanged (self : VersionUpdaterCros)
    (status : chromeos.UpdateEngineClient.Status) :
    Option (VersionUpdaterCros × List UpdateEffect) :=
  let message := UpdateMessage.empty
  let operation_to_show := self.operation_to_show status
  match VersionUpdaterCros.status_to_show operation_to_show status with
  | none => none
  | some (my_status, progress) =>
    match self.callback_ with
    | none => none
    | some callback =>
      some ({ self with last_operation_ := status.status },
        [.Run callback my_status progress message])

/-! ## The choice of the release channel -/

/-- What `SetChannel` reads from the rest of the browser.

* `IsEnterpriseManaged`: `g_browser_process->browser_policy_connector()->IsEnterpriseManaged()`;
* `IsCurrentUserOwner`: `UserManager::Get()->IsCurrentUserOwner()`.

The singletons that the method dereferences without a check exist. -/
structure ChannelEnvironment where
  IsEnterpriseManaged : Bool
  IsCurrentUserOwner : Bool
deriving DecidableEq

/-- What `SetChannel` does to the rest of the browser. -/
inductive ChannelEffect where
  /-- The call `DBusThreadManager::Get()->GetUpdateEngineClient()->SetChannel(channel,
  is_powerwash_allowed)`. -/
  | UpdateEngineClient_SetChannel (channel : String) (is_powerwash_allowed : Bool)
  /-- The call `CrosSettings::Get()->SetString(path, value)`. -/
  | CrosSettings_SetString (path : String) (value : String)
deriving DecidableEq

/-- The method `VersionUpdaterCros::SetChannel(channel, is_powerwash_allowed)`:
its effects in order.  The name `chromeos::kReleaseChannel` of the setting of
the release channel, which is not defined in the sources, is a parameter. -/
def VersionUpdaterCros.SetChannel (_self : VersionUpdaterCros) (kReleaseChannel : String)
    (env : ChannelEnvironment) (channel : String) (is_powerwash_allowed : Bool) :
    List ChannelEffect :=
  -- On enterprise machines we can only use SetChannel to store the
  -- user choice in the lsb-release file but we can not modify the
  -- policy blob.
  if env.IsEnterpriseManaged then
    [.UpdateEngineClient_SetChannel channel is_powerwash_allowed]
  else if env.IsCurrentUserOwner then
    -- For local owner set the field in the policy blob.
    [.CrosSettings_SetString kReleaseChannel channel]
  else []

/-! ## Signal sets (`sigdelset.c`) -/

/-- The 32-bit `int` of the Native Client ABI that a mathematical integer wraps
to in two's complement. -/
def wrap_int32 (value : Int) : Int :=
  (value + 2 ^ 31) % 2 ^ 32 - 2 ^ 31

/-- The expression `a << count` on `int`: undefined, `none`, unless
`0 <= count < 32`; a result that `int` cannot represent wraps in two's
complement, as the compilers of the Native Client SDK define it. -/
def shift_left_int32 (a count : Int) : Option Int :=
  if 0 ≤ count ∧ count < 32 then some (wrap_int32 (a * 2 ^ count.toNat)) else none

/-- The expression `~a` on `int`. -/
def bitwise_not_int32 (a : Int) : Int :=
  -a - 1

/-- The conversion of an `int` to the unsigned type `sigset_t` of
`sigset_t_bits` bits. -/
def to_sigset_t (sigset_t_bits : Nat) (a : Int) : Nat :=
  (a % 2 ^ sigset_t_bits).toNat

/-- The function `sigdelset(set, signum)`: the set afterwards and the result.
The width of `sigset_t`, which the C library defines, is a parameter. -/
def sigdelset (sigset_t_bits : Nat) (set : Nat) (signum : Int) : Option (Nat × Int) :=
  match shift_left_int32 1 signum with
  | none => none
  | some shifted =>
    -- *set &= ~(1 << signum);
    let set := Nat.land set (to_sigset_t sigset_t_bits (bitwise_not_int32 shifted))
    some (set, 0)

/-- Whether signal `signum` is a member of the signal set `set`. -/
def sigset_member (set : Nat) (signum : Nat) : Bool :=
  set.testBit signum

/-! ## Pixel comparators of the pixel tests -/

namespace cc

/-- Modelled from the spec: `FuzzyPixelComparator(discard_alpha,
error_pixels_percentage_limit, small_error_pixels_percentage_limit,
avg_abs_error_limit, max_abs_error_limit, small_error_threshold).Compare`, the
near-exact comparison of two bitmaps of the same size.  A pixel is an error
pixel if it differs in some channel (alpha left out with `discard_alpha`), and a
small-error pixel if moreover no channel differs by more than
`small_error_threshold`.  The comparison fails if the percentage of error
pixels, the percentage of small-error pixels, the mean error of a channel over
the error pixels or the largest error of a channel is above its limit. -/
def FuzzyPixelComparator.Compare (discard_alpha : Bool)
    (error_pixels_percentage_limit small_error_pixels_percentage_limit
      avg_abs_error_limit : ℚ)
    (max_abs_error_limit small_error_threshold : Int)
    (actual_bmp expected_bmp : SkBitmap) : Bool :=
  let abs_errors : List (List Int) :=
    (List.range actual_bmp.height.toNat).flatMap fun j =>
      (List.range actual_bmp.width.toNat).map fun i =>
        let actual := actual_bmp.pixel i j
        let expected := expected_bmp.pixel i j
        [|(actual.r.val : Int) - expected.r.val|, |(actual.g.val : Int) - expected.g.val|,
          |(actual.b.val : Int) - expected.b.val|,
          if discard_alpha then 0 else |(actual.a.val : Int) - expected.a.val|]
  let error_pixels := abs_errors.filter fun errors => errors.any fun e => decide (e ≠ 0)
  let small_error_pixels :=
    error_pixels.filter fun errors => errors.all fun e => decide (e ≤ small_error_threshold)
  let pixels_count : ℚ := abs_errors.length
  let error_pixels_percentage : ℚ :=
    if 0 < pixels_count then error_pixels.length / pixels_count * 100 else 0
  let small_error_pixels_percentage : ℚ :=
    if 0 < pixels_count then small_error_pixels.length / pixels_count * 100 else 0
  let avg_abs_error (channel : Nat) : ℚ :=
    if 0 < error_pixels.length then
      ((error_pixels.map fun errors => errors.getD channel 0).sum : Int) / error_pixels.length
    else 0
  let max_abs_error (channel : Nat) : Int :=
    (error_pixels.map fun errors => errors.getD channel 0).foldl max 0
  decide (actual_bmp.width = expected_bmp.width)
    && decide (actual_bmp.height = expected_bmp.height)
    && !(decide (error_pixels_percentage > error_pixels_percentage_limit)
      || decide (small_error_pixels_percentage > small_error_pixels_percentage_limit)
      || (List.range 4).any fun channel =>
          decide (avg_abs_error channel > avg_abs_error_limit)
            || decide (max_abs_error channel > max_abs_error_limit))

/-- The class `FuzzyPixelOffByOneComparator`: all pixels can be off by one, but
any more than that is an error. -/
def FuzzyPixelOffByOneComparator.Compare (discard_alpha : Bool)
    (actual_bmp expected_bmp : SkBitmap) : Bool :=
  FuzzyPixelComparator.Compare discard_alpha 100 0 1 1 0 actual_bmp expected_bmp

/-- The members of `FuzzyForSoftwareOnlyPixelComparator<RendererType>`: the two
inner comparators, each by the `discard_alpha` flag it is built with. -/
structure FuzzyForSoftwareOnlyPixelComparator where
  /-- The member `fuzzy_`, a `FuzzyPixelOffByOneComparator`. -/
  fuzzy_ : Bool
  /-- The member `exact_`, an `ExactPixelComparator`. -/
  exact_ : Bool
deriving DecidableEq

/-- The constructor `FuzzyForSoftwareOnlyPixelComparator(discard_alpha)`. -/
def FuzzyForSoftwareOnlyPixelComparator.Create (discard_alpha : Bool) :
    FuzzyForSoftwareOnlyPixelComparator :=
  { fuzzy_ := discard_alpha, exact_ := discard_alpha }

/-- The method `FuzzyForSoftwareOnlyPixelComparator<RendererType>::Compare`: the
two explicit specialisations and the primary template. -/
def FuzzyForSoftwareOnlyPixelComparator.Compare (type : RendererType)
    (self : FuzzyForSoftwareOnlyPixelComparator) (actual_bmp expected_bmp : SkBitmap) : Bool :=
  match type with
  | .SoftwareRenderer => FuzzyPixelOffByOneComparator.Compare self.fuzzy_ actual_bmp expected_bmp
  | .SoftwareRendererWithExpandedViewport =>
    FuzzyPixelOffByOneComparator.Compare self.fuzzy_ actual_bmp expected_bmp
  | _ => ExactPixelComparator.Compare self.exact_ actual_bmp expected_bmp

end cc


/-! ## Lemmas on the compositor model -/

namespace cc

theorem Except.ok_bind {ε α β : Type} (a : α) (f : α → Except ε β) :
    (Except.ok a >>= f) = f a := rfl

theorem Except.error_bind {ε α β : Type} (e : ε) (f : α → Except ε β) :
    ((Except.error e : Except ε α) >>= f) = Except.error e := rfl

theorem Except.pure_eq {ε α : Type} (a : α) : (pure a : Except ε α) = Except.ok a := rfl

theorem Quantize_natCast (renderer : RendererType) (n : Nat) (h : n ≤ 255) :
    (Quantize renderer (n : ℚ)).val = n := by
  cases hs : renderer.isSoftware
  · have : ⌊((n : ℚ)) + 1 / 2⌋ = (n : Int) := by
      rw [Int.floor_eq_iff]; constructor <;> push_cast <;> linarith
    simp only [Quantize, hs, this]
    simp [h]
  · simp only [Quantize, hs]
    simp [h]

theorem Quantize_val (renderer : RendererType) (n : Fin 256) :
    Quantize renderer (n.val : ℚ) = n :=
  Fin.ext (Quantize_natCast renderer n.val (by have := n.isLt; omega))

/-- An opaque colour at opacity one replaces the destination. -/
theorem Blend_opaque_src (renderer : RendererType) (src dst : SkColor) (h : src.a = 255) :
    Blend renderer 1 src dst = src := by
  have e : ((255 : Fin 256).val : ℚ) = 255 := by
    have : (255 : Fin 256).val = 255 := rfl
    rw [this]; norm_num
  have q : Quantize renderer (255 : ℚ) = 255 := by
    have := Quantize_val renderer 255
    rwa [e] at this
  cases src with
  | mk a r g b =>
    simp only at h
    subst h
    simp only [Blend, Blend.d_alpha_rest, e, one_mul, sub_self, mul_zero, add_zero, zero_div]
    simp [q, Quantize_val]

theorem integerTranslation_identity :
    gfx.Transform.identity.integerTranslation = some ⟨0, 0⟩ := by
  simp [gfx.Transform.integerTranslation, gfx.Transform.identity]

theorem integerTranslation_translate (x y : Int) :
    (gfx.Transform.identity.Translate x y).integerTranslation = some ⟨x, y⟩ := by
  simp [gfx.Transform.integerTranslation, gfx.Transform.identity, gfx.Transform.Translate]

theorem Contains_iff (r : gfx.Rect) (x y : Int) :
    r.Contains x y = true ↔ r.x ≤ x ∧ x < r.x + r.width ∧ r.y ≤ y ∧ y < r.y + r.height := by
  simp [gfx.Rect.Contains, gfx.Rect.right, gfx.Rect.bottom, and_assoc]

theorem DrawOneQuad_ok (frame : DrawingFrame) (scissor : gfx.Rect) (quad : DrawQuad)
    (dst : Canvas) (state : SharedQuadState) (offset : gfx.Vector2d) (contents : Canvas)
    (hs : frame.shared_states[quad.shared_quad_state]? = some state)
    (ht : state.content_to_target_transform.integerTranslation = some offset)
    (hq : QuadContents frame quad = .ok contents) :
    DrawOneQuad frame scissor quad dst = .ok fun x y =>
      if QuadCovers scissor state offset quad.rect x y then
        Blend frame.renderer state.opacity (contents (x - offset.x) (y - offset.y))
          (ApplyFilterOperations frame.renderer quad.background_filters (dst x y))
      else dst x y := by
  simp only [DrawOneQuad, hs, Except.ok_bind, ht, hq, Except.pure_eq]

theorem DrawOneQuad_inv (frame : DrawingFrame) (scissor : gfx.Rect) (quad : DrawQuad)
    (dst canvas : Canvas) (h : DrawOneQuad frame scissor quad dst = .ok canvas) :
    ∃ state offset contents,
      frame.shared_states[quad.shared_quad_state]? = some state
      ∧ state.content_to_target_transform.integerTranslation = some offset
      ∧ QuadContents frame quad = .ok contents
      ∧ canvas = fun x y =>
          if QuadCovers scissor state offset quad.rect x y then
            Blend frame.renderer state.opacity (contents (x - offset.x) (y - offset.y))
              (ApplyFilterOperations frame.renderer quad.background_filters (dst x y))
          else dst x y := by
  unfold DrawOneQuad at h
  rcases hs : frame.shared_states[quad.shared_quad_state]? with _ | state
  · simp [hs, Except.error_bind] at h
  · rcases ht : state.content_to_target_transform.integerTranslation with _ | offset
    · simp [hs, ht, Except.ok_bind, Except.error_bind] at h
    · rcases hq : QuadContents frame quad with e | contents
      · simp [hs, ht, hq, Except.ok_bind, Except.error_bind] at h
      · simp only [hs, ht, hq, Except.ok_bind, Except.pure_eq, Except.ok.injEq] at h
        exact ⟨state, offset, contents, rfl, ht, rfl, h.symm⟩

theorem DrawOneQuad_not_covered (frame : DrawingFrame) (scissor : gfx.Rect) (quad : DrawQuad)
    (dst canvas : Canvas) (x y : Int) (h : DrawOneQuad frame scissor quad dst = .ok canvas)
    (hc : quad.CoversPixel frame scissor x y = false) : canvas x y = dst x y := by
  obtain ⟨state, offset, contents, hs, ht, -, rfl⟩ := DrawOneQuad_inv _ _ _ _ _ h
  simp only [DrawQuad.CoversPixel, hs, ht] at hc
  simp [hc]

theorem DrawOneQuad_opaque_quad (frame : DrawingFrame) (scissor : gfx.Rect) (quad : DrawQuad)
    (dst canvas : Canvas) (x y : Int) (c : SkColor)
    (h : DrawOneQuad frame scissor quad dst = .ok canvas)
    (hc : quad.OpaqueColorAt frame scissor x y = some c) : canvas x y = c := by
  obtain ⟨state, offset, contents, hs, ht, hq, rfl⟩ := DrawOneQuad_inv _ _ _ _ _ h
  simp only [DrawQuad.OpaqueColorAt, hs, ht, hq] at hc
  split at hc
  · rename_i hcond
    obtain ⟨hcov, hop, ha⟩ := hcond
    simp only [Option.some.injEq] at hc
    subst hc
    simp only [hcov, if_true, hop]
    exact Blend_opaque_src _ _ _ ha
  · simp at hc

theorem Drawable_of_OpaqueColorAt (frame : DrawingFrame) (scissor : gfx.Rect) (quad : DrawQuad)
    (x y : Int) (c : SkColor) (h : quad.OpaqueColorAt frame scissor x y = some c) :
    quad.Drawable frame := by
  unfold DrawQuad.OpaqueColorAt at h
  rcases hs : frame.shared_states[quad.shared_quad_state]? with _ | state
  · simp [hs] at h
  · rcases ht : state.content_to_target_transform.integerTranslation with _ | offset
    · simp [hs, ht] at h
    · rcases hq : QuadContents frame quad with e | contents
      · simp [hs, ht, hq] at h
      · exact ⟨state, offset, contents, hs, ht, hq⟩

theorem foldr_draw_cons_inv (frame : DrawingFrame) (scissor : gfx.Rect)
    (init : Except RenderError Canvas) (q : DrawQuad) (qs : List DrawQuad) (canvas : Canvas)
    (h : (q :: qs).foldr (fun quad drawn => drawn >>= DrawOneQuad frame scissor quad) init
      = .ok canvas) :
    ∃ dst, qs.foldr (fun quad drawn => drawn >>= DrawOneQuad frame scissor quad) init = .ok dst
      ∧ DrawOneQuad frame scissor q dst = .ok canvas := by
  simp only [List.foldr_cons] at h
  rcases hd : qs.foldr (fun quad drawn => drawn >>= DrawOneQuad frame scissor quad) init
    with e | dst
  · simp [hd, Except.error_bind] at h
  · rw [hd, Except.ok_bind] at h
    exact ⟨dst, rfl, h⟩

/-- Drawing a pass in list order is folding over the reversed quad list from the
right. -/
theorem DrawRenderPass_eq_foldr (frame : DrawingFrame) (is_root : Bool) (pass : RenderPass) :
    DrawRenderPass frame is_root pass
      = pass.quad_list.reverse.foldr
          (fun quad drawn => drawn >>= DrawOneQuad frame pass.output_rect quad)
          (.ok fun _ _ => ClearColor is_root pass) := by
  unfold DrawRenderPass
  rw [List.foldr_reverse]

/-- A pass whose quads can all be drawn is drawn. -/
theorem DrawRenderPass_ok (frame : DrawingFrame) (is_root : Bool) (pass : RenderPass)
    (h : ∀ quad ∈ pass.quad_list, quad.Drawable frame) :
    ∃ canvas, DrawRenderPass frame is_root pass = .ok canvas := by
  rw [DrawRenderPass_eq_foldr]
  have h' : ∀ quad ∈ pass.quad_list.reverse, quad.Drawable frame :=
    fun quad hquad => h quad (List.mem_reverse.1 hquad)
  generalize pass.quad_list.reverse = quads at h'
  clear h
  rename' h' => h
  induction quads with
  | nil => exact ⟨_, rfl⟩
  | cons q qs ih =>
    obtain ⟨dst, hdst⟩ := ih (fun q' hq' => h q' (List.mem_cons_of_mem _ hq'))
    obtain ⟨state, offset, contents, hs, ht, hq⟩ := h q (List.mem_cons_self _ _)
    rw [List.foldr_cons, hdst, Except.ok_bind, DrawOneQuad_ok _ _ _ _ _ _ _ hs ht hq]
    exact ⟨_, rfl⟩

/-- The last opaque quad that covers a pixel decides it: quads are drawn in list
order, later quads over earlier ones. -/
theorem DrawRenderPass_last_opaque_quad (frame : DrawingFrame) (is_root : Bool)
    (pass : RenderPass) (canvas : Canvas) (before after : List DrawQuad) (quad : DrawQuad)
    (x y : Int) (c : SkColor)
    (hdraw : DrawRenderPass frame is_root pass = .ok canvas)
    (hlist : pass.quad_list = before ++ quad :: after)
    (hafter : ∀ q ∈ after, q.CoversPixel frame pass.output_rect x y = false)
    (hquad : quad.OpaqueColorAt frame pass.output_rect x y = some c) :
    canvas x y = c := by
  rw [DrawRenderPass_eq_foldr, hlist, List.reverse_append, List.reverse_cons,
    List.append_assoc, List.singleton_append] at hdraw
  clear hlist
  have hfront : ∀ q ∈ after.reverse, q.CoversPixel frame pass.output_rect x y = false :=
    fun q hq => hafter q (List.mem_reverse.1 hq)
  generalize after.reverse = front at hdraw hfront
  clear hafter
  induction front generalizing canvas with
  | nil =>
    obtain ⟨dst, -, hq⟩ := foldr_draw_cons_inv _ _ _ _ _ _ hdraw
    exact DrawOneQuad_opaque_quad _ _ _ _ _ _ _ _ hq hquad
  | cons q qs ih =>
    obtain ⟨dst, hrest, hq⟩ := foldr_draw_cons_inv _ _ _ _ _ _ hdraw
    rw [DrawOneQuad_not_covered _ _ _ _ _ _ _ hq (hfront q (List.mem_cons_self _ _))]
    exact ih dst hrest (fun q' hq' => hfront q' (List.mem_cons_of_mem _ hq'))

theorem DrawFrame_root_only (renderer : Renderer) (size : gfx.Size)
    (states : List SharedQuadState) (provider : ResourceProvider) (root : RenderPass) :
    DrawFrame renderer size states provider [root] none
      = (DrawRenderPass ⟨renderer.type, states, provider, []⟩ true root).map
          fun canvas => ⟨size.width, size.height, canvas⟩ := by
  simp only [DrawFrame, List.getLast?_singleton, List.dropLast_single, DrawNonRootPasses,
    Except.ok_bind]
  cases DrawRenderPass ⟨renderer.type, states, provider, []⟩ true root <;> rfl


theorem QuadCovers_outside (scissor : gfx.Rect) (state : SharedQuadState)
    (offset : gfx.Vector2d) (rect : gfx.Rect) (x y : Int)
    (h : scissor.Contains x y = false) : QuadCovers scissor state offset rect x y = false := by
  simp [QuadCovers, h]

/-- Nothing is written outside the output rectangle of a pass. -/
theorem DrawRenderPass_outside (frame : DrawingFrame) (is_root : Bool) (pass : RenderPass)
    (canvas : Canvas) (x y : Int) (hdraw : DrawRenderPass frame is_root pass = .ok canvas)
    (h : pass.output_rect.Contains x y = false) : canvas x y = ClearColor is_root pass := by
  rw [DrawRenderPass_eq_foldr] at hdraw
  generalize pass.quad_list.reverse = quads at hdraw
  induction quads generalizing canvas with
  | nil =>
    simp only [List.foldr_nil, Except.ok.injEq] at hdraw
    rw [← hdraw]
  | cons q qs ih =>
    obtain ⟨dst, hrest, hq⟩ := foldr_draw_cons_inv _ _ _ _ _ _ hdraw
    obtain ⟨state, offset, contents, -, -, -, rfl⟩ := DrawOneQuad_inv _ _ _ _ _ hq
    simp only [QuadCovers_outside _ _ _ _ _ _ h, Bool.false_eq_true, if_false]
    exact ih dst hrest

theorem range_map_getD {α : Type} (f : Nat → α) (n k : Nat) (d : α) (h : k < n) :
    ((List.range n).map f).getD k d = f k := by
  simp [List.getD, List.getElem?_map, List.getElem?_range h]

/-- The buffer of a finished pass holds the pixels of its output rectangle and
is transparent elsewhere, whatever the margin it was enlarged by. -/
theorem AllocatePassTexture_texel (enlarge : gfx.Vector2d) (pass : RenderPass) (canvas : Canvas)
    (hex : 0 ≤ enlarge.x) (hey : 0 ≤ enlarge.y)
    (hw : 0 < pass.output_rect.width) (hh : 0 < pass.output_rect.height)
    (hout : ∀ x y, pass.output_rect.Contains x y = false → canvas x y = SK_ColorTRANSPARENT) :
    ∃ texture, AllocatePassTexture enlarge pass canvas = .ok texture
      ∧ texture.texel = fun i j =>
          if 0 ≤ i ∧ i < pass.output_rect.width ∧ 0 ≤ j ∧ j < pass.output_rect.height then
            canvas (pass.output_rect.x + i) (pass.output_rect.y + j)
          else SK_ColorTRANSPARENT := by
  have hW : ¬ (pass.output_rect.width + enlarge.x ≤ 0 ∨ pass.output_rect.height + enlarge.y ≤ 0) := by
    omega
  have halloc : AllocatePassTexture enlarge pass canvas = .ok
      { width := (pass.output_rect.width + enlarge.x).toNat,
        height := (pass.output_rect.height + enlarge.y).toNat,
        data := (List.range ((pass.output_rect.width + enlarge.x).toNat
            * (pass.output_rect.height + enlarge.y).toNat)).map fun k =>
          canvas (pass.output_rect.x + ((k % (pass.output_rect.width + enlarge.x).toNat : Nat) : Int))
            (pass.output_rect.y + ((k / (pass.output_rect.width + enlarge.x).toNat : Nat) : Int)) } := by
    simp only [AllocatePassTexture, hW, if_false]
  refine ⟨_, halloc, ?_⟩
  funext i j
  simp only [PassTexture.texel]
  by_cases hin : 0 ≤ i ∧ i < ((pass.output_rect.width + enlarge.x).toNat : Int)
      ∧ 0 ≤ j ∧ j < ((pass.output_rect.height + enlarge.y).toNat : Int)
  · obtain ⟨hi0, hi, hj0, hj⟩ := hin
    rw [if_pos ⟨hi0, hi, hj0, hj⟩]
    set W := (pass.output_rect.width + enlarge.x).toNat with hWdef
    set H := (pass.output_rect.height + enlarge.y).toNat with hHdef
    have hiW : i.toNat < W := by omega
    have hjH : j.toNat < H := by omega
    have hk : j.toNat * W + i.toNat < W * H := by
      calc j.toNat * W + i.toNat < j.toNat * W + W := by omega
        _ = (j.toNat + 1) * W := by ring
        _ ≤ H * W := Nat.mul_le_mul_right _ hjH
        _ = W * H := by ring
    rw [range_map_getD _ _ _ _ hk]
    have hmod : (j.toNat * W + i.toNat) % W = i.toNat := by
      rw [Nat.add_comm, Nat.add_mul_mod_self_right, Nat.mod_eq_of_lt hiW]
    have hdiv : (j.toNat * W + i.toNat) / W = j.toNat := by
      rw [Nat.add_comm, Nat.add_mul_div_right _ _ (by omega : 0 < W), Nat.div_eq_of_lt hiW,
        Nat.zero_add]
    rw [hmod, hdiv, Int.toNat_of_nonneg hi0, Int.toNat_of_nonneg hj0]
    split
    · rfl
    · rename_i hnot
      apply hout
      rw [← Bool.not_eq_true, Contains_iff]
      intro hc
      apply hnot
      omega
  · rw [if_neg hin, if_neg]
    intro hc
    apply hin
    omega


theorem find?_SamePixels (t : RenderPass.Id) (f1 f2 : List FinishedPass)
    (h : List.Forall₂ FinishedPass.SamePixels f1 f2) :
    (f1.find? (fun p => decide (p.id = t)) = none ∧ f2.find? (fun p => decide (p.id = t)) = none)
    ∨ ∃ a b, f1.find? (fun p => decide (p.id = t)) = some a
        ∧ f2.find? (fun p => decide (p.id = t)) = some b ∧ a.SamePixels b := by
  induction h with
  | nil => exact Or.inl ⟨rfl, rfl⟩
  | @cons a b l1 l2 hab _ ih =>
    by_cases ha : a.id = t
    · have hb : b.id = t := hab.1 ▸ ha
      exact Or.inr ⟨a, b, by simp [List.find?, ha], by simp [List.find?, hb], hab⟩
    · have hb : ¬ b.id = t := hab.1 ▸ ha
      simpa [List.find?, ha, hb] using ih

theorem QuadContents_SamePixels (renderer : RendererType) (states : List SharedQuadState)
    (provider : ResourceProvider) (f1 f2 : List FinishedPass)
    (h : List.Forall₂ FinishedPass.SamePixels f1 f2) (quad : DrawQuad) :
    QuadContents ⟨renderer, states, provider, f1⟩ quad
      = QuadContents ⟨renderer, states, provider, f2⟩ quad := by
  cases quad with
  | SolidColor => rfl
  | YUVVideo => rfl
  | Picture => rfl
  | RenderPass s rect id rep mask ch uv filters filter bg =>
    simp only [QuadContents]
    rcases find?_SamePixels id f1 f2 h with ⟨h1, h2⟩ | ⟨a, b, h1, h2, -, hrect, htex⟩
    · rw [h1, h2]
    · rw [h1, h2]
      simp only [hrect, htex]

theorem DrawRenderPass_SamePixels (renderer : RendererType) (states : List SharedQuadState)
    (provider : ResourceProvider) (f1 f2 : List FinishedPass)
    (h : List.Forall₂ FinishedPass.SamePixels f1 f2) (is_root : Bool) (pass : RenderPass) :
    DrawRenderPass ⟨renderer, states, provider, f1⟩ is_root pass
      = DrawRenderPass ⟨renderer, states, provider, f2⟩ is_root pass := by
  have hquad : ∀ quad, DrawOneQuad ⟨renderer, states, provider, f1⟩ pass.output_rect quad
      = DrawOneQuad ⟨renderer, states, provider, f2⟩ pass.output_rect quad := by
    intro quad
    funext dst
    simp only [DrawOneQuad, QuadContents_SamePixels renderer states provider f1 f2 h quad]
  simp only [DrawRenderPass, hquad]

/-- The passes finished with a margin and without one show the same. -/
theorem DrawNonRootPasses_enlarge (type : RendererType) (enlarge : gfx.Vector2d)
    (hex : 0 ≤ enlarge.x) (hey : 0 ≤ enlarge.y) (states : List SharedQuadState)
    (provider : ResourceProvider) (passes : RenderPassList) :
    ∀ (f1 f2 : List FinishedPass), List.Forall₂ FinishedPass.SamePixels f1 f2 →
      (∀ pass ∈ passes, 0 < pass.output_rect.width ∧ 0 < pass.output_rect.height) →
      (∃ e, DrawNonRootPasses ⟨type, enlarge⟩ states provider passes f1 = .error e
          ∧ DrawNonRootPasses ⟨type, ⟨0, 0⟩⟩ states provider passes f2 = .error e)
      ∨ ∃ r1 r2, DrawNonRootPasses ⟨type, enlarge⟩ states provider passes f1 = .ok r1
          ∧ DrawNonRootPasses ⟨type, ⟨0, 0⟩⟩ states provider passes f2 = .ok r2
          ∧ List.Forall₂ FinishedPass.SamePixels r1 r2 := by
  induction passes with
  | nil => intro f1 f2 h _; exact Or.inr ⟨f1, f2, rfl, rfl, h⟩
  | cons pass rest ih =>
    intro f1 f2 h hpos
    obtain ⟨hw, hh⟩ := hpos pass (List.mem_cons_self _ _)
    simp only [DrawNonRootPasses]
    rw [DrawRenderPass_SamePixels type states provider f1 f2 h false pass]
    rcases hdraw : DrawRenderPass ⟨type, states, provider, f2⟩ false pass with e | canvas
    · exact Or.inl ⟨e, rfl, rfl⟩
    · have hout : ∀ x y, pass.output_rect.Contains x y = false
          → canvas x y = SK_ColorTRANSPARENT := fun x y hxy =>
        DrawRenderPass_outside _ _ _ _ x y hdraw hxy
      obtain ⟨t1, ht1, htex1⟩ := AllocatePassTexture_texel enlarge pass canvas hex hey hw hh hout
      obtain ⟨t2, ht2, htex2⟩ := AllocatePassTexture_texel ⟨0, 0⟩ pass canvas (le_refl _)
        (le_refl _) hw hh hout
      simp only [Except.ok_bind, ht1, ht2]
      apply ih
      · exact List.rel_append h
          (List.Forall₂.cons ⟨rfl, rfl, htex1.trans htex2.symm⟩ List.Forall₂.nil)
      · exact fun p hp => hpos p (List.mem_cons_of_mem _ hp)

/-- The margin of the intermediate buffers changes no frame. -/
theorem DrawFrame_enlarge (type : RendererType) (enlarge : gfx.Vector2d)
    (hex : 0 ≤ enlarge.x) (hey : 0 ≤ enlarge.y) (size : gfx.Size)
    (states : List SharedQuadState) (provider : ResourceProvider) (pass_list : RenderPassList)
    (readback_target : Option RenderPass.Id)
    (hpos : ∀ pass ∈ pass_list.dropLast,
      0 < pass.output_rect.width ∧ 0 < pass.output_rect.height) :
    DrawFrame ⟨type, enlarge⟩ size states provider pass_list readback_target
      = DrawFrame ⟨type, ⟨0, 0⟩⟩ size states provider pass_list readback_target := by
  unfold DrawFrame
  rcases hlast : pass_list.getLast? with _ | root
  · rfl
  · simp only
    rcases DrawNonRootPasses_enlarge type enlarge hex hey states provider pass_list.dropLast
        [] [] List.Forall₂.nil hpos with ⟨e, h1, h2⟩ | ⟨r1, r2, h1, h2, hrel⟩
    · rw [h1, h2]
    · rw [h1, h2]
      simp only [Except.ok_bind]
      rw [DrawRenderPass_SamePixels type states provider r1 r2 hrel true root]
      rcases DrawRenderPass ⟨type, states, provider, r2⟩ true root with e | canvas
      · rfl
      · simp only [Except.ok_bind]
        cases readback_target with
        | none => rfl
        | some target =>
          simp only
          split
          · rfl
          · rcases find?_SamePixels target r1 r2 hrel with ⟨g1, g2⟩ | ⟨a, b, g1, g2, -, hrect, htex⟩
            · rw [g1, g2]
            · rw [g1, g2]
              simp only [hrect, htex]


theorem DrawNonRootPasses_extends (renderer : Renderer) (states : List SharedQuadState)
    (provider : ResourceProvider) (passes : RenderPassList) :
    ∀ (finished result : List FinishedPass),
      DrawNonRootPasses renderer states provider passes finished = .ok result →
      ∃ more, result = finished ++ more := by
  induction passes with
  | nil =>
    intro finished result h
    simp only [DrawNonRootPasses, Except.ok.injEq] at h
    exact ⟨[], by simp [h]⟩
  | cons pass rest ih =>
    intro finished result h
    simp only [DrawNonRootPasses] at h
    rcases hdraw : DrawRenderPass ⟨renderer.type, states, provider, finished⟩ false pass
      with e | canvas
    · simp [hdraw, Except.error_bind] at h
    · rw [hdraw, Except.ok_bind] at h
      rcases halloc : AllocatePassTexture renderer.enlarge_pass_texture_amount pass canvas
        with e | texture
      · simp [halloc, Except.error_bind] at h
      · rw [halloc, Except.ok_bind] at h
        obtain ⟨more, hmore⟩ := ih _ _ h
        exact ⟨⟨pass.id, pass.output_rect, texture⟩ :: more, by simp [hmore]⟩

/-- The first non-root pass of a frame that is drawn: its canvas, its buffer,
and the passes finished before the root pass, which start with it. -/
theorem DrawNonRootPasses_first (renderer : Renderer) (states : List SharedQuadState)
    (provider : ResourceProvider) (child : RenderPass) (rest : RenderPassList)
    (result : List FinishedPass)
    (h : DrawNonRootPasses renderer states provider (child :: rest) [] = .ok result) :
    ∃ canvas texture more,
      DrawRenderPass ⟨renderer.type, states, provider, []⟩ false child = .ok canvas
      ∧ AllocatePassTexture renderer.enlarge_pass_texture_amount child canvas = .ok texture
      ∧ result = ⟨child.id, child.output_rect, texture⟩ :: more := by
  simp only [DrawNonRootPasses] at h
  rcases hdraw : DrawRenderPass ⟨renderer.type, states, provider, []⟩ false child
    with e | canvas
  · simp [hdraw, Except.error_bind] at h
  · rw [hdraw, Except.ok_bind] at h
    rcases halloc : AllocatePassTexture renderer.enlarge_pass_texture_amount child canvas
      with e | texture
    · simp [halloc, Except.error_bind] at h
    · rw [halloc, Except.ok_bind] at h
      obtain ⟨more, hmore⟩ := DrawNonRootPasses_extends _ _ _ _ _ _ h
      exact ⟨canvas, texture, more, rfl, halloc, by simpa using hmore⟩

/-- A frame of a child pass and a root pass that are both drawn. -/
theorem DrawFrame_child_root (renderer : Renderer) (size : gfx.Size)
    (states : List SharedQuadState) (provider : ResourceProvider) (child root : RenderPass)
    (child_canvas canvas : Canvas) (texture : PassTexture)
    (hchild : DrawRenderPass ⟨renderer.type, states, provider, []⟩ false child
      = .ok child_canvas)
    (halloc : AllocatePassTexture renderer.enlarge_pass_texture_amount child child_canvas
      = .ok texture)
    (hroot : DrawRenderPass ⟨renderer.type, states, provider,
      [⟨child.id, child.output_rect, texture⟩]⟩ true root = .ok canvas) :
    DrawFrame renderer size states provider [child, root] none
        = .ok ⟨size.width, size.height, canvas⟩
    ∧ (child.id ≠ root.id →
        DrawFrame renderer size states provider [child, root] (some child.id)
          = .ok ⟨child.output_rect.width, child.output_rect.height, texture.texel⟩) := by
  have hlast : [child, root].getLast? = some root := rfl
  have hdrop : [child, root].dropLast = [child] := rfl
  constructor
  · simp only [DrawFrame, hlast, hdrop, DrawNonRootPasses, hchild, halloc, Except.ok_bind,
      List.nil_append, hroot, Except.pure_eq]
  · intro hne
    simp only [DrawFrame, hlast, hdrop, DrawNonRootPasses, hchild, halloc, Except.ok_bind,
      List.nil_append, hroot, hne, if_false, List.find?, decide_True, Except.pure_eq]

/-- A bitmap filled with green passes the exact comparison with `green.png`. -/
theorem Compare_green (size : gfx.Size) (bitmap : SkBitmap)
    (h : bitmap.FilledWith size SK_ColorGREEN) (discard_alpha : Bool) :
    ExactPixelComparator.Compare discard_alpha bitmap (green_png size) = true := by
  obtain ⟨hw, hh, hpix⟩ := h
  simp only [ExactPixelComparator.Compare, green_png, hw, hh,
    decide_True, Bool.true_and, List.all_eq_true, List.mem_range,
    decide_eq_true_eq, Bool.and_eq_true, Bool.or_eq_true]
  intro j hj i hi
  have := hpix i j (by omega) (by omega) (by omega) (by omega)
  simp [this, SK_ColorGREEN]


theorem CreateResource_ok (provider : ResourceProvider) (size : gfx.Size) (format : GLFormat)
    (hw : 0 < size.width) (hh : 0 < size.height) :
    provider.CreateResource size format
      = .ok (provider.resources.length + 1,
          ⟨provider.resources ++ [⟨size, format, fun _ _ => 0⟩]⟩) := by
  have hpos : ¬ (size.width ≤ 0 ∨ size.height ≤ 0) := by omega
  simp only [ResourceProvider.CreateResource, hpos, if_false]

theorem GetResource_append_new (resources : List Resource) (resource : Resource) :
    (⟨resources ++ [resource]⟩ : ResourceProvider).GetResource (resources.length + 1)
      = .ok resource := by
  simp [ResourceProvider.GetResource]

theorem GetResource_append_old (resources : List Resource) (resource found : Resource)
    (id : Nat) (h : (⟨resources⟩ : ResourceProvider).GetResource id = .ok found) :
    (⟨resources ++ [resource]⟩ : ResourceProvider).GetResource id = .ok found := by
  unfold ResourceProvider.GetResource at h ⊢
  by_cases hid : id = 0
  · simp [hid] at h
  · simp only [hid, if_false] at h ⊢
    rcases hget : resources[id - 1]? with _ | r
    · simp [hget] at h
    · have hlt : id - 1 < resources.length := by
        by_contra hcon
        have hle : resources.length ≤ id - 1 := by omega
        rw [List.getElem?_eq_none hle] at hget
        exact absurd hget (by simp)
      rw [List.getElem?_append_left hlt, hget]
      simpa [hget] using h

/-- An upload that fits the resource succeeds, replaces the texels of the
resource and leaves every other resource as it is. -/
theorem SetPixels_ok (provider : ResourceProvider) (id : Nat) (image : List Nat)
    (image_rect source_rect : gfx.Rect) (resource : Resource)
    (hget : provider.GetResource id = .ok resource)
    (hw : source_rect.width ≤ resource.size.width)
    (hh : source_rect.height ≤ resource.size.height) :
    ∃ uploaded : ResourceProvider,
      provider.SetPixels id image image_rect source_rect ⟨0, 0⟩ = .ok uploaded
      ∧ uploaded.GetResource id = .ok
          { resource with texel := fun i j =>
              if (⟨0, 0, source_rect.width, source_rect.height⟩ : gfx.Rect).Contains i j then
                image.getD (((j - 0 + source_rect.y - image_rect.y) * image_rect.width
                  + (i - 0 + source_rect.x - image_rect.x)).toNat) 0
              else resource.texel i j }
      ∧ ∀ other : Nat, other ≠ id → uploaded.GetResource other = provider.GetResource other := by
  have hfit : ¬ ((0 : Int) < 0 ∨ (0 : Int) < 0
      ∨ resource.size.width < (⟨0, 0, source_rect.width, source_rect.height⟩ : gfx.Rect).right
      ∨ resource.size.height
          < (⟨0, 0, source_rect.width, source_rect.height⟩ : gfx.Rect).bottom) := by
    have hr : (⟨0, 0, source_rect.width, source_rect.height⟩ : gfx.Rect).right
        = source_rect.width := by simp [gfx.Rect.right]
    have hb : (⟨0, 0, source_rect.width, source_rect.height⟩ : gfx.Rect).bottom
        = source_rect.height := by simp [gfx.Rect.bottom]
    rw [hr, hb]
    omega
  have hid : id ≠ 0 := by
    intro h0
    simp [ResourceProvider.GetResource, h0] at hget
  have hlt : id - 1 < provider.resources.length := by
    by_contra hcon
    have hle : provider.resources.length ≤ id - 1 := by omega
    simp only [ResourceProvider.GetResource, hid, if_false, List.getElem?_eq_none hle] at hget
    exact absurd hget (by simp)
  have hset : provider.SetPixels id image image_rect source_rect ⟨0, 0⟩ = .ok
      ⟨provider.resources.set (id - 1)
        { resource with texel := fun i j =>
            if (⟨0, 0, source_rect.width, source_rect.height⟩ : gfx.Rect).Contains i j then
              image.getD (((j - 0 + source_rect.y - image_rect.y) * image_rect.width
                + (i - 0 + source_rect.x - image_rect.x)).toNat) 0
            else resource.texel i j }⟩ := by
    simp only [ResourceProvider.SetPixels, hget, Except.ok_bind, hfit, if_false]
  refine ⟨_, hset, ?_, ?_⟩
  · simp only [ResourceProvider.GetResource, hid, if_false, List.getElem?_set_self hlt]
  · intro other hother
    simp only [ResourceProvider.GetResource]
    by_cases h0 : other = 0
    · simp [h0]
    · simp only [h0, if_false]
      rw [List.getElem?_set_ne (by omega)]

theorem replicate_getD (n k v : Nat) (h : k < n) : (List.replicate n v).getD k 0 = v := by
  simp [List.getD, List.getElem?_replicate, h]

theorem plane_index_lt (w h i j : Int) (hi0 : 0 ≤ i) (hi : i < w) (hj0 : 0 ≤ j) (hj : j < h) :
    (j * w + i).toNat < (w * h).toNat := by
  have h1 : j * w + i < w * h := by nlinarith
  have h2 : 0 ≤ j * w + i := by nlinarith
  omega


theorem uploaded_texel (rect : gfx.Rect) (n v : Nat)
    (hn : n = (rect.width * rect.height).toNat) (old : Int → Int → Nat) (i j : Int)
    (hi0 : 0 ≤ i) (hi : i < rect.width) (hj0 : 0 ≤ j) (hj : j < rect.height) :
    (if (⟨0, 0, rect.width, rect.height⟩ : gfx.Rect).Contains i j then
        (List.replicate n v).getD (((j - 0 + rect.y - rect.y) * rect.width
          + (i - 0 + rect.x - rect.x)).toNat) 0
      else old i j) = v := by
  have hc : (⟨0, 0, rect.width, rect.height⟩ : gfx.Rect).Contains i j = true := by
    rw [Contains_iff]
    simp only
    omega
  rw [if_pos hc]
  apply replicate_getD
  rw [hn]
  have e1 : j - 0 + rect.y - rect.y = j := by omega
  have e2 : i - 0 + rect.x - rect.x = i := by omega
  rw [e1, e2]
  exact plane_index_lt _ _ _ _ hi0 hi hj0 hj

/-- Uploading a plane filled with one value: afterwards the resource holds the
value at every position of the plane, and every other resource is as before. -/
theorem upload_plane (provider : ResourceProvider) (id : Nat) (rect : gfx.Rect) (n v : Nat)
    (hn : n = (rect.width * rect.height).toNat) (resource : Resource)
    (hget : provider.GetResource id = .ok resource)
    (hw : rect.width ≤ resource.size.width) (hh : rect.height ≤ resource.size.height) :
    ∃ (uploaded : ResourceProvider) (plane : Resource),
      provider.SetPixels id (List.replicate n v) rect rect ⟨0, 0⟩ = .ok uploaded
      ∧ uploaded.GetResource id = .ok plane
      ∧ (∀ i j : Int, 0 ≤ i → i < rect.width → 0 ≤ j → j < rect.height → plane.texel i j = v)
      ∧ ∀ other : Nat, other ≠ id → uploaded.GetResource other = provider.GetResource other := by
  obtain ⟨uploaded, hset, hg, ho⟩ := SetPixels_ok provider id (List.replicate n v) rect rect
    resource hget hw hh
  exact ⟨uploaded, _, hset, hg,
    fun i j hi0 hi hj0 hj => uploaded_texel rect n v hn resource.texel i j hi0 hi hj0 hj, ho⟩

theorem CreateTestYUVVideoDrawQuad_ok (size : gfx.Size) (hw : 0 < size.width)
    (hh : 0 < size.height) (s : SharedQuadStatePtr) (with_alpha is_transparent : Bool) :
    ∃ provider y_plane u_plane v_plane,
      CreateTestYUVVideoDrawQuad size ⟨[]⟩ s with_alpha is_transparent
        = .ok (DrawQuad.YUVVideo s (gfx.Rect.ofSize size) ⟨0, 0, 0, 0⟩ gfx.Size.empty 1 2 3
            (if with_alpha then 4 else 0), provider)
      ∧ provider.GetResource 1 = .ok y_plane
      ∧ provider.GetResource 2 = .ok u_plane
      ∧ provider.GetResource 3 = .ok v_plane
      ∧ (∀ i j : Int, 0 ≤ i → i < size.width → 0 ≤ j → j < size.height →
          y_plane.texel i j = 149 ∧ u_plane.texel (i / 2) (j / 2) = 43
            ∧ v_plane.texel (i / 2) (j / 2) = 21)
      ∧ (with_alpha = true → ∃ a_plane, provider.GetResource 4 = .ok a_plane
          ∧ ∀ i j : Int, 0 ≤ i → i < size.width → 0 ≤ j → j < size.height →
            a_plane.texel i j = if is_transparent then 0 else 128) := by
  have huw : (gfx.Rect.ofWH (Int.tdiv (size.width + 1) 2) (Int.tdiv (size.height + 1) 2)).width
      = (size.width + 1) / 2 := Int.tdiv_eq_ediv (by omega) (by norm_num)
  have huh : (gfx.Rect.ofWH (Int.tdiv (size.width + 1) 2) (Int.tdiv (size.height + 1) 2)).height
      = (size.height + 1) / 2 := Int.tdiv_eq_ediv (by omega) (by norm_num)
  cases with_alpha with
  | false =>
    simp only [CreateTestYUVVideoDrawQuad, CreateResource_ok _ _ _ hw hh, Except.ok_bind,
      Except.pure_eq, List.length_nil, List.length_append, List.length_singleton,
      List.nil_append, List.singleton_append, List.cons_append, Nat.zero_add, Nat.reduceAdd,
      Bool.false_eq_true, if_false]
    obtain ⟨p1, ry, hset1, hg1, hy, ho1⟩ := upload_plane
      ⟨[⟨size, GLFormat.GL_LUMINANCE, fun _ _ => 0⟩, ⟨size, GLFormat.GL_LUMINANCE, fun _ _ => 0⟩,
        ⟨size, GLFormat.GL_LUMINANCE, fun _ _ => 0⟩]⟩ 1 (gfx.Rect.ofSize size)
      (size.width * size.height).toNat 149 rfl
      ⟨size, GLFormat.GL_LUMINANCE, fun _ _ => 0⟩ rfl (le_refl _) (le_refl _)
    obtain ⟨p2, ru, hset2, hg2, hu, ho2⟩ := upload_plane p1 2
      (gfx.Rect.ofWH (Int.tdiv (size.width + 1) 2) (Int.tdiv (size.height + 1) 2))
      (gfx.Rect.ofWH (Int.tdiv (size.width + 1) 2)
        (Int.tdiv (size.height + 1) 2)).size.GetArea.toNat 43 rfl
      ⟨size, GLFormat.GL_LUMINANCE, fun _ _ => 0⟩ (by rw [ho1 2 (by decide)]; rfl)
      (by rw [huw]; show _ ≤ size.width; omega) (by rw [huh]; show _ ≤ size.height; omega)
    obtain ⟨p3, rv, hset3, hg3, hv, ho3⟩ := upload_plane p2 3
      (gfx.Rect.ofWH (Int.tdiv (size.width + 1) 2) (Int.tdiv (size.height + 1) 2))
      (gfx.Rect.ofWH (Int.tdiv (size.width + 1) 2)
        (Int.tdiv (size.height + 1) 2)).size.GetArea.toNat 21 rfl
      ⟨size, GLFormat.GL_LUMINANCE, fun _ _ => 0⟩
      (by rw [ho2 3 (by decide), ho1 3 (by decide)]; rfl)
      (by rw [huw]; show _ ≤ size.width; omega) (by rw [huh]; show _ ≤ size.height; omega)
    rw [hset1, Except.ok_bind, hset2, Except.ok_bind, hset3, Except.ok_bind]
    refine ⟨p3, ry, ru, rv, rfl, ?_, ?_, hg3, ?_, ?_⟩
    · rw [ho3 1 (by decide), ho2 1 (by decide)]; exact hg1
    · rw [ho3 2 (by decide)]; exact hg2
    · intro i j hi0 hi hj0 hj
      exact ⟨hy i j hi0 hi hj0 hj,
        hu (i / 2) (j / 2) (by omega) (by rw [huw]; omega) (by omega) (by rw [huh]; omega),
        hv (i / 2) (j / 2) (by omega) (by rw [huw]; omega) (by omega) (by rw [huh]; omega)⟩
    · intro hfalse; exact absurd hfalse (by decide)
  | true =>
    simp only [CreateTestYUVVideoDrawQuad, CreateResource_ok _ _ _ hw hh, Except.ok_bind,
      Except.pure_eq, List.length_nil, List.length_append, List.length_singleton,
      List.nil_append, List.singleton_append, List.cons_append, Nat.zero_add, Nat.reduceAdd,
      if_true]
    obtain ⟨p1, ry, hset1, hg1, hy, ho1⟩ := upload_plane
      ⟨[⟨size, GLFormat.GL_LUMINANCE, fun _ _ => 0⟩, ⟨size, GLFormat.GL_LUMINANCE, fun _ _ => 0⟩,
        ⟨size, GLFormat.GL_LUMINANCE, fun _ _ => 0⟩,
        ⟨size, GLFormat.GL_LUMINANCE, fun _ _ => 0⟩]⟩ 1 (gfx.Rect.ofSize size)
      (size.width * size.height).toNat 149 rfl
      ⟨size, GLFormat.GL_LUMINANCE, fun _ _ => 0⟩ rfl (le_refl _) (le_refl _)
    obtain ⟨p2, ru, hset2, hg2, hu, ho2⟩ := upload_plane p1 2
      (gfx.Rect.ofWH (Int.tdiv (size.width + 1) 2) (Int.tdiv (size.height + 1) 2))
      (gfx.Rect.ofWH (Int.tdiv (size.width + 1) 2)
        (Int.tdiv (size.height + 1) 2)).size.GetArea.toNat 43 rfl
      ⟨size, GLFormat.GL_LUMINANCE, fun _ _ => 0⟩ (by rw [ho1 2 (by decide)]; rfl)
      (by rw [huw]; show _ ≤ size.width; omega) (by rw [huh]; show _ ≤ size.height; omega)
    obtain ⟨p3, rv, hset3, hg3, hv, ho3⟩ := upload_plane p2 3
      (gfx.Rect.ofWH (Int.tdiv (size.width + 1) 2) (Int.tdiv (size.height + 1) 2))
      (gfx.Rect.ofWH (Int.tdiv (size.width + 1) 2)
        (Int.tdiv (size.height + 1) 2)).size.GetArea.toNat 21 rfl
      ⟨size, GLFormat.GL_LUMINANCE, fun _ _ => 0⟩
      (by rw [ho2 3 (by decide), ho1 3 (by decide)]; rfl)
      (by rw [huw]; show _ ≤ size.width; omega) (by rw [huh]; show _ ≤ size.height; omega)
    obtain ⟨p4, ra, hset4, hg4, ha, ho4⟩ := upload_plane p3 4 (gfx.Rect.ofSize size)
      (size.width * size.height).toNat (if is_transparent then 0 else 128) rfl
      ⟨size, GLFormat.GL_LUMINANCE, fun _ _ => 0⟩
      (by rw [ho3 4 (by decide), ho2 4 (by decide), ho1 4 (by decide)]; rfl)
      (le_refl _) (le_refl _)
    rw [hset1, Except.ok_bind, hset2, Except.ok_bind, hset3, Except.ok_bind, hset4,
      Except.ok_bind]
    refine ⟨p4, ry, ru, rv, rfl, ?_, ?_, ?_, ?_, ?_⟩
    · rw [ho4 1 (by decide), ho3 1 (by decide), ho2 1 (by decide)]; exact hg1
    · rw [ho4 2 (by decide), ho3 2 (by decide)]; exact hg2
    · rw [ho4 3 (by decide)]; exact hg3
    · intro i j hi0 hi hj0 hj
      exact ⟨hy i j hi0 hi hj0 hj,
        hu (i / 2) (j / 2) (by omega) (by rw [huw]; omega) (by omega) (by rw [huh]; omega),
        hv (i / 2) (j / 2) (by omega) (by rw [huw]; omega) (by omega) (by rw [huh]; omega)⟩
    · intro _
      exact ⟨ra, hg4, fun i j hi0 hi hj0 hj => ha i j hi0 hi hj0 hj⟩


theorem Quantize_low (renderer : RendererType) (v : ℚ) (h : v < 1 / 2) :
    Quantize renderer v = 0 := by
  apply Fin.ext
  have h1 : ⌊v⌋ ≤ 0 := by
    have : ⌊v⌋ < 1 := Int.floor_lt.mpr (by push_cast; linarith)
    omega
  have h2 : ⌊v + 1 / 2⌋ ≤ 0 := by
    have : ⌊v + 1 / 2⌋ < 1 := Int.floor_lt.mpr (by push_cast; linarith)
    omega
  show min (if renderer.isSoftware then ⌊v⌋ else ⌊v + 1 / 2⌋).toNat 255 = 0
  split
  · rw [Int.toNat_eq_zero.mpr h1]; rfl
  · rw [Int.toNat_eq_zero.mpr h2]; rfl

theorem Quantize_high (renderer : RendererType) (v : ℚ) (h : 255 ≤ v) :
    Quantize renderer v = 255 := by
  apply Fin.ext
  have h1 : 255 ≤ ⌊v⌋ := Int.le_floor.mpr (by push_cast; linarith)
  have h2 : 255 ≤ ⌊v + 1 / 2⌋ := Int.le_floor.mpr (by push_cast; linarith)
  show min (if renderer.isSoftware then ⌊v⌋ else ⌊v + 1 / 2⌋).toNat 255 = 255
  split
  · have : 255 ≤ ⌊v⌋.toNat := by omega
    exact Nat.min_eq_right this
  · have : 255 ≤ ⌊v + 1 / 2⌋.toNat := by omega
    exact Nat.min_eq_right this

/-- The YUV values of the test planes decode to pure green. -/
theorem YUVToRGB_green (renderer : RendererType) (a : Nat) (ha : a ≤ 255) :
    YUVToRGB renderer 149 43 21 a = ⟨⟨a, by omega⟩, 0, 255, 0⟩ := by
  simp only [YUVToRGB]
  congr 1
  · exact Fin.ext (Quantize_natCast renderer a ha)
  · exact Quantize_low _ _ (by norm_num)
  · exact Quantize_high _ _ (by norm_num)
  · exact Quantize_low _ _ (by norm_num)

theorem QuadCovers_full (size : gfx.Size) (x y : Int) (hx0 : 0 ≤ x) (hx : x < size.width)
    (hy0 : 0 ≤ y) (hy : y < size.height) :
    QuadCovers (gfx.Rect.ofSize size)
      (CreateTestSharedQuadState gfx.Transform.identity (gfx.Rect.ofSize size)) ⟨0, 0⟩
      (gfx.Rect.ofSize size) x y = true := by
  simp [QuadCovers, Contains_iff, gfx.Rect.ofSize, CreateTestSharedQuadState, *]

/-- The content of the video quad of the tests: pure green with the alpha of
the alpha plane, or full alpha if there is none. -/
theorem YUVVideo_contents (type : RendererType) (states : List SharedQuadState)
    (size : gfx.Size) (hw : 0 < size.width) (hh : 0 < size.height) (s : SharedQuadStatePtr)
    (with_alpha : Bool) :
    ∃ quad provider contents,
      CreateTestYUVVideoDrawQuad size ⟨[]⟩ s with_alpha false = .ok (quad, provider)
      ∧ quad.shared_quad_state = s ∧ quad.rect = gfx.Rect.ofSize size
      ∧ quad.background_filters = []
      ∧ (∀ finished, QuadContents ⟨type, states, provider, finished⟩ quad = .ok contents)
      ∧ ∀ x y : Int, 0 ≤ x → x < size.width → 0 ≤ y → y < size.height →
          contents x y = ⟨if with_alpha then 128 else 255, 0, 255, 0⟩ := by
  obtain ⟨provider, ry, ru, rv, hquad, hg1, hg2, hg3, hplanes, halpha⟩ :=
    CreateTestYUVVideoDrawQuad_ok size hw hh s with_alpha false
  cases with_alpha with
  | false =>
    refine ⟨_, provider, fun x y =>
      YUVToRGB type (ry.texel (x - (gfx.Rect.ofSize size).x) (y - (gfx.Rect.ofSize size).y))
        (ru.texel ((x - (gfx.Rect.ofSize size).x) / 2) ((y - (gfx.Rect.ofSize size).y) / 2))
        (rv.texel ((x - (gfx.Rect.ofSize size).x) / 2) ((y - (gfx.Rect.ofSize size).y) / 2))
        255, hquad, rfl, rfl, rfl, ?_, ?_⟩
    · intro finished
      simp only [QuadContents, hg1, hg2, hg3, Except.ok_bind, Except.pure_eq,
        Bool.false_eq_true, if_false, if_true]
    · intro x y hx0 hx hy0 hy
      obtain ⟨h1, h2, h3⟩ := hplanes x y hx0 hx hy0 hy
      simp only [gfx.Rect.ofSize, sub_zero, h1, h2, h3]
      exact YUVToRGB_green type 255 (le_refl _)
  | true =>
    obtain ⟨ra, hg4, ha⟩ := halpha rfl
    refine ⟨_, provider, fun x y =>
      YUVToRGB type (ry.texel (x - (gfx.Rect.ofSize size).x) (y - (gfx.Rect.ofSize size).y))
        (ru.texel ((x - (gfx.Rect.ofSize size).x) / 2) ((y - (gfx.Rect.ofSize size).y) / 2))
        (rv.texel ((x - (gfx.Rect.ofSize size).x) / 2) ((y - (gfx.Rect.ofSize size).y) / 2))
        (ra.texel (x - (gfx.Rect.ofSize size).x) (y - (gfx.Rect.ofSize size).y)),
      hquad, rfl, rfl, rfl, ?_, ?_⟩
    · intro finished
      simp only [QuadContents, hg1, hg2, hg3, hg4, Except.ok_bind, Except.pure_eq,
        if_true, OfNat.ofNat_ne_zero, if_false]
    · intro x y hx0 hx hy0 hy
      obtain ⟨h1, h2, h3⟩ := hplanes x y hx0 hx hy0 hy
      have h4 := ha x y hx0 hx hy0 hy
      simp only [gfx.Rect.ofSize, sub_zero, h1, h2, h3, h4, Bool.false_eq_true, if_false]
      exact YUVToRGB_green type 128 (by decide)


end cc


/-! ## Claims on the compositor -/

namespace cc

/-- A single root pass with one opaque, untransformed, unclipped solid-colour
quad over the whole viewport is drawn as that colour everywhere. -/
theorem solid_color_rect_filled (c : SkColor) (hc : c.a = 255) (size : gfx.Size)
    (renderer : Renderer) (provider : ResourceProvider) (id : RenderPass.Id)
    (force_anti_aliasing_off : Bool) :
    ∃ bitmap,
      DrawFrame renderer size
        [CreateTestSharedQuadState gfx.Transform.identity (gfx.Rect.ofSize size)] provider
        [(CreateTestRootRenderPass id (gfx.Rect.ofSize size)).push_quad
          (DrawQuad.SolidColor 0 (gfx.Rect.ofSize size) c force_anti_aliasing_off)] none
        = .ok bitmap
      ∧ bitmap.FilledWith size c := by
  rw [DrawFrame_root_only]
  simp only [DrawRenderPass, RenderPass.push_quad, CreateTestRootRenderPass, RenderPass.SetNew,
    List.nil_append, List.foldl_cons, List.foldl_nil]
  rw [Except.ok_bind, DrawOneQuad_ok
    ⟨renderer.type, [CreateTestSharedQuadState gfx.Transform.identity (gfx.Rect.ofSize size)],
      provider, []⟩ _ (DrawQuad.SolidColor 0 (gfx.Rect.ofSize size) c force_anti_aliasing_off) _
    (CreateTestSharedQuadState gfx.Transform.identity (gfx.Rect.ofSize size)) ⟨0, 0⟩
    (fun _ _ => c) rfl integerTranslation_identity rfl]
  refine ⟨_, rfl, rfl, rfl, ?_⟩
  intro x y hx0 hx hy0 hy
  have hcov : QuadCovers (gfx.Rect.ofSize size)
      (CreateTestSharedQuadState gfx.Transform.identity (gfx.Rect.ofSize size)) ⟨0, 0⟩
      (gfx.Rect.ofSize size) x y = true := by
    simp [QuadCovers, Contains_iff, gfx.Rect.ofSize, CreateTestSharedQuadState, *]
  simp only [DrawQuad.rect, hcov, if_true]
  exact Blend_opaque_src _ _ _ hc

/-- C1: for every opaque colour `c`, every viewport size and every backend, the
frame of a single root pass whose only quad is an identity-transformed,
unclipped, opacity-one solid-colour quad over the whole viewport is drawn, and
every pixel of the output equals `c`; `SimpleGreenRect` passes the bit-exact
comparison with the all-green image. -/
theorem C1_solid_color_full_viewport (c : SkColor) (hc : c.a = 255) (size : gfx.Size)
    (renderer : Renderer) (provider : ResourceProvider) (id : RenderPass.Id)
    (force_anti_aliasing_off : Bool) :
    (∃ bitmap,
      DrawFrame renderer size
        [CreateTestSharedQuadState gfx.Transform.identity (gfx.Rect.ofSize size)] provider
        [(CreateTestRootRenderPass id (gfx.Rect.ofSize size)).push_quad
          (DrawQuad.SolidColor 0 (gfx.Rect.ofSize size) c force_anti_aliasing_off)] none
        = .ok bitmap
      ∧ bitmap.FilledWith size c)
    ∧ RunPixelTest renderer.type size (SimpleGreenRect size) (green_png size)
        (ExactPixelComparator.Compare true) = true := by
  refine ⟨solid_color_rect_filled c hc size renderer provider id force_anti_aliasing_off, ?_⟩
  obtain ⟨bitmap, hdraw, hfilled⟩ :=
    solid_color_rect_filled SK_ColorGREEN rfl size ⟨renderer.type, ⟨0, 0⟩⟩ ⟨[]⟩ ⟨1, 1⟩ false
  have hdraw2 : DrawFrame ⟨renderer.type, (SimpleGreenRect size).enlarge_pass_texture_amount⟩ size
      (SimpleGreenRect size).shared_states (SimpleGreenRect size).resource_provider_
      (SimpleGreenRect size).pass_list (SimpleGreenRect size).readback_target = .ok bitmap := hdraw
  simp only [RunPixelTest, hdraw2]
  exact Compare_green size bitmap hfilled true

/-- C1 at a blue quad on a 200×200 viewport, software backend. -/
theorem C1_solid_color_full_viewport_witness :
    SK_ColorBLUE.a = 255
    ∧ ((∃ bitmap,
        DrawFrame ⟨.SoftwareRenderer, ⟨0, 0⟩⟩ ⟨200, 200⟩
          [CreateTestSharedQuadState gfx.Transform.identity (gfx.Rect.ofSize ⟨200, 200⟩)] ⟨[]⟩
          [(CreateTestRootRenderPass ⟨1, 1⟩ (gfx.Rect.ofSize ⟨200, 200⟩)).push_quad
            (DrawQuad.SolidColor 0 (gfx.Rect.ofSize ⟨200, 200⟩) SK_ColorBLUE false)] none
          = .ok bitmap
        ∧ bitmap.FilledWith ⟨200, 200⟩ SK_ColorBLUE)
      ∧ RunPixelTest .SoftwareRenderer ⟨200, 200⟩ (SimpleGreenRect ⟨200, 200⟩)
          (green_png ⟨200, 200⟩) (ExactPixelComparator.Compare true) = true) :=
  ⟨rfl, C1_solid_color_full_viewport SK_ColorBLUE rfl ⟨200, 200⟩ ⟨.SoftwareRenderer, ⟨0, 0⟩⟩
    ⟨[]⟩ ⟨1, 1⟩ false⟩

end cc


namespace cc

/-- The scene of `PictureDrawQuadIdentityScale` on a 200×200 viewport: one pass
with two drawable quads; at the pixel `(199, 199)` the quad pushed first shows
opaque blue and the quad pushed second shows opaque green. -/
theorem PictureDrawQuadIdentityScale_corner :
    ∃ pass earlier later canvas,
      (PictureDrawQuadIdentityScale ⟨200, 200⟩ false false).pass_list = [pass]
      ∧ pass.quad_list = [earlier, later]
      ∧ DrawRenderPass ⟨.GLRenderer,
          (PictureDrawQuadIdentityScale ⟨200, 200⟩ false false).shared_states, ⟨[]⟩, []⟩
          true pass = .ok canvas
      ∧ earlier.OpaqueColorAt ⟨.GLRenderer,
          (PictureDrawQuadIdentityScale ⟨200, 200⟩ false false).shared_states, ⟨[]⟩, []⟩
          pass.output_rect 199 199 = some SK_ColorBLUE
      ∧ later.OpaqueColorAt ⟨.GLRenderer,
          (PictureDrawQuadIdentityScale ⟨200, 200⟩ false false).shared_states, ⟨[]⟩, []⟩
          pass.output_rect 199 199 = some SK_ColorGREEN := by
  have hoff : (gfx.Rect.ofSize ⟨200, 200⟩).bottom_right.sub
      (gfx.Rect.ofSize ⟨100, 100⟩).bottom_right = ⟨100, 100⟩ := by decide
  obtain ⟨pass, hpass⟩ : ∃ pass, (PictureDrawQuadIdentityScale ⟨200, 200⟩ false false).pass_list
      = [pass] := ⟨_, rfl⟩
  obtain ⟨earlier, later, hquads⟩ : ∃ earlier later, pass.quad_list = [earlier, later] := by
    simp only [PictureDrawQuadIdentityScale, List.cons.injEq, and_true] at hpass
    subst hpass
    exact ⟨_, _, rfl⟩
  have hearlier : earlier.OpaqueColorAt ⟨.GLRenderer,
        (PictureDrawQuadIdentityScale ⟨200, 200⟩ false false).shared_states, ⟨[]⟩, []⟩
        pass.output_rect 199 199 = some SK_ColorBLUE := by
    simp only [PictureDrawQuadIdentityScale, List.cons.injEq, and_true] at hpass
    subst hpass
    simp only [RenderPass.push_quad, CreateTestRenderPass, RenderPass.SetNew, List.nil_append,
      List.cons_append, List.cons.injEq, and_true] at hquads
    obtain ⟨rfl, rfl⟩ := hquads
    simp only [DrawQuad.OpaqueColorAt, PictureDrawQuadIdentityScale, DrawQuad.shared_quad_state,
      List.getElem?_cons_zero, CreateTestSharedQuadStateClipped, hoff,
      integerTranslation_translate, QuadContents]
    norm_num [QuadCovers, gfx.Rect.Contains, gfx.ToEnclosingRect, gfx.Transform.TransformRect,
      gfx.Transform.Translate, gfx.Transform.identity, gfx.RectF.ofRect, gfx.Rect.ofPointSize,
      gfx.Rect.ofSize, FakePicturePileImpl.ColorAt, DrawQuad.rect, gfx.Rect.right,
      gfx.Rect.bottom, SK_ColorBLUE, RenderPass.push_quad, CreateTestRenderPass, RenderPass.SetNew,
      FakePicturePileImpl.add_draw_rect_with_paint, FakePicturePileImpl.CreateFilledPile,
      gfx.Rect.size]
  have hlater : later.OpaqueColorAt ⟨.GLRenderer,
        (PictureDrawQuadIdentityScale ⟨200, 200⟩ false false).shared_states, ⟨[]⟩, []⟩
        pass.output_rect 199 199 = some SK_ColorGREEN := by
    simp only [PictureDrawQuadIdentityScale, List.cons.injEq, and_true] at hpass
    subst hpass
    simp only [RenderPass.push_quad, CreateTestRenderPass, RenderPass.SetNew, List.nil_append,
      List.cons_append, List.cons.injEq, and_true] at hquads
    obtain ⟨rfl, rfl⟩ := hquads
    simp only [DrawQuad.OpaqueColorAt, PictureDrawQuadIdentityScale, DrawQuad.shared_quad_state,
      List.getElem?_cons_succ, List.getElem?_cons_zero, CreateTestSharedQuadState,
      integerTranslation_identity, QuadContents]
    norm_num [QuadCovers, gfx.Rect.Contains, gfx.Rect.ofSize, FakePicturePileImpl.ColorAt,
      DrawQuad.rect, gfx.Rect.right, gfx.Rect.bottom, SK_ColorGREEN, RenderPass.push_quad,
      CreateTestRenderPass, RenderPass.SetNew, FakePicturePileImpl.add_draw_rect_with_paint,
      FakePicturePileImpl.CreateFilledPile, gfx.Rect.size]
  obtain ⟨canvas, hcanvas⟩ := DrawRenderPass_ok ⟨.GLRenderer,
      (PictureDrawQuadIdentityScale ⟨200, 200⟩ false false).shared_states, ⟨[]⟩, []⟩ true pass
    (by
      intro quad hquad
      rw [hquads] at hquad
      simp only [List.mem_cons, List.mem_singleton, List.not_mem_nil, or_false] at hquad
      rcases hquad with rfl | rfl
      · exact Drawable_of_OpaqueColorAt _ _ _ _ _ _ hearlier
      · exact Drawable_of_OpaqueColorAt _ _ _ _ _ _ hlater)
  exact ⟨pass, earlier, later, canvas, hpass, hquads, hcanvas, hearlier, hlater⟩

/-- C2: within one pass the quads are rasterized in list order and later quads
draw over earlier ones.  Whenever a pass is drawn, wherever two opaque quads of
it overlap and no quad after the later of the two covers the pixel, the output
pixel has the colour of the quad that comes later in the quad list of the pass,
whatever the earlier quad and the quads around it have drawn there. -/
theorem C2_later_opaque_quad_draws_over (frame : DrawingFrame) (is_root : Bool)
    (pass : RenderPass) (canvas : Canvas)
    (hdraw : DrawRenderPass frame is_root pass = .ok canvas) :
    ∀ (before between after : List DrawQuad) (earlier later : DrawQuad) (x y : Int)
      (c_earlier c_later : SkColor),
      pass.quad_list = before ++ earlier :: (between ++ later :: after) →
      earlier.OpaqueColorAt frame pass.output_rect x y = some c_earlier →
      later.OpaqueColorAt frame pass.output_rect x y = some c_later →
      (∀ q ∈ after, q.CoversPixel frame pass.output_rect x y = false) →
      canvas x y = c_later := by
  intro before between after earlier later x y c_earlier c_later hlist _ hlater hafter
  refine DrawRenderPass_last_opaque_quad frame is_root pass canvas (before ++ earlier :: between)
    after later x y c_later hdraw ?_ hafter hlater
  rw [hlist, List.append_assoc, List.cons_append]

/-- C2 at the scene of `PictureDrawQuadIdentityScale` on a 200×200 viewport: at
the pixel `(199, 199)` the clipped quad pushed first is opaque blue and the
viewport-filling quad pushed after it is opaque green; the pass is drawn, and
the output pixel is green, in the pass and in the frame. -/
theorem C2_later_opaque_quad_draws_over_witness :
    ∃ pass earlier later canvas bitmap,
      (PictureDrawQuadIdentityScale ⟨200, 200⟩ false false).pass_list = [pass]
      ∧ DrawRenderPass ⟨.GLRenderer,
          (PictureDrawQuadIdentityScale ⟨200, 200⟩ false false).shared_states, ⟨[]⟩, []⟩
          true pass = .ok canvas
      ∧ pass.quad_list = [] ++ earlier :: ([] ++ later :: [])
      ∧ earlier.OpaqueColorAt ⟨.GLRenderer,
          (PictureDrawQuadIdentityScale ⟨200, 200⟩ false false).shared_states, ⟨[]⟩, []⟩
          pass.output_rect 199 199 = some SK_ColorBLUE
      ∧ later.OpaqueColorAt ⟨.GLRenderer,
          (PictureDrawQuadIdentityScale ⟨200, 200⟩ false false).shared_states, ⟨[]⟩, []⟩
          pass.output_rect 199 199 = some SK_ColorGREEN
      ∧ canvas 199 199 = SK_ColorGREEN
      ∧ DrawFrame ⟨.GLRenderer, ⟨0, 0⟩⟩ ⟨200, 200⟩
          (PictureDrawQuadIdentityScale ⟨200, 200⟩ false false).shared_states ⟨[]⟩
          (PictureDrawQuadIdentityScale ⟨200, 200⟩ false false).pass_list none = .ok bitmap
      ∧ bitmap.pixel 199 199 = SK_ColorGREEN := by
  obtain ⟨pass, earlier, later, canvas, hpass, hquads, hcanvas, hearlier, hlater⟩ :=
    PictureDrawQuadIdentityScale_corner
  have hpix : canvas 199 199 = SK_ColorGREEN :=
    C2_later_opaque_quad_draws_over _ _ _ _ hcanvas [] [] [] earlier later 199 199 _ _ hquads
      hearlier hlater (by simp)
  refine ⟨pass, earlier, later, canvas, ⟨200, 200, canvas⟩, hpass, hcanvas, hquads, hearlier,
    hlater, hpix, ?_, hpix⟩
  rw [hpass, DrawFrame_root_only, hcanvas]; rfl

end cc


namespace cc

theorem referenced_passes_push_solid (pass : RenderPass) (s : SharedQuadStatePtr)
    (rect : gfx.Rect) (color : SkColor) (aa : Bool) :
    (pass.push_quad (DrawQuad.SolidColor s rect color aa)).referenced_passes
      = pass.referenced_passes := by
  simp [RenderPass.referenced_passes, RenderPass.push_quad, List.filterMap_append]

theorem referenced_passes_push_shared_quad_state (pass : RenderPass) (s : SharedQuadStatePtr) :
    (pass.push_shared_quad_state s).referenced_passes = pass.referenced_passes := rfl

theorem SetUpRenderPassList_column_root (viewport_height : Int) (color : SkColor) (rounds : Nat) :
    ∀ (rect : gfx.Rect) (shared_states : List SharedQuadState) (root_pass : RenderPass),
      (SetUpRenderPassList_column viewport_height color rounds rect
          (shared_states, root_pass)).2.referenced_passes = root_pass.referenced_passes
      ∧ (SetUpRenderPassList_column viewport_height color rounds rect
          (shared_states, root_pass)).2.id = root_pass.id := by
  induction rounds with
  | zero => intro rect shared_states root_pass; exact ⟨rfl, rfl⟩
  | succ n ih =>
    intro rect shared_states root_pass
    unfold SetUpRenderPassList_column
    split
    · obtain ⟨h1, h2⟩ := ih (rect.Offset ⟨0, rect.height + 1⟩)
        (shared_states ++ [CreateTestSharedQuadState gfx.Transform.identity rect])
        ((root_pass.push_quad (DrawQuad.SolidColor shared_states.length rect color
          false)).push_shared_quad_state shared_states.length)
      refine ⟨h1.trans ?_, h2.trans rfl⟩
      exact referenced_passes_push_solid root_pass _ _ _ _
    · exact ⟨rfl, rfl⟩

/-- A pass list of a child pass without render-pass quads and a root pass whose
render-pass quads reference the child satisfies the invariant. -/
theorem ReferencesOnlyEarlierPasses_pair (child root : RenderPass)
    (hchild : child.referenced_passes = [])
    (hroot : ∀ id ∈ root.referenced_passes, id = child.id)
    (hne : root.id ≠ child.id) : ReferencesOnlyEarlierPasses [child, root] := by
  intro earlier pass later heq id hid
  match earlier, heq with
  | [], heq =>
    simp only [List.nil_append, List.cons.injEq] at heq
    obtain ⟨rfl, -⟩ := heq
    rw [hchild] at hid
    simp at hid
  | [e], heq =>
    simp only [List.cons_append, List.nil_append, List.cons.injEq] at heq
    obtain ⟨rfl, rfl, rfl⟩ := heq
    have hidc := hroot id hid
    subst hidc
    exact ⟨⟨child, List.mem_singleton_self _, rfl⟩, by simpa using hne⟩
  | e :: e2 :: es, heq =>
    simp at heq

/-- C3: in each of the pass lists that `SimpleGreenRect_NonRootRenderPass`,
`FastPassColorFilterAlpha`, `FastPassColorFilterAlphaTranslation`,
`EnlargedRenderPassTexture`, `EnlargedRenderPassTextureWithAntiAliasing` and the
background-filter fixture's `SetUpRenderPassList` build, every render-pass quad
references the id of a pass strictly earlier in the list and of no pass from
its own on, and the last pass of the list is the root pass, the pass with the
id `(1, 1)`. -/
theorem C3_render_pass_quads_reference_earlier_passes (size : gfx.Size)
    (background_filters_ : FilterOperations) (filter_pass_to_target_transform_ : gfx.Transform)
    (filter_pass_content_rect_ : gfx.Rect) :
    List.Forall
      (fun pass_list : RenderPassList =>
        ReferencesOnlyEarlierPasses pass_list
        ∧ pass_list.getLast?.map (fun pass => pass.id) = some ⟨1, 1⟩)
      [(SimpleGreenRect_NonRootRenderPass size).pass_list,
       (FastPassColorFilterAlpha size).pass_list,
       (FastPassColorFilterAlphaTranslation size).pass_list,
       (EnlargedRenderPassTexture size).pass_list,
       (EnlargedRenderPassTextureWithAntiAliasing size).pass_list,
       (SetUpRenderPassList size background_filters_ filter_pass_to_target_transform_
          filter_pass_content_rect_).2] := by
  rw [List.forall_iff_forall_mem]
  intro pass_list hmem
  simp only [List.mem_cons, List.mem_singleton, List.not_mem_nil, or_false] at hmem
  rcases hmem with rfl | rfl | rfl | rfl | rfl | rfl
  · refine ⟨ReferencesOnlyEarlierPasses_pair _ _ rfl ?_
      (show (⟨1, 1⟩ : RenderPass.Id) ≠ ⟨2, 1⟩ by decide), rfl⟩
    intro id hid
    simpa [RenderPass.referenced_passes, RenderPass.push_quad, CreateTestRenderPass,
      RenderPass.SetNew, CreateTestRenderPassDrawQuad] using hid
  · refine ⟨ReferencesOnlyEarlierPasses_pair _ _ rfl ?_
      (show (⟨1, 1⟩ : RenderPass.Id) ≠ ⟨2, 2⟩ by decide), rfl⟩
    intro id hid
    simpa [RenderPass.referenced_passes, RenderPass.push_quad, CreateTestRootRenderPass,
      RenderPass.SetNew] using hid
  · refine ⟨ReferencesOnlyEarlierPasses_pair _ _ rfl ?_
      (show (⟨1, 1⟩ : RenderPass.Id) ≠ ⟨2, 2⟩ by decide), rfl⟩
    intro id hid
    simpa [RenderPass.referenced_passes, RenderPass.push_quad, CreateTestRootRenderPass,
      RenderPass.SetNew] using hid
  · refine ⟨ReferencesOnlyEarlierPasses_pair _ _ rfl ?_
      (show (⟨1, 1⟩ : RenderPass.Id) ≠ ⟨2, 2⟩ by decide), rfl⟩
    intro id hid
    simpa [RenderPass.referenced_passes, RenderPass.push_quad, CreateTestRootRenderPass,
      RenderPass.SetNew, CreateTestRenderPassDrawQuad] using hid
  · refine ⟨ReferencesOnlyEarlierPasses_pair _ _ rfl ?_
      (show (⟨1, 1⟩ : RenderPass.Id) ≠ ⟨2, 2⟩ by decide), rfl⟩
    intro id hid
    simpa [RenderPass.referenced_passes, RenderPass.push_quad, CreateTestRootRenderPass,
      RenderPass.SetNew, CreateTestRenderPassDrawQuad] using hid
  · simp only [SetUpRenderPassList]
    refine ⟨ReferencesOnlyEarlierPasses_pair _ _ rfl ?_ ?_, ?_⟩
    · intro id hid
      rw [referenced_passes_push_shared_quad_state, referenced_passes_push_solid,
        (SetUpRenderPassList_column_root _ _ _ _ _ _).1,
        (SetUpRenderPassList_column_root _ _ _ _ _ _).1,
        (SetUpRenderPassList_column_root _ _ _ _ _ _).1] at hid
      simpa [RenderPass.referenced_passes, RenderPass.push_quad, CreateTestRootRenderPass,
        RenderPass.SetNew, RenderPass.push_shared_quad_state, CreateTestRenderPass] using hid
    · show (SetUpRenderPassList_column _ _ _ _ _).2.id ≠ _
      rw [(SetUpRenderPassList_column_root _ _ _ _ _ _).2,
        (SetUpRenderPassList_column_root _ _ _ _ _ _).2,
        (SetUpRenderPassList_column_root _ _ _ _ _ _).2]
      exact (show (⟨1, 1⟩ : RenderPass.Id) ≠ ⟨2, 1⟩ by decide)
    · show some (SetUpRenderPassList_column _ _ _ _ _).2.id = _
      rw [(SetUpRenderPassList_column_root _ _ _ _ _ _).2,
        (SetUpRenderPassList_column_root _ _ _ _ _ _).2,
        (SetUpRenderPassList_column_root _ _ _ _ _ _).2]
      rfl

end cc


namespace cc

/-- The rounds of a column loop suffice: once the rounds cover the height that
is left, more rounds change nothing. -/
theorem SetUpRenderPassList_column_rounds_suffice (viewport_height : Int) (color : SkColor)
    (rounds : Nat) :
    ∀ (rect : gfx.Rect) (built : List SharedQuadState × RenderPass) (more : Nat),
      rect.height = 20 → viewport_height - rect.y ≤ rounds →
      SetUpRenderPassList_column viewport_height color (rounds + more) rect built
        = SetUpRenderPassList_column viewport_height color rounds rect built := by
  induction rounds with
  | zero =>
    intro rect built more _ hy
    cases more with
    | zero => rfl
    | succ m =>
      obtain ⟨shared_states, root_pass⟩ := built
      have : ¬ rect.y < viewport_height := by push_cast at hy; omega
      simp [SetUpRenderPassList_column, this]
  | succ n ih =>
    intro rect built more hh hy
    obtain ⟨shared_states, root_pass⟩ := built
    rw [show n + 1 + more = (n + more) + 1 by omega]
    unfold SetUpRenderPassList_column
    split
    · exact ih _ _ more hh (by simp only [gfx.Rect.Offset]; push_cast at hy ⊢; omega)
    · rfl

theorem SetUpRenderPassList_column_owns (viewport_height : Int) (color : SkColor)
    (rounds : Nat) :
    ∀ (rect : gfx.Rect) (shared_states : List SharedQuadState) (root_pass : RenderPass),
      root_pass.OwnsItsSharedStates →
      (SetUpRenderPassList_column viewport_height color rounds rect
          (shared_states, root_pass)).2.OwnsItsSharedStates := by
  induction rounds with
  | zero => intro rect shared_states root_pass h; exact h
  | succ n ih =>
    intro rect shared_states root_pass h
    unfold SetUpRenderPassList_column
    split
    · apply ih
      intro quad hquad
      simp only [RenderPass.push_quad, RenderPass.push_shared_quad_state, List.mem_append,
        List.mem_singleton] at hquad ⊢
      rcases hquad with hquad | rfl
      · exact Or.inl (h quad hquad)
      · exact Or.inr rfl
    · exact h

/-- C4, as stated, fails: the pass that `SimpleGreenRect` builds has a quad
whose shared state is not in the pass's `shared_quad_state_list`; the test body
keeps the shared state itself and the list of the pass is empty. -/
theorem C4_SimpleGreenRect_pass_does_not_own_its_shared_state :
    ¬ (∀ pass ∈ (SimpleGreenRect ⟨200, 200⟩).pass_list, pass.OwnsItsSharedStates) := by
  intro h
  have := h _ (List.mem_singleton_self _) (DrawQuad.SolidColor 0 (gfx.Rect.ofSize ⟨200, 200⟩)
    SK_ColorGREEN false) (List.mem_singleton_self _)
  simp [RenderPass.push_quad, CreateTestRootRenderPass, RenderPass.SetNew] at this

/-- C4, amended: in the pass list that the fixture `SetUpRenderPassList` builds,
every quad of every pass references a shared state in that pass's own
`shared_quad_state_list`.  The test bodies `SimpleGreenRect`,
`SimpleGreenRect_NonRootRenderPass`, `FastPassColorFilterAlpha`,
`FastPassColorFilterAlphaTranslation`, `EnlargedRenderPassTexture`,
`EnlargedRenderPassTextureWithAntiAliasing` and `PictureDrawQuadIdentityScale`
keep their shared states themselves: the `shared_quad_state_list` of each of
their passes is empty, and every quad references one of the shared states that
the test body holds. -/
theorem C4_shared_state_ownership (size : gfx.Size)
    (background_filters_ : FilterOperations) (filter_pass_to_target_transform_ : gfx.Transform)
    (filter_pass_content_rect_ : gfx.Rect) (use_skia_gpu_backend contents_swizzled : Bool) :
    (∀ pass ∈ (SetUpRenderPassList size background_filters_ filter_pass_to_target_transform_
        filter_pass_content_rect_).2, pass.OwnsItsSharedStates)
    ∧ ∀ scene ∈
        [SimpleGreenRect size, SimpleGreenRect_NonRootRenderPass size,
         FastPassColorFilterAlpha size, FastPassColorFilterAlphaTranslation size,
         EnlargedRenderPassTexture size, EnlargedRenderPassTextureWithAntiAliasing size,
         PictureDrawQuadIdentityScale size use_skia_gpu_backend contents_swizzled],
        ∀ pass ∈ scene.pass_list,
          pass.shared_quad_state_list = []
          ∧ ∀ quad ∈ pass.quad_list, quad.shared_quad_state < scene.shared_states.length := by
  constructor
  · intro pass hpass
    simp only [SetUpRenderPassList, List.mem_cons, List.mem_singleton, List.not_mem_nil,
      or_false] at hpass
    rcases hpass with rfl | rfl
    · intro quad hquad
      simp only [RenderPass.push_quad, RenderPass.push_shared_quad_state, CreateTestRenderPass,
        RenderPass.SetNew, List.nil_append, List.mem_singleton] at hquad ⊢
      subst hquad
      rfl
    · intro quad hquad
      simp only [RenderPass.push_quad, RenderPass.push_shared_quad_state, List.mem_append,
        List.mem_singleton] at hquad ⊢
      rcases hquad with hquad | rfl
      · refine Or.inl (SetUpRenderPassList_column_owns _ _ _ _ _ _
          (SetUpRenderPassList_column_owns _ _ _ _ _ _
            (SetUpRenderPassList_column_owns _ _ _ _ _ _ ?_)) quad hquad)
        intro q hq
        simp only [RenderPass.push_quad, RenderPass.push_shared_quad_state,
          CreateTestRootRenderPass, RenderPass.SetNew, List.nil_append, List.mem_singleton]
          at hq ⊢
        subst hq
        rfl
      · exact Or.inr rfl
  · intro scene hscene pass hpass
    simp only [List.mem_cons, List.mem_singleton, List.not_mem_nil, or_false] at hscene
    rcases hscene with rfl | rfl | rfl | rfl | rfl | rfl | rfl <;>
    · simp only [SimpleGreenRect, SimpleGreenRect_NonRootRenderPass, FastPassColorFilterAlpha,
        FastPassColorFilterAlphaTranslation, EnlargedRenderPassTexture,
        EnlargedRenderPassTextureWithAntiAliasing, PictureDrawQuadIdentityScale,
        List.mem_cons, List.mem_singleton, List.not_mem_nil, or_false] at hpass
      rcases hpass with rfl | rfl <;>
      · refine ⟨rfl, ?_⟩
        intro quad hquad
        simp only [RenderPass.push_quad, CreateTestRootRenderPass, CreateTestRenderPass,
          RenderPass.SetNew, List.nil_append, List.cons_append, List.mem_cons,
          List.mem_singleton, List.not_mem_nil, or_false, CreateTestRenderPassDrawQuad] at hquad
        rcases hquad with rfl | rfl | rfl <;>
          simp [DrawQuad.shared_quad_state, SimpleGreenRect, SimpleGreenRect_NonRootRenderPass,
            FastPassColorFilterAlpha, FastPassColorFilterAlphaTranslation,
            EnlargedRenderPassTexture, EnlargedRenderPassTextureWithAntiAliasing,
            PictureDrawQuadIdentityScale]

end cc


namespace cc

/-- The child pass of `SimpleGreenRect_NonRootRenderPass`. -/
theorem SimpleGreenRect_NonRootRenderPass_pass_list (size : gfx.Size) :
    (SimpleGreenRect_NonRootRenderPass size).pass_list
      = [(CreateTestRenderPass ⟨2, 1⟩ (gfx.Rect.ofWH 100 100) gfx.Transform.identity).push_quad
          (DrawQuad.SolidColor 0 (gfx.Rect.ofSize size) SK_ColorGREEN false),
         (CreateTestRenderPass ⟨1, 1⟩ (gfx.Rect.ofSize size) gfx.Transform.identity).push_quad
          (CreateTestRenderPassDrawQuad 1 (gfx.Rect.ofWH 100 100) ⟨2, 1⟩)] := rfl

/-- The green child pass is green on its whole output rectangle, whatever else
the frame holds, as long as the viewport is at least as large. -/
theorem green_child_canvas (size : gfx.Size) (hw : 100 ≤ size.width) (hh : 100 ≤ size.height)
    (frame : DrawingFrame)
    (hstate : frame.shared_states[0]?
      = some (CreateTestSharedQuadState gfx.Transform.identity (gfx.Rect.ofWH 100 100)))
    (canvas : Canvas)
    (hdraw : DrawRenderPass frame false
      ((CreateTestRenderPass ⟨2, 1⟩ (gfx.Rect.ofWH 100 100) gfx.Transform.identity).push_quad
        (DrawQuad.SolidColor 0 (gfx.Rect.ofSize size) SK_ColorGREEN false)) = .ok canvas)
    (x y : Int) (hx0 : 0 ≤ x) (hx : x < 100) (hy0 : 0 ≤ y) (hy : y < 100) :
    canvas x y = SK_ColorGREEN := by
  refine DrawRenderPass_last_opaque_quad frame false _ canvas [] []
    (DrawQuad.SolidColor 0 (gfx.Rect.ofSize size) SK_ColorGREEN false) x y _ hdraw rfl
    (by simp) ?_
  simp only [DrawQuad.OpaqueColorAt, DrawQuad.shared_quad_state, hstate,
    CreateTestSharedQuadState, integerTranslation_identity, QuadContents]
  have hcov : QuadCovers (gfx.Rect.ofWH 100 100)
      ⟨gfx.Transform.identity, (gfx.Rect.ofWH 100 100).size, gfx.Rect.ofWH 100 100,
        gfx.Rect.ofWH 100 100, false, 1⟩ ⟨0, 0⟩ (gfx.Rect.ofSize size) x y = true := by
    simp only [QuadCovers, Bool.and_eq_true, Contains_iff, gfx.Rect.ofWH, gfx.Rect.ofSize]
    simp
    omega
  simp only [RenderPass.push_quad, CreateTestRenderPass, RenderPass.SetNew, DrawQuad.rect, hcov,
    true_and]
  simp [SK_ColorGREEN]


/-- Reading back the first pass of a frame gives the buffer of that pass as it
was when the pass was finished. -/
theorem DrawFrame_readback_first (renderer : Renderer) (size : gfx.Size)
    (states : List SharedQuadState) (provider : ResourceProvider) (child root : RenderPass)
    (later : RenderPassList) (bitmap : SkBitmap) (hne : root.id ≠ child.id)
    (h : DrawFrame renderer size states provider (child :: later ++ [root]) (some child.id)
      = .ok bitmap) :
    ∃ canvas texture,
      DrawRenderPass ⟨renderer.type, states, provider, []⟩ false child = .ok canvas
      ∧ AllocatePassTexture renderer.enlarge_pass_texture_amount child canvas = .ok texture
      ∧ bitmap = ⟨child.output_rect.width, child.output_rect.height, texture.texel⟩ := by
  have hlast : (child :: later ++ [root]).getLast? = some root :=
    List.getLast?_concat _
  have hdrop : (child :: later ++ [root]).dropLast = child :: later := by
    rw [List.dropLast_concat]
  simp only [DrawFrame, hlast, hdrop] at h
  rcases hfin : DrawNonRootPasses renderer states provider (child :: later) [] with e | finished
  · simp [hfin, Except.error_bind] at h
  · rw [hfin, Except.ok_bind] at h
    obtain ⟨canvas, texture, more, hcanvas, halloc, rfl⟩ := DrawNonRootPasses_first _ _ _ _ _ _ hfin
    refine ⟨canvas, texture, hcanvas, halloc, ?_⟩
    rcases hroot : DrawRenderPass ⟨renderer.type, states, provider,
        ⟨child.id, child.output_rect, texture⟩ :: more⟩ true root with e | root_canvas
    · simp [hroot, Except.error_bind] at h
    · rw [hroot, Except.ok_bind] at h
      have hne' : ¬ child.id = root.id := fun hc => hne hc.symm
      simp only [hne', if_false, List.find?, decide_True, Except.pure_eq, Except.ok.injEq] at h
      exact h.symm

/-- C5: in the two-pass scene of `SimpleGreenRect_NonRootRenderPass`, on a
viewport of at least 100×100, the frame with the child pass as readback target
is drawn on every backend and gives a 100×100 bitmap in which every pixel is
green, which passes the bit-exact comparison with `green_small.png`; and the
pixels read back from the child pass stay the same whatever passes, with
whatever quads, follow the child pass in the list. -/
theorem C5_child_pass_readback_is_green (size : gfx.Size) (hw : 100 ≤ size.width)
    (hh : 100 ≤ size.height) (type : RendererType) :
    (∃ bitmap,
      DrawFrame ⟨type, (SimpleGreenRect_NonRootRenderPass size).enlarge_pass_texture_amount⟩ size
          (SimpleGreenRect_NonRootRenderPass size).shared_states
          (SimpleGreenRect_NonRootRenderPass size).resource_provider_
          (SimpleGreenRect_NonRootRenderPass size).pass_list
          (SimpleGreenRect_NonRootRenderPass size).readback_target = .ok bitmap
      ∧ bitmap.FilledWith ⟨100, 100⟩ SK_ColorGREEN)
    ∧ RunPixelTest type size (SimpleGreenRect_NonRootRenderPass size) green_small_png
        (ExactPixelComparator.Compare true) = true
    ∧ ∀ (child root : RenderPass),
        (SimpleGreenRect_NonRootRenderPass size).pass_list = [child, root] →
        ∀ (renderer : Renderer) (states : List SharedQuadState) (provider : ResourceProvider)
          (later : RenderPassList) (other_root : RenderPass) (bitmap : SkBitmap),
          0 ≤ renderer.enlarge_pass_texture_amount.x →
          0 ≤ renderer.enlarge_pass_texture_amount.y →
          states[0]? = (SimpleGreenRect_NonRootRenderPass size).shared_states[0]? →
          other_root.id ≠ child.id →
          DrawFrame renderer size states provider (child :: later ++ [other_root])
            (some child.id) = .ok bitmap →
          bitmap.FilledWith ⟨100, 100⟩ SK_ColorGREEN := by
  -- whatever follows the child pass, its read-back buffer is green
  have hany : ∀ (renderer : Renderer) (states : List SharedQuadState)
      (provider : ResourceProvider) (later : RenderPassList) (other_root : RenderPass)
      (bitmap : SkBitmap),
      0 ≤ renderer.enlarge_pass_texture_amount.x →
      0 ≤ renderer.enlarge_pass_texture_amount.y →
      states[0]? = (SimpleGreenRect_NonRootRenderPass size).shared_states[0]? →
      other_root.id ≠ (⟨2, 1⟩ : RenderPass.Id) →
      DrawFrame renderer size states provider
        (((CreateTestRenderPass ⟨2, 1⟩ (gfx.Rect.ofWH 100 100) gfx.Transform.identity).push_quad
          (DrawQuad.SolidColor 0 (gfx.Rect.ofSize size) SK_ColorGREEN false))
          :: later ++ [other_root]) (some ⟨2, 1⟩) = .ok bitmap →
      bitmap.FilledWith ⟨100, 100⟩ SK_ColorGREEN := by
    intro renderer states provider later other_root bitmap hex hey hstates hne hdraw
    obtain ⟨canvas, texture, hcanvas, halloc, rfl⟩ :=
      DrawFrame_readback_first renderer size states provider _ other_root later bitmap hne hdraw
    have hgreen := green_child_canvas size hw hh ⟨renderer.type, states, provider, []⟩ hstates
      canvas hcanvas
    obtain ⟨texture', halloc', htexel⟩ := AllocatePassTexture_texel
      renderer.enlarge_pass_texture_amount _ canvas hex hey
      (show (0 : Int) < 100 by decide) (show (0 : Int) < 100 by decide)
      (fun x y hxy => DrawRenderPass_outside _ _ _ _ x y hcanvas hxy)
    rw [halloc] at halloc'
    obtain rfl : texture = texture' := by injection halloc'
    refine ⟨rfl, rfl, ?_⟩
    intro x y hx0 hx hy0 hy
    simp only [htexel]
    have hin : 0 ≤ x ∧ x < 100 ∧ 0 ≤ y ∧ y < 100 := ⟨hx0, hx, hy0, hy⟩
    simp only [RenderPass.push_quad, CreateTestRenderPass, RenderPass.SetNew, gfx.Rect.ofWH, hin,
      and_self, if_true, zero_add]
    exact hgreen x y hx0 hx hy0 hy
  -- the frame of the test is drawn
  have hscene : ∃ bitmap,
      DrawFrame ⟨type, ⟨0, 0⟩⟩ size (SimpleGreenRect_NonRootRenderPass size).shared_states ⟨[]⟩
        (SimpleGreenRect_NonRootRenderPass size).pass_list (some ⟨2, 1⟩) = .ok bitmap := by
    obtain ⟨child_canvas, hchild⟩ := DrawRenderPass_ok
      ⟨type, (SimpleGreenRect_NonRootRenderPass size).shared_states, ⟨[]⟩, []⟩ false
      ((CreateTestRenderPass ⟨2, 1⟩ (gfx.Rect.ofWH 100 100) gfx.Transform.identity).push_quad
        (DrawQuad.SolidColor 0 (gfx.Rect.ofSize size) SK_ColorGREEN false))
      (by
        intro quad hquad
        simp only [RenderPass.push_quad, CreateTestRenderPass, RenderPass.SetNew,
          List.nil_append, List.mem_singleton] at hquad
        subst hquad
        exact ⟨_, _, _, rfl, integerTranslation_identity, rfl⟩)
    obtain ⟨texture, halloc, htexel⟩ := AllocatePassTexture_texel ⟨0, 0⟩ _ child_canvas
      (le_refl _) (le_refl _) (show (0 : Int) < 100 by decide) (show (0 : Int) < 100 by decide)
      (fun x y hxy => DrawRenderPass_outside _ _ _ _ x y hchild hxy)
    obtain ⟨canvas, hroot⟩ := DrawRenderPass_ok
      ⟨type, (SimpleGreenRect_NonRootRenderPass size).shared_states, ⟨[]⟩,
        [⟨⟨2, 1⟩, gfx.Rect.ofWH 100 100, texture⟩]⟩ true
      ((CreateTestRenderPass ⟨1, 1⟩ (gfx.Rect.ofSize size) gfx.Transform.identity).push_quad
        (CreateTestRenderPassDrawQuad 1 (gfx.Rect.ofWH 100 100) ⟨2, 1⟩))
      (by
        intro quad hquad
        simp only [RenderPass.push_quad, CreateTestRenderPass, RenderPass.SetNew,
          List.nil_append, List.mem_singleton] at hquad
        subst hquad
        have hq : ∃ contents, QuadContents
            ⟨type, (SimpleGreenRect_NonRootRenderPass size).shared_states, ⟨[]⟩,
              [⟨⟨2, 1⟩, gfx.Rect.ofWH 100 100, texture⟩]⟩
            (CreateTestRenderPassDrawQuad 1 (gfx.Rect.ofWH 100 100) ⟨2, 1⟩)
            = .ok contents := by
          simp [QuadContents, CreateTestRenderPassDrawQuad, Except.pure_eq, Except.ok_bind]
        obtain ⟨contents, hq⟩ := hq
        exact ⟨CreateTestSharedQuadState gfx.Transform.identity (gfx.Rect.ofSize size), ⟨0, 0⟩,
          contents, rfl, integerTranslation_identity, hq⟩)
    rw [SimpleGreenRect_NonRootRenderPass_pass_list]
    exact ⟨_, (DrawFrame_child_root ⟨type, ⟨0, 0⟩⟩ size _ ⟨[]⟩ _ _ child_canvas canvas texture
      hchild halloc hroot).2 (show (⟨2, 1⟩ : RenderPass.Id) ≠ ⟨1, 1⟩ by decide)⟩
  obtain ⟨bitmap, hbitmap⟩ := hscene
  have hfilled : bitmap.FilledWith ⟨100, 100⟩ SK_ColorGREEN := by
    rw [SimpleGreenRect_NonRootRenderPass_pass_list] at hbitmap
    exact hany ⟨type, ⟨0, 0⟩⟩ _ ⟨[]⟩ [] _ bitmap (le_refl _) (le_refl _) rfl
      (show (⟨1, 1⟩ : RenderPass.Id) ≠ ⟨2, 1⟩ by decide) hbitmap
  refine ⟨⟨bitmap, hbitmap, hfilled⟩, ?_, ?_⟩
  · have hbitmap' : DrawFrame ⟨type,
        (SimpleGreenRect_NonRootRenderPass size).enlarge_pass_texture_amount⟩ size
        (SimpleGreenRect_NonRootRenderPass size).shared_states
        (SimpleGreenRect_NonRootRenderPass size).resource_provider_
        (SimpleGreenRect_NonRootRenderPass size).pass_list
        (SimpleGreenRect_NonRootRenderPass size).readback_target = .ok bitmap := hbitmap
    simp only [RunPixelTest, hbitmap']
    have := Compare_green ⟨100, 100⟩ bitmap hfilled true
    exact this
  · intro child root hlist renderer states provider later other_root bitmap' hex hey hstates
      hne hdraw
    rw [SimpleGreenRect_NonRootRenderPass_pass_list] at hlist
    simp only [List.cons.injEq, and_true] at hlist
    obtain ⟨rfl, -⟩ := hlist
    exact hany renderer states provider later other_root bitmap' hex hey hstates hne hdraw


/-- C5 on the 200×200 viewport with the GL renderer. -/
theorem C5_child_pass_readback_is_green_witness :
    (100 : Int) ≤ (⟨200, 200⟩ : gfx.Size).width ∧ (100 : Int) ≤ (⟨200, 200⟩ : gfx.Size).height
    ∧ ((∃ bitmap,
        DrawFrame ⟨.GLRenderer,
            (SimpleGreenRect_NonRootRenderPass ⟨200, 200⟩).enlarge_pass_texture_amount⟩ ⟨200, 200⟩
            (SimpleGreenRect_NonRootRenderPass ⟨200, 200⟩).shared_states
            (SimpleGreenRect_NonRootRenderPass ⟨200, 200⟩).resource_provider_
            (SimpleGreenRect_NonRootRenderPass ⟨200, 200⟩).pass_list
            (SimpleGreenRect_NonRootRenderPass ⟨200, 200⟩).readback_target = .ok bitmap
        ∧ bitmap.FilledWith ⟨100, 100⟩ SK_ColorGREEN)
      ∧ RunPixelTest .GLRenderer ⟨200, 200⟩ (SimpleGreenRect_NonRootRenderPass ⟨200, 200⟩)
          green_small_png (ExactPixelComparator.Compare true) = true
      ∧ ∀ (child root : RenderPass),
          (SimpleGreenRect_NonRootRenderPass ⟨200, 200⟩).pass_list = [child, root] →
          ∀ (renderer : Renderer) (states : List SharedQuadState) (provider : ResourceProvider)
            (later : RenderPassList) (other_root : RenderPass) (bitmap : SkBitmap),
            0 ≤ renderer.enlarge_pass_texture_amount.x →
            0 ≤ renderer.enlarge_pass_texture_amount.y →
            states[0]? = (SimpleGreenRect_NonRootRenderPass ⟨200, 200⟩).shared_states[0]? →
            other_root.id ≠ child.id →
            DrawFrame renderer ⟨200, 200⟩ states provider (child :: later ++ [other_root])
              (some child.id) = .ok bitmap →
            bitmap.FilledWith ⟨100, 100⟩ SK_ColorGREEN) :=
  ⟨by decide, by decide,
    C5_child_pass_readback_is_green ⟨200, 200⟩ (by decide) (by decide) .GLRenderer⟩

end cc


namespace cc

/-- C6: on a viewport that is not empty, the scene of `SimpleYUVRect` is
built and drawn on every backend, the video quad without alpha plane whose
planes hold the values 149, 43 and 21 decodes to pure green, (R, G, B) =
(0, 255, 0), at every pixel, and the test's exact comparison with the all-green
image succeeds. -/
theorem C6_yuv_planes_decode_to_green (size : gfx.Size) (hw : 0 < size.width)
    (hh : 0 < size.height) (type : RendererType) :
    YUVToRGB type 149 43 21 255 = SK_ColorGREEN
    ∧ ∃ scene bitmap,
        SimpleYUVRect size = .ok scene
        ∧ DrawFrame ⟨type, scene.enlarge_pass_texture_amount⟩ size scene.shared_states
            scene.resource_provider_ scene.pass_list scene.readback_target = .ok bitmap
        ∧ bitmap.FilledWith size SK_ColorGREEN
        ∧ RunPixelTest type size scene (green_png size) (ExactPixelComparator.Compare true)
            = true := by
  refine ⟨YUVToRGB_green type 255 (le_refl _), ?_⟩
  obtain ⟨quad, provider, contents, hquad, hs, hrect, hbg, hcontents, hpix⟩ :=
    YUVVideo_contents type
      [CreateTestSharedQuadState gfx.Transform.identity (gfx.Rect.ofSize size)] size hw hh 0 false
  have hscene : SimpleYUVRect size = .ok
      ⟨[CreateTestSharedQuadState gfx.Transform.identity (gfx.Rect.ofSize size)], provider,
        ⟨0, 0⟩, [(CreateTestRootRenderPass ⟨1, 1⟩ (gfx.Rect.ofSize size)).push_quad quad], none,
        "green.png"⟩ := by
    simp only [SimpleYUVRect, hquad, Except.ok_bind, Except.pure_eq]
  have hdraw : DrawFrame ⟨type, ⟨0, 0⟩⟩ size
      [CreateTestSharedQuadState gfx.Transform.identity (gfx.Rect.ofSize size)] provider
      [(CreateTestRootRenderPass ⟨1, 1⟩ (gfx.Rect.ofSize size)).push_quad quad] none
      = .ok ⟨size.width, size.height, fun x y =>
          if QuadCovers (gfx.Rect.ofSize size)
              (CreateTestSharedQuadState gfx.Transform.identity (gfx.Rect.ofSize size)) ⟨0, 0⟩
              quad.rect x y then
            Blend type 1 (contents (x - 0) (y - 0))
              (ApplyFilterOperations type quad.background_filters SK_ColorTRANSPARENT)
          else SK_ColorTRANSPARENT⟩ := by
    rw [DrawFrame_root_only]
    simp only [DrawRenderPass, RenderPass.push_quad, CreateTestRootRenderPass, RenderPass.SetNew,
      List.nil_append, List.foldl_cons, List.foldl_nil, Except.ok_bind]
    rw [DrawOneQuad_ok _ _ quad _
      (CreateTestSharedQuadState gfx.Transform.identity (gfx.Rect.ofSize size)) ⟨0, 0⟩ contents
      (by rw [hs]; rfl) integerTranslation_identity (hcontents [])]
    rfl
  have hfilled : SkBitmap.FilledWith ⟨size.width, size.height, fun x y =>
          if QuadCovers (gfx.Rect.ofSize size)
              (CreateTestSharedQuadState gfx.Transform.identity (gfx.Rect.ofSize size)) ⟨0, 0⟩
              quad.rect x y then
            Blend type 1 (contents (x - 0) (y - 0))
              (ApplyFilterOperations type quad.background_filters SK_ColorTRANSPARENT)
          else SK_ColorTRANSPARENT⟩ size SK_ColorGREEN := by
    refine ⟨rfl, rfl, ?_⟩
    intro x y hx0 hx hy0 hy
    simp only [hrect, QuadCovers_full size x y hx0 hx hy0 hy, if_true, sub_zero,
      hpix x y hx0 hx hy0 hy, Bool.false_eq_true, if_false]
    exact Blend_opaque_src _ _ _ rfl
  refine ⟨_, _, hscene, hdraw, hfilled, ?_⟩
  simp only [RunPixelTest, hdraw]
  exact Compare_green size _ hfilled true

/-- C6 on the 200×200 viewport with the GL renderer. -/
theorem C6_yuv_planes_decode_to_green_witness :
    (0 : Int) < (⟨200, 200⟩ : gfx.Size).width ∧ (0 : Int) < (⟨200, 200⟩ : gfx.Size).height
    ∧ (YUVToRGB .GLRenderer 149 43 21 255 = SK_ColorGREEN
      ∧ ∃ scene bitmap,
          SimpleYUVRect ⟨200, 200⟩ = .ok scene
          ∧ DrawFrame ⟨.GLRenderer, scene.enlarge_pass_texture_amount⟩ ⟨200, 200⟩
              scene.shared_states scene.resource_provider_ scene.pass_list
              scene.readback_target = .ok bitmap
          ∧ bitmap.FilledWith ⟨200, 200⟩ SK_ColorGREEN
          ∧ RunPixelTest .GLRenderer ⟨200, 200⟩ scene (green_png ⟨200, 200⟩)
              (ExactPixelComparator.Compare true) = true) :=
  ⟨by decide, by decide,
    C6_yuv_planes_decode_to_green ⟨200, 200⟩ (by decide) (by decide) .GLRenderer⟩

end cc


namespace cc

end cc


namespace cc

/-- The frame of `EnlargedRenderPassTexture` is drawn on a viewport that is not
empty. -/
theorem EnlargedRenderPassTexture_drawn (size : gfx.Size) (hw : 0 < size.width)
    (hh : 0 < size.height) (type : RendererType) (enlarge : gfx.Vector2d)
    (hex : 0 ≤ enlarge.x) (hey : 0 ≤ enlarge.y) :
    ∃ bitmap, DrawFrame ⟨type, enlarge⟩ size (EnlargedRenderPassTexture size).shared_states
      (EnlargedRenderPassTexture size).resource_provider_
      (EnlargedRenderPassTexture size).pass_list none = .ok bitmap := by
  obtain ⟨child, root, hlist, hchild_id, hchild_rect, hchild_quads, hroot_quads⟩ :
      ∃ child root, (EnlargedRenderPassTexture size).pass_list = [child, root]
        ∧ child.id = ⟨2, 2⟩ ∧ child.output_rect = gfx.Rect.ofSize size
        ∧ child.quad_list =
          [DrawQuad.SolidColor 0 ⟨0, 0, size.width, Int.tdiv size.height 2⟩ SK_ColorBLUE false,
           DrawQuad.SolidColor 0 ⟨0, Int.tdiv size.height 2, size.width, Int.tdiv size.height 2⟩
            SK_ColorYELLOW false]
        ∧ root.quad_list = [CreateTestRenderPassDrawQuad 1 (gfx.Rect.ofSize size) ⟨2, 2⟩] :=
    ⟨_, _, rfl, rfl, rfl, rfl, rfl⟩
  have hstates : (EnlargedRenderPassTexture size).shared_states
      = [CreateTestSharedQuadState gfx.Transform.identity (gfx.Rect.ofSize size),
         CreateTestSharedQuadState gfx.Transform.identity (gfx.Rect.ofSize size)] := rfl
  obtain ⟨child_canvas, hchild⟩ := DrawRenderPass_ok
    ⟨type, (EnlargedRenderPassTexture size).shared_states,
      (EnlargedRenderPassTexture size).resource_provider_, []⟩ false child
    (by
      intro quad hquad
      rw [hchild_quads] at hquad
      simp only [List.mem_cons, List.mem_singleton, List.not_mem_nil, or_false] at hquad
      rcases hquad with rfl | rfl <;>
        exact ⟨_, _, _, rfl, integerTranslation_identity, rfl⟩)
  obtain ⟨texture, halloc, -⟩ := AllocatePassTexture_texel enlarge child child_canvas
    hex hey (by rw [hchild_rect]; exact hw) (by rw [hchild_rect]; exact hh)
    (fun x y hxy => DrawRenderPass_outside _ _ _ _ x y hchild hxy)
  obtain ⟨canvas, hroot⟩ := DrawRenderPass_ok
    ⟨type, (EnlargedRenderPassTexture size).shared_states,
      (EnlargedRenderPassTexture size).resource_provider_,
      [⟨child.id, child.output_rect, texture⟩]⟩ true root
    (by
      intro quad hquad
      rw [hroot_quads] at hquad
      simp only [List.mem_singleton] at hquad
      subst hquad
      have hq : ∃ contents, QuadContents
          ⟨type, (EnlargedRenderPassTexture size).shared_states,
            (EnlargedRenderPassTexture size).resource_provider_,
            [⟨child.id, child.output_rect, texture⟩]⟩
          (CreateTestRenderPassDrawQuad 1 (gfx.Rect.ofSize size) ⟨2, 2⟩) = .ok contents := by
        simp [QuadContents, CreateTestRenderPassDrawQuad, Except.pure_eq, Except.ok_bind,
          hchild_id, hchild_rect]
      obtain ⟨contents, hq⟩ := hq
      exact ⟨CreateTestSharedQuadState gfx.Transform.identity (gfx.Rect.ofSize size), ⟨0, 0⟩,
        contents, by rw [hstates]; rfl, integerTranslation_identity, hq⟩)
  rw [hlist]
  exact ⟨_, (DrawFrame_child_root ⟨type, enlarge⟩ size _ _ child root child_canvas canvas texture
    hchild halloc hroot).1⟩

/-- C8: on every backend the margin that the intermediate buffers are enlarged
by changes no frame: for every pass list whose non-root passes have an output
rectangle that is not empty, the result with a margin of any amount is the
result without a margin; and the frame of `EnlargedRenderPassTexture` is drawn
with the margin and without it, to the same bitmap. -/
theorem C8_enlarged_pass_texture_changes_no_pixel (type : RendererType)
    (enlarge : gfx.Vector2d) (hex : 0 ≤ enlarge.x) (hey : 0 ≤ enlarge.y) (size : gfx.Size)
    (hw : 0 < size.width) (hh : 0 < size.height) :
    (∀ (states : List SharedQuadState) (provider : ResourceProvider)
      (pass_list : RenderPassList) (readback_target : Option RenderPass.Id),
      (∀ pass ∈ pass_list.dropLast, 0 < pass.output_rect.width ∧ 0 < pass.output_rect.height) →
      DrawFrame ⟨type, enlarge⟩ size states provider pass_list readback_target
        = DrawFrame ⟨type, ⟨0, 0⟩⟩ size states provider pass_list readback_target)
    ∧ ∃ bitmap,
        DrawFrame ⟨type, enlarge⟩ size (EnlargedRenderPassTexture size).shared_states
          (EnlargedRenderPassTexture size).resource_provider_
          (EnlargedRenderPassTexture size).pass_list none = .ok bitmap
        ∧ DrawFrame ⟨type, ⟨0, 0⟩⟩ size (EnlargedRenderPassTexture size).shared_states
          (EnlargedRenderPassTexture size).resource_provider_
          (EnlargedRenderPassTexture size).pass_list none = .ok bitmap := by
  refine ⟨fun states provider pass_list readback_target hpos =>
    DrawFrame_enlarge type enlarge hex hey size states provider pass_list readback_target hpos, ?_⟩
  obtain ⟨bitmap, hbitmap⟩ := EnlargedRenderPassTexture_drawn size hw hh type enlarge hex hey
  refine ⟨bitmap, hbitmap, ?_⟩
  rw [← hbitmap]
  refine (DrawFrame_enlarge type enlarge hex hey size _ _ _ none ?_).symm
  intro pass hpass
  have hdrop : (EnlargedRenderPassTexture size).pass_list.dropLast
      = [((CreateTestRenderPass ⟨2, 2⟩ (gfx.Rect.ofSize size) gfx.Transform.identity).push_quad
          (DrawQuad.SolidColor 0 ⟨0, 0, size.width, Int.tdiv size.height 2⟩ SK_ColorBLUE
            false)).push_quad
          (DrawQuad.SolidColor 0 ⟨0, Int.tdiv size.height 2, size.width, Int.tdiv size.height 2⟩
            SK_ColorYELLOW false)] := rfl
  rw [hdrop, List.mem_singleton] at hpass
  subst hpass
  exact ⟨hw, hh⟩

/-- C8 at the margin `(50, 75)` that `EnlargedRenderPassTexture` sets, on the
200×200 viewport with the software renderer. -/
theorem C8_enlarged_pass_texture_changes_no_pixel_witness :
    (0 : Int) ≤ (EnlargedRenderPassTexture ⟨200, 200⟩).enlarge_pass_texture_amount.x
    ∧ (0 : Int) ≤ (EnlargedRenderPassTexture ⟨200, 200⟩).enlarge_pass_texture_amount.y
    ∧ (0 : Int) < (⟨200, 200⟩ : gfx.Size).width ∧ (0 : Int) < (⟨200, 200⟩ : gfx.Size).height
    ∧ ((∀ (states : List SharedQuadState) (provider : ResourceProvider)
        (pass_list : RenderPassList) (readback_target : Option RenderPass.Id),
        (∀ pass ∈ pass_list.dropLast,
          0 < pass.output_rect.width ∧ 0 < pass.output_rect.height) →
        DrawFrame ⟨.SoftwareRenderer,
            (EnlargedRenderPassTexture ⟨200, 200⟩).enlarge_pass_texture_amount⟩ ⟨200, 200⟩
            states provider pass_list readback_target
          = DrawFrame ⟨.SoftwareRenderer, ⟨0, 0⟩⟩ ⟨200, 200⟩ states provider pass_list
              readback_target)
      ∧ ∃ bitmap,
          DrawFrame ⟨.SoftwareRenderer,
              (EnlargedRenderPassTexture ⟨200, 200⟩).enlarge_pass_texture_amount⟩ ⟨200, 200⟩
            (EnlargedRenderPassTexture ⟨200, 200⟩).shared_states
            (EnlargedRenderPassTexture ⟨200, 200⟩).resource_provider_
            (EnlargedRenderPassTexture ⟨200, 200⟩).pass_list none = .ok bitmap
          ∧ DrawFrame ⟨.SoftwareRenderer, ⟨0, 0⟩⟩ ⟨200, 200⟩
            (EnlargedRenderPassTexture ⟨200, 200⟩).shared_states
            (EnlargedRenderPassTexture ⟨200, 200⟩).resource_provider_
            (EnlargedRenderPassTexture ⟨200, 200⟩).pass_list none = .ok bitmap) :=
  ⟨by decide, by decide, by decide, by decide,
    C8_enlarged_pass_texture_changes_no_pixel .SoftwareRenderer
      (EnlargedRenderPassTexture ⟨200, 200⟩).enlarge_pass_texture_amount (by decide) (by decide)
      ⟨200, 200⟩ (by decide) (by decide)⟩

end cc


namespace cc

theorem CoversPixel_withColorFilter (filter : Option SkColorMatrixFilter) (quad : DrawQuad)
    (frame1 frame2 : DrawingFrame) (hstates : frame1.shared_states = frame2.shared_states)
    (scissor : gfx.Rect) (x y : Int) :
    (quad.withColorFilter filter).CoversPixel frame1 scissor x y
      = quad.CoversPixel frame2 scissor x y := by
  cases quad <;> simp only [DrawQuad.withColorFilter, DrawQuad.CoversPixel,
    DrawQuad.shared_quad_state, DrawQuad.rect, hstates]

/-- C9: the pass lists of `FastPassColorFilterAlpha` and
`FastPassColorFilterAlphaTranslation` are the same but for the matrix of the
colour filter: the same shared states, the same passes with the same quads in
the same order.  The two matrices agree in every entry except the translation
terms `matrix[4]`, `matrix[9]` and `matrix[14]`, which are 0, 0, 0 in the one
and 20, 200, 1.5 in the other.  So for every colour the filtered red, green and
blue values differ by exactly these offsets before clamping, the filtered alpha
is the same, and every quad covers the same pixels in both scenes. -/
theorem C9_color_filter_translation_changes_only_the_offset (size : gfx.Size) :
    (FastPassColorFilterAlphaTranslation size).shared_states
      = (FastPassColorFilterAlpha size).shared_states
    ∧ (FastPassColorFilterAlpha size).pass_list
      = (FastPassColorFilterAlpha size).pass_list.map
          (RenderPass.withColorFilter (some ⟨FastPassColorFilterAlpha_matrix⟩))
    ∧ (FastPassColorFilterAlphaTranslation size).pass_list
      = (FastPassColorFilterAlpha size).pass_list.map
          (RenderPass.withColorFilter (some ⟨FastPassColorFilterAlphaTranslation_matrix⟩))
    ∧ (∀ i : Nat, i ≠ 4 → i ≠ 9 → i ≠ 14 →
        FastPassColorFilterAlphaTranslation_matrix i = FastPassColorFilterAlpha_matrix i)
    ∧ (FastPassColorFilterAlpha_matrix 4 = 0 ∧ FastPassColorFilterAlpha_matrix 9 = 0
        ∧ FastPassColorFilterAlpha_matrix 14 = 0)
    ∧ (FastPassColorFilterAlphaTranslation_matrix 4 = 20
        ∧ FastPassColorFilterAlphaTranslation_matrix 9 = 200
        ∧ FastPassColorFilterAlphaTranslation_matrix 14 = 3 / 2)
    ∧ (∀ c : SkColor,
        ColorMatrixRow FastPassColorFilterAlphaTranslation_matrix 0 c
          = ColorMatrixRow FastPassColorFilterAlpha_matrix 0 c + 20
        ∧ ColorMatrixRow FastPassColorFilterAlphaTranslation_matrix 1 c
          = ColorMatrixRow FastPassColorFilterAlpha_matrix 1 c + 200
        ∧ ColorMatrixRow FastPassColorFilterAlphaTranslation_matrix 2 c
          = ColorMatrixRow FastPassColorFilterAlpha_matrix 2 c + 3 / 2
        ∧ ColorMatrixRow FastPassColorFilterAlphaTranslation_matrix 3 c
          = ColorMatrixRow FastPassColorFilterAlpha_matrix 3 c)
    ∧ ∀ (frame1 frame2 : DrawingFrame),
        frame1.shared_states = (FastPassColorFilterAlpha size).shared_states →
        frame2.shared_states = (FastPassColorFilterAlphaTranslation size).shared_states →
        List.Forall₂
          (fun pass1 pass2 : RenderPass =>
            pass1.output_rect = pass2.output_rect
            ∧ List.Forall₂
                (fun quad1 quad2 : DrawQuad => ∀ x y : Int,
                  quad1.CoversPixel frame1 pass1.output_rect x y
                    = quad2.CoversPixel frame2 pass2.output_rect x y)
                pass1.quad_list pass2.quad_list)
          (FastPassColorFilterAlpha size).pass_list
          (FastPassColorFilterAlphaTranslation size).pass_list := by
  have hmatrix : ∀ i : Nat, i ≠ 4 → i ≠ 9 → i ≠ 14 →
      FastPassColorFilterAlphaTranslation_matrix i = FastPassColorFilterAlpha_matrix i := by
    intro i h4 h9 h14
    by_cases hi : i < 20
    · interval_cases i <;> first | rfl | contradiction
    · have e1 : FastPassColorFilterAlphaTranslation_matrix i = 0 :=
        List.getD_eq_default _ _ (by simp only [List.length_cons, List.length_nil]; omega)
      have e2 : FastPassColorFilterAlpha_matrix i = 0 :=
        List.getD_eq_default _ _ (by simp only [List.length_cons, List.length_nil]; omega)
      rw [e1, e2]
  have h4 : FastPassColorFilterAlpha_matrix 4 = 0 := rfl
  have h9 : FastPassColorFilterAlpha_matrix 9 = 0 := rfl
  have h14 : FastPassColorFilterAlpha_matrix 14 = 0 := rfl
  have t4 : FastPassColorFilterAlphaTranslation_matrix 4 = 20 := rfl
  have t9 : FastPassColorFilterAlphaTranslation_matrix 9 = 200 := rfl
  have t14 : FastPassColorFilterAlphaTranslation_matrix 14 = 3 / 2 := by
    have : FastPassColorFilterAlphaTranslation_matrix 14 = (1.5 : ℚ) := rfl
    rw [this]
    norm_num
  refine ⟨rfl, rfl, rfl, hmatrix, ⟨h4, h9, h14⟩, ⟨t4, t9, t14⟩, ?_, ?_⟩
  · intro c
    simp only [ColorMatrixRow, Nat.mul_zero, Nat.mul_one, Nat.zero_add, Nat.reduceMul,
      Nat.reduceAdd, h4, h9, h14, t4, t9, t14,
      hmatrix 0 (by decide) (by decide) (by decide),
      hmatrix 1 (by decide) (by decide) (by decide),
      hmatrix 2 (by decide) (by decide) (by decide),
      hmatrix 3 (by decide) (by decide) (by decide),
      hmatrix 5 (by decide) (by decide) (by decide),
      hmatrix 6 (by decide) (by decide) (by decide),
      hmatrix 7 (by decide) (by decide) (by decide),
      hmatrix 8 (by decide) (by decide) (by decide),
      hmatrix 10 (by decide) (by decide) (by decide),
      hmatrix 11 (by decide) (by decide) (by decide),
      hmatrix 12 (by decide) (by decide) (by decide),
      hmatrix 13 (by decide) (by decide) (by decide),
      hmatrix 15 (by decide) (by decide) (by decide),
      hmatrix 16 (by decide) (by decide) (by decide),
      hmatrix 17 (by decide) (by decide) (by decide),
      hmatrix 18 (by decide) (by decide) (by decide),
      hmatrix 19 (by decide) (by decide) (by decide), add_zero, and_self, and_true]
  · intro frame1 frame2 hs1 hs2
    have hstates : frame2.shared_states = frame1.shared_states := by rw [hs1, hs2]; rfl
    have hlist : (FastPassColorFilterAlphaTranslation size).pass_list
        = (FastPassColorFilterAlpha size).pass_list.map
          (RenderPass.withColorFilter (some ⟨FastPassColorFilterAlphaTranslation_matrix⟩)) := rfl
    rw [hlist, List.forall₂_map_right_iff]
    refine List.forall₂_same.mpr ?_
    intro pass _
    refine ⟨rfl, ?_⟩
    simp only [RenderPass.withColorFilter]
    rw [List.forall₂_map_right_iff]
    refine List.forall₂_same.mpr ?_
    intro quad _ x y
    exact (CoversPixel_withColorFilter _ quad frame2 frame1 hstates _ x y).symm

end cc


/-! ## Claims on the update check -/

/-- C10: if auto-update is disabled by the administrator, that is if the
`kUpdateDisabled` setting is the boolean `true`, `CheckForUpdate` runs the
callback exactly once, with `(FAILED, 0, IDS_UPGRADE_DISABLED_BY_POLICY)`, and
does nothing else, whatever the network, the wizard controller and the
registration of the device: it reports no network failure, it does not register
as observer of the update engine, and it requests no update check. -/
theorem C10_update_disabled_by_policy (self : VersionUpdaterCros) (env : UpdateEnvironment)
    (callback : StatusCallback)
    (hdisabled : env.cros_settings = some (some (chromeos.Value.Boolean true))) :
    self.CheckForUpdate env callback
      = some ({ self with callback_ := some callback },
          [UpdateEffect.Run callback VersionUpdater.Status.FAILED 0
            UpdateMessage.IDS_UPGRADE_DISABLED_BY_POLICY])
    ∧ ∀ (updated : VersionUpdaterCros) (effects : List UpdateEffect),
        self.CheckForUpdate env callback = some (updated, effects) →
        effects.length = 1
        ∧ (∀ status progress message, UpdateEffect.Run callback status progress message ∈ effects →
            status = VersionUpdater.Status.FAILED ∧ progress = 0
              ∧ message = UpdateMessage.IDS_UPGRADE_DISABLED_BY_POLICY)
        ∧ UpdateEffect.AddObserver ∉ effects
        ∧ UpdateEffect.RequestUpdateCheck ∉ effects := by
  have hcheck : self.CheckForUpdate env callback
      = some ({ self with callback_ := some callback },
          [UpdateEffect.Run callback VersionUpdater.Status.FAILED 0
            UpdateMessage.IDS_UPGRADE_DISABLED_BY_POLICY]) := by
    simp only [VersionUpdaterCros.CheckForUpdate, IsAutoUpdateDisabled, hdisabled,
      chromeos.Value.GetAsBoolean]
  refine ⟨hcheck, ?_⟩
  intro updated effects h
  rw [hcheck] at h
  simp only [Option.some.injEq, Prod.mk.injEq] at h
  obtain ⟨-, rfl⟩ := h
  refine ⟨rfl, ?_, by simp, by simp⟩
  intro status progress message hmem
  simp only [List.mem_singleton, UpdateEffect.Run.injEq] at hmem
  obtain ⟨-, rfl, rfl, rfl⟩ := hmem
  exact ⟨rfl, rfl, rfl⟩

/-- C10 on a device that is online on an allowed network with OOBE complete:
with the setting on, no update check is requested all the same. -/
theorem C10_update_disabled_by_policy_witness :
    (⟨some (some (chromeos.Value.Boolean true)), some ⟨true, "wifi"⟩, false, false, true⟩
        : UpdateEnvironment).cros_settings = some (some (chromeos.Value.Boolean true))
    ∧ ((⟨none, chromeos.UpdateStatusOperation.UPDATE_STATUS_IDLE⟩ : VersionUpdaterCros).CheckForUpdate
          ⟨some (some (chromeos.Value.Boolean true)), some ⟨true, "wifi"⟩, false, false, true⟩ 7
        = some (⟨some 7, chromeos.UpdateStatusOperation.UPDATE_STATUS_IDLE⟩,
            [UpdateEffect.Run 7 VersionUpdater.Status.FAILED 0
              UpdateMessage.IDS_UPGRADE_DISABLED_BY_POLICY])
      ∧ ∀ (updated : VersionUpdaterCros) (effects : List UpdateEffect),
          (⟨none, chromeos.UpdateStatusOperation.UPDATE_STATUS_IDLE⟩
              : VersionUpdaterCros).CheckForUpdate
            ⟨some (some (chromeos.Value.Boolean true)), some ⟨true, "wifi"⟩, false, false, true⟩ 7
            = some (updated, effects) →
          effects.length = 1
          ∧ (∀ status progress message, UpdateEffect.Run 7 status progress message ∈ effects →
              status = VersionUpdater.Status.FAILED ∧ progress = 0
                ∧ message = UpdateMessage.IDS_UPGRADE_DISABLED_BY_POLICY)
          ∧ UpdateEffect.AddObserver ∉ effects
          ∧ UpdateEffect.RequestUpdateCheck ∉ effects) :=
  ⟨rfl, C10_update_disabled_by_policy ⟨none, chromeos.UpdateStatusOperation.UPDATE_STATUS_IDLE⟩
    ⟨some (some (chromeos.Value.Boolean true)), some ⟨true, "wifi"⟩, false, false, true⟩ 7 rfl⟩


/-- The network status is `NETWORK_STATUS_OFFLINE` exactly if the default
network is absent or not connected. -/
theorem GetNetworkStatus_offline_iff (env : UpdateEnvironment)
    (network : Option chromeos.NetworkState) :
    GetNetworkStatus env network = NetworkStatus.NETWORK_STATUS_OFFLINE
      ↔ (network = none ∨ ∃ state, network = some state ∧ state.IsConnectedState = false) := by
  cases network with
  | none => simp [GetNetworkStatus]
  | some state =>
    cases hconnected : state.IsConnectedState
    · simp [GetNetworkStatus, hconnected]
    · simp only [GetNetworkStatus, hconnected]
      split_ifs <;> simp_all

/-- The network status is `NETWORK_STATUS_DISALLOWED` exactly if the default
network is connected and is Bluetooth, or cellular while updates over cellular
are not allowed. -/
theorem GetNetworkStatus_disallowed_iff (env : UpdateEnvironment)
    (network : Option chromeos.NetworkState) :
    GetNetworkStatus env network = NetworkStatus.NETWORK_STATUS_DISALLOWED
      ↔ ∃ state, network = some state ∧ state.IsConnectedState = true
          ∧ (state.type = flimflam.kTypeBluetooth
            ∨ (state.type = flimflam.kTypeCellular
              ∧ env.update_over_cellular_allowed = false)) := by
  cases network with
  | none => simp [GetNetworkStatus]
  | some state =>
    cases hconnected : state.IsConnectedState
    · simp [GetNetworkStatus, hconnected]
    · simp only [GetNetworkStatus, hconnected]
      by_cases hb : state.type = flimflam.kTypeBluetooth
      · simp [hb, hconnected]
      · by_cases hc : state.type = flimflam.kTypeCellular
        · cases hallowed : env.update_over_cellular_allowed <;>
            simp [hb, hc, hallowed, hconnected]
        · simp [hb, hc, hconnected]

/-- C11: when auto-update is not disabled, `CheckForUpdate` reports
`FAILED_OFFLINE` with progress 0 if the default network is absent or not
connected, and `FAILED_CONNECTION_TYPE_DISALLOWED` with progress 0 if the
default network is connected and of a type for which updates are disallowed
(Bluetooth, or cellular while updates over cellular are not allowed).  In both
cases the method returns, the single effect is that one run of the callback: it
does not register as observer and requests no update check. -/
theorem C11_offline_or_disallowed_network_fails (self : VersionUpdaterCros)
    (env : UpdateEnvironment) (callback : StatusCallback)
    (henabled : IsAutoUpdateDisabled env = some false) :
    ((env.default_network = none
        ∨ ∃ state, env.default_network = some state ∧ state.IsConnectedState = false) →
      self.CheckForUpdate env callback
        = some ({ self with callback_ := some callback },
            [UpdateEffect.Run callback VersionUpdater.Status.FAILED_OFFLINE 0
              UpdateMessage.IDS_UPGRADE_OFFLINE]))
    ∧ (∀ state, env.default_network = some state → state.IsConnectedState = true →
        (state.type = flimflam.kTypeBluetooth
          ∨ (state.type = flimflam.kTypeCellular ∧ env.update_over_cellular_allowed = false)) →
        self.CheckForUpdate env callback
          = some ({ self with callback_ := some callback },
              [UpdateEffect.Run callback VersionUpdater.Status.FAILED_CONNECTION_TYPE_DISALLOWED 0
                (UpdateMessage.IDS_UPGRADE_DISALLOWED state.type)]))
    ∧ (GetNetworkStatus env env.default_network ≠ NetworkStatus.NETWORK_STATUS_ALLOWED →
        ∃ updated status message,
          self.CheckForUpdate env callback
            = some (updated, [UpdateEffect.Run callback status 0 message])
          ∧ (status = VersionUpdater.Status.FAILED_OFFLINE
            ∨ status = VersionUpdater.Status.FAILED_CONNECTION_TYPE_DISALLOWED)
          ∧ UpdateEffect.RequestUpdateCheck
              ∉ [UpdateEffect.Run callback status 0 message]
          ∧ UpdateEffect.AddObserver ∉ [UpdateEffect.Run callback status 0 message]) := by
  have hoffline : GetNetworkStatus env env.default_network
        = NetworkStatus.NETWORK_STATUS_OFFLINE →
      self.CheckForUpdate env callback
        = some ({ self with callback_ := some callback },
            [UpdateEffect.Run callback VersionUpdater.Status.FAILED_OFFLINE 0
              UpdateMessage.IDS_UPGRADE_OFFLINE]) := by
    intro h
    simp only [VersionUpdaterCros.CheckForUpdate, henabled, h, if_true]
  have hdisallowed : ∀ state, env.default_network = some state →
      GetNetworkStatus env env.default_network = NetworkStatus.NETWORK_STATUS_DISALLOWED →
      self.CheckForUpdate env callback
        = some ({ self with callback_ := some callback },
            [UpdateEffect.Run callback VersionUpdater.Status.FAILED_CONNECTION_TYPE_DISALLOWED 0
              (UpdateMessage.IDS_UPGRADE_DISALLOWED state.type)]) := by
    intro state hstate h
    have hne : NetworkStatus.NETWORK_STATUS_DISALLOWED ≠ NetworkStatus.NETWORK_STATUS_OFFLINE := by
      decide
    simp only [VersionUpdaterCros.CheckForUpdate, henabled, h, if_neg hne, if_true]
    rw [hstate]
  refine ⟨?_, ?_, ?_⟩
  · intro h
    exact hoffline ((GetNetworkStatus_offline_iff env env.default_network).2 h)
  · intro state hstate hconnected htype
    exact hdisallowed state hstate
      ((GetNetworkStatus_disallowed_iff env env.default_network).2 ⟨state, hstate, hconnected, htype⟩)
  · intro hnot
    cases hstatus : GetNetworkStatus env env.default_network with
    | NETWORK_STATUS_ALLOWED => exact absurd hstatus hnot
    | NETWORK_STATUS_OFFLINE =>
      exact ⟨_, _, _, hoffline hstatus, Or.inl rfl, by simp, by simp⟩
    | NETWORK_STATUS_DISALLOWED =>
      obtain ⟨state, hstate, -, -⟩ :=
        (GetNetworkStatus_disallowed_iff env env.default_network).1 hstatus
      exact ⟨_, _, _, hdisallowed state hstate hstatus, Or.inr rfl, by simp, by simp⟩

/-- C11 on a registered device without the `kUpdateDisabled` setting that is
connected over Bluetooth: the check fails with the connection type. -/
theorem C11_offline_or_disallowed_network_fails_witness :
    IsAutoUpdateDisabled ⟨some none, some ⟨true, flimflam.kTypeBluetooth⟩, true, false, true⟩
      = some false
    ∧ (⟨none, chromeos.UpdateStatusOperation.UPDATE_STATUS_IDLE⟩ : VersionUpdaterCros).CheckForUpdate
        ⟨some none, some ⟨true, flimflam.kTypeBluetooth⟩, true, false, true⟩ 7
      = some (⟨some 7, chromeos.UpdateStatusOperation.UPDATE_STATUS_IDLE⟩,
          [UpdateEffect.Run 7 VersionUpdater.Status.FAILED_CONNECTION_TYPE_DISALLOWED 0
            (UpdateMessage.IDS_UPGRADE_DISALLOWED flimflam.kTypeBluetooth)]) :=
  ⟨rfl,
    (C11_offline_or_disallowed_network_fails
      ⟨none, chromeos.UpdateStatusOperation.UPDATE_STATUS_IDLE⟩
      ⟨some none, some ⟨true, flimflam.kTypeBluetooth⟩, true, false, true⟩ 7 rfl).2.1
      ⟨true, flimflam.kTypeBluetooth⟩ rfl rfl (Or.inl rfl)⟩


/-- The result of `CheckForUpdate` by cases: a failed `CHECK`, the policy, the
network status and the completion of OOBE. -/
theorem CheckForUpdate_effects (self : VersionUpdaterCros) (env : UpdateEnvironment)
    (callback : StatusCallback) :
    (self.CheckForUpdate env callback).map (fun result => result.2)
      = match IsAutoUpdateDisabled env with
        | none => none
        | some true =>
          some [UpdateEffect.Run callback VersionUpdater.Status.FAILED 0
            UpdateMessage.IDS_UPGRADE_DISABLED_BY_POLICY]
        | some false =>
          match GetNetworkStatus env env.default_network with
          | .NETWORK_STATUS_OFFLINE =>
            some [UpdateEffect.Run callback VersionUpdater.Status.FAILED_OFFLINE 0
              UpdateMessage.IDS_UPGRADE_OFFLINE]
          | .NETWORK_STATUS_DISALLOWED =>
            env.default_network.map fun network =>
              [UpdateEffect.Run callback VersionUpdater.Status.FAILED_CONNECTION_TYPE_DISALLOWED 0
                (UpdateMessage.IDS_UPGRADE_DISALLOWED network.type)]
          | .NETWORK_STATUS_ALLOWED =>
            if env.default_controller = false ∨ env.device_registered = true then
              some [UpdateEffect.AddObserver, UpdateEffect.RequestUpdateCheck]
            else some [UpdateEffect.AddObserver] := by
  unfold VersionUpdaterCros.CheckForUpdate
  rcases hdisabled : IsAutoUpdateDisabled env with _ | _ | _
  · rfl
  · simp only
    cases hstatus : GetNetworkStatus env env.default_network with
    | NETWORK_STATUS_OFFLINE => simp
    | NETWORK_STATUS_DISALLOWED =>
      cases env.default_network <;> simp
    | NETWORK_STATUS_ALLOWED =>
      cases env.default_controller <;> cases env.device_registered <;> simp
  · rfl

/-- C12: `CheckForUpdate` returns with a call of `RequestUpdateCheck` if and
only if auto-update is not disabled, the status of the default network is
`NETWORK_STATUS_ALLOWED` and OOBE is complete (there is no default
`WizardController`, or the device is registered); it returns with a call of
`AddObserver` if and only if the first two conditions hold.  Each of the two is
called at most once, and the observer is registered before the update check is
requested. -/
theorem C12_update_check_requested_iff (self : VersionUpdaterCros) (env : UpdateEnvironment)
    (callback : StatusCallback) :
    ((∃ updated effects, self.CheckForUpdate env callback = some (updated, effects)
        ∧ UpdateEffect.RequestUpdateCheck ∈ effects)
      ↔ (IsAutoUpdateDisabled env = some false
        ∧ GetNetworkStatus env env.default_network = NetworkStatus.NETWORK_STATUS_ALLOWED
        ∧ (env.default_controller = false ∨ env.device_registered = true)))
    ∧ ((∃ updated effects, self.CheckForUpdate env callback = some (updated, effects)
        ∧ UpdateEffect.AddObserver ∈ effects)
      ↔ (IsAutoUpdateDisabled env = some false
        ∧ GetNetworkStatus env env.default_network = NetworkStatus.NETWORK_STATUS_ALLOWED))
    ∧ (∀ updated effects, self.CheckForUpdate env callback = some (updated, effects) →
        updated = { self with callback_ := some callback }
        ∧ effects.count UpdateEffect.RequestUpdateCheck ≤ 1
        ∧ effects.count UpdateEffect.AddObserver ≤ 1
        ∧ (UpdateEffect.RequestUpdateCheck ∈ effects →
            effects = [UpdateEffect.AddObserver, UpdateEffect.RequestUpdateCheck])) := by
  have key := CheckForUpdate_effects self env callback
  have hupdated : ∀ updated effects, self.CheckForUpdate env callback = some (updated, effects) →
      updated = { self with callback_ := some callback } := by
    intro updated effects h
    unfold VersionUpdaterCros.CheckForUpdate at h
    rcases hdisabled : IsAutoUpdateDisabled env with _ | _ | _ <;> rw [hdisabled] at h
    · simp at h
    · simp only at h
      split_ifs at h
      · simp only [Option.some.injEq, Prod.mk.injEq] at h; exact h.1.symm
      · cases hnetwork : env.default_network <;> rw [hnetwork] at h
        · simp at h
        · simp only [Option.some.injEq, Prod.mk.injEq] at h; exact h.1.symm
      · simp only [Option.some.injEq, Prod.mk.injEq] at h; exact h.1.symm
      · simp only [Option.some.injEq, Prod.mk.injEq] at h; exact h.1.symm
    · simp only [Option.some.injEq, Prod.mk.injEq] at h; exact h.1.symm
  have hexists : ∀ effects,
      (self.CheckForUpdate env callback).map (fun result => result.2) = some effects →
      ∃ updated, self.CheckForUpdate env callback = some (updated, effects) := by
    intro effects h
    cases hresult : self.CheckForUpdate env callback with
    | none => rw [hresult] at h; simp at h
    | some result =>
      rw [hresult] at h
      simp only [Option.map_some', Option.some.injEq] at h
      exact ⟨result.1, by rw [← h]⟩
  rcases hdisabled : IsAutoUpdateDisabled env with _ | _ | _
  · -- a failed CHECK
    rw [hdisabled] at key
    have hnone : self.CheckForUpdate env callback = none := by
      cases hresult : self.CheckForUpdate env callback with
      | none => rfl
      | some result => rw [hresult] at key; simp at key
    simp [hnone]
  · -- auto-update is not disabled
    rw [hdisabled] at key
    cases hstatus : GetNetworkStatus env env.default_network with
    | NETWORK_STATUS_OFFLINE =>
      rw [hstatus] at key
      simp only at key
      obtain ⟨updated, hresult⟩ := hexists _ key
      simp [hresult]
      exact hupdated _ _ hresult
    | NETWORK_STATUS_DISALLOWED =>
      rw [hstatus] at key
      simp only at key
      cases hnetwork : env.default_network with
      | none =>
        rw [hnetwork] at key
        have hnone : self.CheckForUpdate env callback = none := by
          cases hresult : self.CheckForUpdate env callback with
          | none => rfl
          | some result => rw [hresult] at key; simp at key
        simp [hnone]
      | some network =>
        rw [hnetwork] at key
        obtain ⟨updated, hresult⟩ := hexists _ key
        simp [hresult]
        exact hupdated _ _ hresult
    | NETWORK_STATUS_ALLOWED =>
      rw [hstatus] at key
      simp only at key
      by_cases hoobe : env.default_controller = false ∨ env.device_registered = true
      · rw [if_pos hoobe] at key
        obtain ⟨updated, hresult⟩ := hexists _ key
        simp [hresult, hoobe]
        exact ⟨⟨_, _, ⟨rfl, rfl⟩, by simp⟩, ⟨_, _, ⟨rfl, rfl⟩, by simp⟩,
          hupdated _ _ hresult⟩
      · rw [if_neg hoobe] at key
        obtain ⟨updated, hresult⟩ := hexists _ key
        simp [hresult, hoobe]
        exact ⟨⟨_, _, ⟨rfl, rfl⟩, by simp⟩, hupdated _ _ hresult⟩
  · -- auto-update is disabled
    rw [hdisabled] at key
    simp only at key
    obtain ⟨updated, hresult⟩ := hexists _ key
    simp [hresult]
    exact hupdated _ _ hresult


/-! ## Lemmas on the display of the update status -/

/-- Rounding a value between 0 and 100 gives an integer between 0 and 100. -/
theorem round_of_percentage (value : ℚ) (h0 : 0 ≤ value) (h1 : value ≤ 100) :
    0 ≤ cmath.round value ∧ cmath.round value ≤ 100 := by
  unfold cmath.round
  rw [if_pos h0]
  have hfloor : Rat.floor (value + 1 / 2) = ⌊value + 1 / 2⌋ := rfl
  rw [hfloor]
  constructor
  · apply Int.floor_nonneg.2; linarith
  · have : ⌊value + 1 / 2⌋ < 100 + 1 := by
      apply Int.floor_lt.2
      push_cast; linarith
    omega

/-- The progress of a download whose fraction is between 0 and 1 is defined and
between 0 and 100. -/
theorem static_cast_int_round_of_fraction (download_progress : ℚ)
    (h0 : 0 ≤ download_progress) (h1 : download_progress ≤ 1) :
    ∃ progress, static_cast_int (cmath.round (download_progress * 100)) = some progress
      ∧ 0 ≤ progress ∧ progress ≤ 100 := by
  obtain ⟨hlow, hhigh⟩ := round_of_percentage (download_progress * 100) (by linarith) (by linarith)
  refine ⟨cmath.round (download_progress * 100), ?_, hlow, hhigh⟩
  unfold static_cast_int
  rw [if_pos]
  constructor <;> omega

/-- The operation shown when the updater is idle and was not checking for an
update is the last operation. -/
theorem operation_to_show_idle (self : VersionUpdaterCros)
    (status : chromeos.UpdateEngineClient.Status)
    (hidle : status.status = chromeos.UpdateStatusOperation.UPDATE_STATUS_IDLE)
    (hlast : self.last_operation_
      ≠ chromeos.UpdateStatusOperation.UPDATE_STATUS_CHECKING_FOR_UPDATE) :
    self.operation_to_show status = self.last_operation_ := by
  unfold VersionUpdaterCros.operation_to_show
  rw [if_pos ⟨hidle, hlast⟩]

/-- The operation shown is the operation of the status unless the updater is
idle and was not checking for an update. -/
theorem operation_to_show_status (self : VersionUpdaterCros)
    (status : chromeos.UpdateEngineClient.Status)
    (h : status.status ≠ chromeos.UpdateStatusOperation.UPDATE_STATUS_IDLE
      ∨ self.last_operation_
        = chromeos.UpdateStatusOperation.UPDATE_STATUS_CHECKING_FOR_UPDATE) :
    self.operation_to_show status = status.status := by
  unfold VersionUpdaterCros.operation_to_show
  rw [if_neg]
  rintro ⟨hidle, hlast⟩
  rcases h with h | h
  · exact h hidle
  · exact hlast h

/-- With a callback set, `UpdateStatusChanged` runs it once with the status and
the progress that the `switch` gives, and stores the operation of the status. -/
theorem UpdateStatusChanged_of_status_to_show (self : VersionUpdaterCros)
    (status : chromeos.UpdateEngineClient.Status) (callback : StatusCallback)
    (my_status : VersionUpdater.Status) (progress : Int)
    (hcallback : self.callback_ = some callback)
    (hshow : VersionUpdaterCros.status_to_show (self.operation_to_show status) status
      = some (my_status, progress)) :
    self.UpdateStatusChanged status
      = some ({ self with last_operation_ := status.status },
          [UpdateEffect.Run callback my_status progress UpdateMessage.empty]) := by
  unfold VersionUpdaterCros.UpdateStatusChanged
  simp only [hshow, hcallback]

/-- Whenever `UpdateStatusChanged` returns, it has run the callback once with
the status and the progress that the `switch` gives. -/
theorem UpdateStatusChanged_inv (self : VersionUpdaterCros)
    (status : chromeos.UpdateEngineClient.Status) (updated : VersionUpdaterCros)
    (effects : List UpdateEffect)
    (h : self.UpdateStatusChanged status = some (updated, effects)) :
    ∃ callback my_status progress,
      self.callback_ = some callback
      ∧ VersionUpdaterCros.status_to_show (self.operation_to_show status) status
          = some (my_status, progress)
      ∧ updated = { self with last_operation_ := status.status }
      ∧ effects = [UpdateEffect.Run callback my_status progress UpdateMessage.empty] := by
  unfold VersionUpdaterCros.UpdateStatusChanged at h
  dsimp only at h
  cases hshow : VersionUpdaterCros.status_to_show (self.operation_to_show status) status with
  | none => rw [hshow] at h; simp at h
  | some shown =>
    obtain ⟨my_status, progress⟩ := shown
    cases hcallback : self.callback_ with
    | none => rw [hshow, hcallback] at h; simp at h
    | some callback =>
      rw [hshow, hcallback] at h
      simp only [Option.some.injEq, Prod.mk.injEq] at h
      exact ⟨callback, my_status, progress, rfl, rfl, h.1.symm, h.2.symm⟩

/-- The status that the `switch` gives, by the operation shown. -/
theorem status_to_show_status (operation_to_show : chromeos.UpdateStatusOperation)
    (status : chromeos.UpdateEngineClient.Status) (my_status : VersionUpdater.Status)
    (progress : Int) :
    VersionUpdaterCros.status_to_show operation_to_show status = some (my_status, progress) →
    my_status
      = match operation_to_show with
        | .UPDATE_STATUS_ERROR => VersionUpdater.Status.UPDATED
        | .UPDATE_STATUS_REPORTING_ERROR_EVENT => VersionUpdater.Status.UPDATED
        | .UPDATE_STATUS_IDLE => VersionUpdater.Status.UPDATED
        | .UPDATE_STATUS_CHECKING_FOR_UPDATE => VersionUpdater.Status.CHECKING
        | .UPDATE_STATUS_UPDATE_AVAILABLE => VersionUpdater.Status.UPDATING
        | .UPDATE_STATUS_DOWNLOADING => VersionUpdater.Status.UPDATING
        | .UPDATE_STATUS_VERIFYING => VersionUpdater.Status.UPDATING
        | .UPDATE_STATUS_FINALIZING => VersionUpdater.Status.UPDATING
        | .UPDATE_STATUS_UPDATED_NEED_REBOOT => VersionUpdater.Status.NEARLY_UPDATED := by
  intro h
  cases operation_to_show <;>
    simp only [VersionUpdaterCros.status_to_show, Option.some.injEq, Prod.mk.injEq] at h
  case UPDATE_STATUS_DOWNLOADING =>
    cases hcast : static_cast_int (cmath.round (status.download_progress * 100)) with
    | none => rw [hcast] at h; simp at h
    | some value =>
      rw [hcast] at h
      simp only [Option.some.injEq, Prod.mk.injEq] at h
      exact h.1.symm
  all_goals exact h.1.symm

/-- The `switch` gives a status and a progress unless the operation shown is
the download and the conversion of its progress is undefined. -/
theorem status_to_show_isSome (operation_to_show : chromeos.UpdateStatusOperation)
    (status : chromeos.UpdateEngineClient.Status)
    (h : operation_to_show = chromeos.UpdateStatusOperation.UPDATE_STATUS_DOWNLOADING →
      static_cast_int (cmath.round (status.download_progress * 100)) ≠ none) :
    ∃ my_status progress,
      VersionUpdaterCros.status_to_show operation_to_show status = some (my_status, progress) := by
  cases operation_to_show
  case UPDATE_STATUS_DOWNLOADING =>
    cases hcast : static_cast_int (cmath.round (status.download_progress * 100)) with
    | none => exact absurd hcast (h rfl)
    | some value =>
      exact ⟨VersionUpdater.Status.UPDATING, value,
        by simp only [VersionUpdaterCros.status_to_show, hcast]⟩
  all_goals exact ⟨_, _, rfl⟩


/-! ## Claims on the display of the update status -/

/-- C13: when `UpdateStatusChanged` receives an `UPDATE_STATUS_IDLE` status
and the previous operation `last_operation_` was
`UPDATE_STATUS_CHECKING_FOR_UPDATE`, the system is up to date: the method
returns, the callback is run once with `(UPDATED, 0, empty message)`, whatever
the download progress of the status, and the idle operation is stored. -/
theorem C13_idle_after_checking_is_up_to_date (self : VersionUpdaterCros)
    (status : chromeos.UpdateEngineClient.Status) (callback : StatusCallback)
    (hcallback : self.callback_ = some callback)
    (hidle : status.status = chromeos.UpdateStatusOperation.UPDATE_STATUS_IDLE)
    (hlast : self.last_operation_
      = chromeos.UpdateStatusOperation.UPDATE_STATUS_CHECKING_FOR_UPDATE) :
    self.UpdateStatusChanged status
      = some ({ self with last_operation_ := chromeos.UpdateStatusOperation.UPDATE_STATUS_IDLE },
          [UpdateEffect.Run callback VersionUpdater.Status.UPDATED 0 UpdateMessage.empty]) := by
  have hshown : self.operation_to_show status
      = chromeos.UpdateStatusOperation.UPDATE_STATUS_IDLE := by
    rw [operation_to_show_status self status (Or.inr hlast), hidle]
  have h := UpdateStatusChanged_of_status_to_show self status callback
    VersionUpdater.Status.UPDATED 0 hcallback (by rw [hshown]; rfl)
  rw [h, hidle]

/-- C13 on an updater that was checking for an update, with a stale download
progress in the idle status. -/
theorem C13_idle_after_checking_is_up_to_date_witness :
    (⟨some 7, chromeos.UpdateStatusOperation.UPDATE_STATUS_CHECKING_FOR_UPDATE⟩
        : VersionUpdaterCros).callback_ = some 7
    ∧ (⟨chromeos.UpdateStatusOperation.UPDATE_STATUS_IDLE, 1 / 2⟩
        : chromeos.UpdateEngineClient.Status).status
        = chromeos.UpdateStatusOperation.UPDATE_STATUS_IDLE
    ∧ (⟨some 7, chromeos.UpdateStatusOperation.UPDATE_STATUS_CHECKING_FOR_UPDATE⟩
        : VersionUpdaterCros).last_operation_
        = chromeos.UpdateStatusOperation.UPDATE_STATUS_CHECKING_FOR_UPDATE
    ∧ (⟨some 7, chromeos.UpdateStatusOperation.UPDATE_STATUS_CHECKING_FOR_UPDATE⟩
        : VersionUpdaterCros).UpdateStatusChanged
          ⟨chromeos.UpdateStatusOperation.UPDATE_STATUS_IDLE, 1 / 2⟩
        = some (⟨some 7, chromeos.UpdateStatusOperation.UPDATE_STATUS_IDLE⟩,
            [UpdateEffect.Run 7 VersionUpdater.Status.UPDATED 0 UpdateMessage.empty]) :=
  ⟨rfl, rfl, rfl,
    C13_idle_after_checking_is_up_to_date
      ⟨some 7, chromeos.UpdateStatusOperation.UPDATE_STATUS_CHECKING_FOR_UPDATE⟩
      ⟨chromeos.UpdateStatusOperation.UPDATE_STATUS_IDLE, 1 / 2⟩ 7 rfl rfl rfl⟩


/-- C14: when `UpdateStatusChanged` receives an `UPDATE_STATUS_IDLE` status
and the previous operation `last_operation_` is not
`UPDATE_STATUS_CHECKING_FOR_UPDATE`, the operation shown is the last operation:
the method returns and runs the callback once, with the status that any call of
`UpdateStatusChanged` that shows `last_operation_` itself reports:
`NEARLY_UPDATED` after `UPDATED_NEED_REBOOT`, `UPDATING` after
`UPDATE_AVAILABLE`, `DOWNLOADING`, `VERIFYING` or `FINALIZING`, `UPDATED`
after `ERROR`, `REPORTING_ERROR_EVENT` or `IDLE`.  After `DOWNLOADING` the
progress of the idle status is converted, which has to be defined. -/
theorem C14_idle_shows_last_operation (self : VersionUpdaterCros)
    (status : chromeos.UpdateEngineClient.Status) (callback : StatusCallback)
    (hcallback : self.callback_ = some callback)
    (hidle : status.status = chromeos.UpdateStatusOperation.UPDATE_STATUS_IDLE)
    (hlast : self.last_operation_
      ≠ chromeos.UpdateStatusOperation.UPDATE_STATUS_CHECKING_FOR_UPDATE)
    (hprogress : self.last_operation_
        = chromeos.UpdateStatusOperation.UPDATE_STATUS_DOWNLOADING →
      static_cast_int (cmath.round (status.download_progress * 100)) ≠ none) :
    self.operation_to_show status = self.last_operation_
    ∧ ∃ my_status progress,
        self.UpdateStatusChanged status
          = some ({ self with
                last_operation_ := chromeos.UpdateStatusOperation.UPDATE_STATUS_IDLE },
              [UpdateEffect.Run callback my_status progress UpdateMessage.empty])
        ∧ (∀ (other updated : VersionUpdaterCros)
            (other_status : chromeos.UpdateEngineClient.Status) (effects : List UpdateEffect),
            other_status.status = self.last_operation_ →
            other.operation_to_show other_status = self.last_operation_ →
            other.UpdateStatusChanged other_status = some (updated, effects) →
            ∃ other_callback other_progress,
              effects = [UpdateEffect.Run other_callback my_status other_progress
                UpdateMessage.empty])
        ∧ (self.last_operation_
              = chromeos.UpdateStatusOperation.UPDATE_STATUS_UPDATED_NEED_REBOOT →
            my_status = VersionUpdater.Status.NEARLY_UPDATED)
        ∧ (self.last_operation_ = chromeos.UpdateStatusOperation.UPDATE_STATUS_UPDATE_AVAILABLE
              ∨ self.last_operation_ = chromeos.UpdateStatusOperation.UPDATE_STATUS_DOWNLOADING
              ∨ self.last_operation_ = chromeos.UpdateStatusOperation.UPDATE_STATUS_VERIFYING
              ∨ self.last_operation_ = chromeos.UpdateStatusOperation.UPDATE_STATUS_FINALIZING →
            my_status = VersionUpdater.Status.UPDATING)
        ∧ (self.last_operation_ = chromeos.UpdateStatusOperation.UPDATE_STATUS_ERROR
              ∨ self.last_operation_
                = chromeos.UpdateStatusOperation.UPDATE_STATUS_REPORTING_ERROR_EVENT
              ∨ self.last_operation_ = chromeos.UpdateStatusOperation.UPDATE_STATUS_IDLE →
            my_status = VersionUpdater.Status.UPDATED) := by
  have hshown := operation_to_show_idle self status hidle hlast
  refine ⟨hshown, ?_⟩
  obtain ⟨my_status, progress, hshow⟩ :=
    status_to_show_isSome (self.operation_to_show status) status
      (fun h => hprogress (by rw [← hshown]; exact h))
  have hresult := UpdateStatusChanged_of_status_to_show self status callback my_status progress
    hcallback hshow
  rw [hidle] at hresult
  have htable := status_to_show_status _ _ _ _ hshow
  rw [hshown] at htable
  refine ⟨my_status, progress, hresult, ?_, ?_, ?_, ?_⟩
  · intro other updated other_status effects _ hother_shown hother
    obtain ⟨other_callback, other_my_status, other_progress, -, hother_show, -, heffects⟩ :=
      UpdateStatusChanged_inv other other_status updated effects hother
    have hother_table := status_to_show_status _ _ _ _ hother_show
    rw [hother_shown] at hother_table
    refine ⟨other_callback, other_progress, ?_⟩
    rw [heffects, hother_table, htable]
  · intro h
    rw [h] at htable; exact htable
  · rintro (h | h | h | h) <;> (rw [h] at htable; exact htable)
  · rintro (h | h | h) <;> (rw [h] at htable; exact htable)

/-- C14 on an updater that was downloading when the update engine turned idle
with no progress: the download is still shown as `UPDATING`, and a call that
receives the download itself reports `UPDATING` as well. -/
theorem C14_idle_shows_last_operation_witness :
    (⟨some 7, chromeos.UpdateStatusOperation.UPDATE_STATUS_DOWNLOADING⟩
        : VersionUpdaterCros).callback_ = some 7
    ∧ (⟨chromeos.UpdateStatusOperation.UPDATE_STATUS_IDLE, 0⟩
        : chromeos.UpdateEngineClient.Status).status
        = chromeos.UpdateStatusOperation.UPDATE_STATUS_IDLE
    ∧ (⟨some 7, chromeos.UpdateStatusOperation.UPDATE_STATUS_DOWNLOADING⟩
        : VersionUpdaterCros).last_operation_
        ≠ chromeos.UpdateStatusOperation.UPDATE_STATUS_CHECKING_FOR_UPDATE
    ∧ static_cast_int (cmath.round
        ((⟨chromeos.UpdateStatusOperation.UPDATE_STATUS_IDLE, 0⟩
          : chromeos.UpdateEngineClient.Status).download_progress * 100)) ≠ none
    ∧ ∃ progress,
        (⟨some 7, chromeos.UpdateStatusOperation.UPDATE_STATUS_DOWNLOADING⟩
          : VersionUpdaterCros).UpdateStatusChanged
            ⟨chromeos.UpdateStatusOperation.UPDATE_STATUS_IDLE, 0⟩
          = some (⟨some 7, chromeos.UpdateStatusOperation.UPDATE_STATUS_IDLE⟩,
              [UpdateEffect.Run 7 VersionUpdater.Status.UPDATING progress
                UpdateMessage.empty]) := by
  have hprogress : static_cast_int (cmath.round
      ((⟨chromeos.UpdateStatusOperation.UPDATE_STATUS_IDLE, 0⟩
        : chromeos.UpdateEngineClient.Status).download_progress * 100)) ≠ none := by
    obtain ⟨progress, h, -⟩ := static_cast_int_round_of_fraction 0 (le_refl 0) zero_le_one
    show static_cast_int (cmath.round (0 * 100)) ≠ none
    rw [h]; exact Option.some_ne_none _
  refine ⟨rfl, rfl, by decide, hprogress, ?_⟩
  obtain ⟨-, my_status, progress, hresult, -, -, hupdating, -⟩ :=
    C14_idle_shows_last_operation
      ⟨some 7, chromeos.UpdateStatusOperation.UPDATE_STATUS_DOWNLOADING⟩
      ⟨chromeos.UpdateStatusOperation.UPDATE_STATUS_IDLE, 0⟩ 7 rfl rfl (by decide)
      (fun _ => hprogress)
  rw [hupdating (Or.inr (Or.inl rfl))] at hresult
  exact ⟨progress, hresult⟩


/-- C15: `UpdateStatusChanged` never displays an error of the update engine as
a failure.  For every updater and every status, whenever the method returns it
has run the callback once, with an empty message and a status among `UPDATED`,
`CHECKING`, `UPDATING` and `NEARLY_UPDATED`, none of `FAILED`, `FAILED_OFFLINE`
and `FAILED_CONNECTION_TYPE_DISALLOWED`.  It returns whenever a callback is set,
unless a download is shown whose progress has no defined conversion.  When the
operation shown is `UPDATE_STATUS_ERROR` or `UPDATE_STATUS_REPORTING_ERROR_EVENT`
the callback is run with `(UPDATED, 0, empty message)`. -/
theorem C15_errors_are_not_shown_as_failures (self : VersionUpdaterCros)
    (status : chromeos.UpdateEngineClient.Status) :
    (∀ updated effects, self.UpdateStatusChanged status = some (updated, effects) →
      ∃ callback my_status progress,
        self.callback_ = some callback
        ∧ effects = [UpdateEffect.Run callback my_status progress UpdateMessage.empty]
        ∧ (my_status = VersionUpdater.Status.UPDATED ∨ my_status = VersionUpdater.Status.CHECKING
          ∨ my_status = VersionUpdater.Status.UPDATING
          ∨ my_status = VersionUpdater.Status.NEARLY_UPDATED)
        ∧ my_status ≠ VersionUpdater.Status.FAILED
        ∧ my_status ≠ VersionUpdater.Status.FAILED_OFFLINE
        ∧ my_status ≠ VersionUpdater.Status.FAILED_CONNECTION_TYPE_DISALLOWED)
    ∧ (∀ callback, self.callback_ = some callback →
        (self.operation_to_show status = chromeos.UpdateStatusOperation.UPDATE_STATUS_DOWNLOADING →
          static_cast_int (cmath.round (status.download_progress * 100)) ≠ none) →
        ∃ my_status progress,
          self.UpdateStatusChanged status
            = some ({ self with last_operation_ := status.status },
                [UpdateEffect.Run callback my_status progress UpdateMessage.empty]))
    ∧ (∀ callback, self.callback_ = some callback →
        (self.operation_to_show status = chromeos.UpdateStatusOperation.UPDATE_STATUS_ERROR
          ∨ self.operation_to_show status
            = chromeos.UpdateStatusOperation.UPDATE_STATUS_REPORTING_ERROR_EVENT) →
        self.UpdateStatusChanged status
          = some ({ self with last_operation_ := status.status },
              [UpdateEffect.Run callback VersionUpdater.Status.UPDATED 0
                UpdateMessage.empty])) := by
  refine ⟨?_, ?_, ?_⟩
  · intro updated effects h
    obtain ⟨callback, my_status, progress, hcallback, hshow, -, heffects⟩ :=
      UpdateStatusChanged_inv self status updated effects h
    have htable := status_to_show_status _ _ _ _ hshow
    refine ⟨callback, my_status, progress, hcallback, heffects, ?_⟩
    cases hshown : self.operation_to_show status <;> rw [hshown] at htable <;>
      simp only at htable <;> subst htable <;> simp
  · intro callback hcallback hprogress
    obtain ⟨my_status, progress, hshow⟩ :=
      status_to_show_isSome (self.operation_to_show status) status hprogress
    exact ⟨my_status, progress,
      UpdateStatusChanged_of_status_to_show self status callback my_status progress hcallback
        hshow⟩
  · intro callback hcallback hshown
    apply UpdateStatusChanged_of_status_to_show self status callback _ _ hcallback
    rcases hshown with h | h <;> rw [h] <;> rfl

/-- The display of an error that the update engine reports while the download
was shown: the callback is run with `(UPDATED, 0, empty message)`. -/
theorem UpdateStatusChanged_of_error :
    (⟨some 7, chromeos.UpdateStatusOperation.UPDATE_STATUS_DOWNLOADING⟩
        : VersionUpdaterCros).UpdateStatusChanged
          ⟨chromeos.UpdateStatusOperation.UPDATE_STATUS_REPORTING_ERROR_EVENT, 3 / 10⟩
      = some (⟨some 7, chromeos.UpdateStatusOperation.UPDATE_STATUS_REPORTING_ERROR_EVENT⟩,
          [UpdateEffect.Run 7 VersionUpdater.Status.UPDATED 0 UpdateMessage.empty]) :=
  rfl


/-- C17: `SetChannel(channel, is_powerwash_allowed)` forwards `(channel,
is_powerwash_allowed)` to `SetChannel` of the update engine if and only if the
device is enterprise managed; it stores `channel` under `kReleaseChannel` with
`SetString` of `CrosSettings` if and only if the device is not enterprise
managed and the current user is the owner.  Each of the two is called at most
once and with these arguments only, never both, and nothing is done when the
device is not managed and the user is not the owner. -/
theorem C17_set_channel_by_management_and_ownership (self : VersionUpdaterCros)
    (kReleaseChannel : String) (env : ChannelEnvironment) (channel : String)
    (is_powerwash_allowed : Bool) :
    (ChannelEffect.UpdateEngineClient_SetChannel channel is_powerwash_allowed
        ∈ self.SetChannel kReleaseChannel env channel is_powerwash_allowed
      ↔ env.IsEnterpriseManaged = true)
    ∧ (ChannelEffect.CrosSettings_SetString kReleaseChannel channel
        ∈ self.SetChannel kReleaseChannel env channel is_powerwash_allowed
      ↔ (env.IsEnterpriseManaged = false ∧ env.IsCurrentUserOwner = true))
    ∧ (∀ other_channel other_allowed,
        ChannelEffect.UpdateEngineClient_SetChannel other_channel other_allowed
          ∈ self.SetChannel kReleaseChannel env channel is_powerwash_allowed →
        other_channel = channel ∧ other_allowed = is_powerwash_allowed)
    ∧ (∀ path value,
        ChannelEffect.CrosSettings_SetString path value
          ∈ self.SetChannel kReleaseChannel env channel is_powerwash_allowed →
        path = kReleaseChannel ∧ value = channel)
    ∧ (self.SetChannel kReleaseChannel env channel is_powerwash_allowed).length ≤ 1
    ∧ ¬ ((∃ other_channel other_allowed,
          ChannelEffect.UpdateEngineClient_SetChannel other_channel other_allowed
            ∈ self.SetChannel kReleaseChannel env channel is_powerwash_allowed)
        ∧ ∃ path value,
          ChannelEffect.CrosSettings_SetString path value
            ∈ self.SetChannel kReleaseChannel env channel is_powerwash_allowed)
    ∧ (env.IsEnterpriseManaged = false → env.IsCurrentUserOwner = false →
        self.SetChannel kReleaseChannel env channel is_powerwash_allowed = []) := by
  cases hmanaged : env.IsEnterpriseManaged <;> cases howner : env.IsCurrentUserOwner <;>
    simp [VersionUpdaterCros.SetChannel, hmanaged, howner]

/-- The three cases of `SetChannel` on the channel `beta-channel`: the managed
device, the owner of an unmanaged device, and another user of one. -/
theorem SetChannel_cases (self : VersionUpdaterCros) (kReleaseChannel : String) :
    self.SetChannel kReleaseChannel ⟨true, true⟩ "beta-channel" false
      = [ChannelEffect.UpdateEngineClient_SetChannel "beta-channel" false]
    ∧ self.SetChannel kReleaseChannel ⟨false, true⟩ "beta-channel" false
      = [ChannelEffect.CrosSettings_SetString kReleaseChannel "beta-channel"]
    ∧ self.SetChannel kReleaseChannel ⟨false, false⟩ "beta-channel" false = [] :=
  ⟨rfl, rfl, rfl⟩


/-! ## Claims on signal sets -/

/-- The mask `~(1 << signum)` as a 32-bit `sigset_t`: all bits but bit `signum`. -/
theorem sigdelset_mask (signum : Nat) (h : signum < 32) :
    shift_left_int32 1 signum = some (wrap_int32 (1 * 2 ^ signum))
    ∧ to_sigset_t 32 (bitwise_not_int32 (wrap_int32 (1 * 2 ^ signum)))
        = 2 ^ 32 - (2 ^ signum + 1) := by
  constructor
  · unfold shift_left_int32
    rw [if_pos ⟨by omega, by omega⟩]
    rfl
  · interval_cases signum <;> rfl

/-- The bits of the mask of `sigdelset`. -/
theorem sigdelset_mask_testBit (signum : Nat) (h : signum < 32) (i : Nat) :
    (2 ^ 32 - (2 ^ signum + 1)).testBit i = (decide (i < 32) && decide (i ≠ signum)) := by
  have hlt : 2 ^ signum < 2 ^ 32 := Nat.pow_lt_pow_right (by decide) h
  rw [Nat.testBit_two_pow_sub_succ hlt, Nat.testBit_two_pow]
  by_cases hi : signum = i
  · subst hi; simp
  · have hi2 : i ≠ signum := fun h => hi h.symm
    simp [hi, hi2]

/-- C18: for every signal set that is a 32-bit word and every `signum` with
`0 <= signum < 32`, `sigdelset(set, signum)` returns 0 and leaves a set that is
again a 32-bit word and is the old set with bit `signum` cleared: bit `i` of it
is set exactly if `i` is not `signum` and bit `i` of the old set is set.  So
signal `signum` is no longer a member, and the membership of every other signal
is unchanged.  Below 31 the shift `1 << signum` does not overflow `int`; at 31
it wraps to the least `int`. -/
theorem C18_sigdelset_clears_the_signal (set : Nat) (signum : Int)
    (hset : set < 2 ^ 32) (h0 : 0 ≤ signum) (h32 : signum < 32) :
    ∃ result, sigdelset 32 set signum = some (result, 0)
      ∧ result < 2 ^ 32
      ∧ (∀ i, result.testBit i = (set.testBit i && decide (i ≠ signum.toNat)))
      ∧ sigset_member result signum.toNat = false
      ∧ (∀ other, other ≠ signum.toNat → sigset_member result other = sigset_member set other)
      ∧ (signum < 31 → shift_left_int32 1 signum = some (2 ^ signum.toNat))
      ∧ (signum = 31 → shift_left_int32 1 signum = some (-2 ^ 31)) := by
  obtain ⟨s, rfl⟩ := Int.eq_ofNat_of_zero_le h0
  have hs : s < 32 := by omega
  have hwrap : (s < 31 → shift_left_int32 1 (s : Int) = some (2 ^ s))
      ∧ (s = 31 → shift_left_int32 1 (s : Int) = some (-2 ^ 31)) := by
    rw [(sigdelset_mask s hs).1]
    interval_cases s <;> exact ⟨by intro h; first | rfl | omega, by intro h; first | rfl | omega⟩
  obtain ⟨hshift, hmask⟩ := sigdelset_mask s hs
  have hresult : sigdelset 32 set (s : Int) = some (set &&& (2 ^ 32 - (2 ^ s + 1)), 0) := by
    unfold sigdelset
    rw [hshift]
    simp only [hmask]
    rfl
  have hbits : ∀ i, (set &&& (2 ^ 32 - (2 ^ s + 1))).testBit i
      = (set.testBit i && decide (i ≠ s)) := by
    intro i
    rw [Nat.testBit_and, sigdelset_mask_testBit s hs]
    by_cases hi : i < 32
    · simp [hi]
    · have hfalse : set.testBit i = false :=
        Nat.testBit_lt_two_pow (lt_of_lt_of_le hset (Nat.pow_le_pow_right (by decide) (by omega)))
      simp [hfalse]
  refine ⟨_, hresult, ?_, ?_, ?_, ?_, ?_, ?_⟩
  · exact Nat.and_lt_two_pow _ (Nat.sub_lt (by positivity) (by positivity))
  · intro i
    rw [hbits i, Int.toNat_ofNat]
  · unfold sigset_member
    rw [hbits, Int.toNat_ofNat]
    simp
  · intro other hother
    rw [Int.toNat_ofNat] at hother
    unfold sigset_member
    rw [hbits]
    simp [hother]
  · intro h
    rw [Int.toNat_ofNat]
    exact hwrap.1 (by omega)
  · intro h
    exact hwrap.2 (by omega)

/-- C18 on the full 32-bit set and signal 31, where `1 << 31` wraps to the
least `int`: the set that is left has the bits 0 to 30. -/
theorem C18_sigdelset_clears_the_signal_witness :
    4294967295 < 2 ^ 32 ∧ (0 : Int) ≤ 31 ∧ (31 : Int) < 32
    ∧ sigdelset 32 4294967295 31 = some (2147483647, 0)
    ∧ ∃ result, sigdelset 32 4294967295 31 = some (result, 0)
      ∧ result < 2 ^ 32
      ∧ (∀ i, result.testBit i
          = (Nat.testBit 4294967295 i && decide (i ≠ (31 : Int).toNat)))
      ∧ sigset_member result (31 : Int).toNat = false
      ∧ (∀ other, other ≠ (31 : Int).toNat →
          sigset_member result other = sigset_member 4294967295 other)
      ∧ ((31 : Int) < 31 → shift_left_int32 1 31 = some (2 ^ (31 : Int).toNat))
      ∧ ((31 : Int) = 31 → shift_left_int32 1 31 = some (-2 ^ 31)) :=
  ⟨by decide, by decide, by decide, rfl,
    C18_sigdelset_clears_the_signal 4294967295 31 (by decide) (by decide) (by decide)⟩


namespace cc

/-! ## Claims on the pixel comparators -/

/-- A pixel whose alpha is 254 where 255 is expected, as the software renderer
gives in `FastPassColorFilterAlpha`, passes the off-by-one comparison and fails
the exact one. -/
theorem off_by_one_alpha_compares (c : SkColor) :
    FuzzyPixelOffByOneComparator.Compare false
        ⟨1, 1, fun _ _ => ⟨254, c.r, c.g, c.b⟩⟩ ⟨1, 1, fun _ _ => ⟨255, c.r, c.g, c.b⟩⟩ = true
    ∧ ExactPixelComparator.Compare false
        ⟨1, 1, fun _ _ => ⟨254, c.r, c.g, c.b⟩⟩ ⟨1, 1, fun _ _ => ⟨255, c.r, c.g, c.b⟩⟩
        = false := by
  have herror : |(((254 : Fin 256).val : Nat) : Int) - ((255 : Fin 256).val : Nat)| = 1 := by
    decide
  constructor
  · simp [FuzzyPixelOffByOneComparator.Compare, FuzzyPixelComparator.Compare, List.range_succ,
      List.range_zero, herror]
  · simp [ExactPixelComparator.Compare, List.range_succ, List.range_zero]

/-- C19: `FuzzyForSoftwareOnlyPixelComparator<R>(discard_alpha).Compare(actual,
expected)` is the result of the off-by-one fuzzy comparator if `R` is
`SoftwareRenderer` or `SoftwareRendererWithExpandedViewport`, and the result of
the exact comparator for every other renderer type, `GLRenderer` and
`GLRendererWithExpandedViewport` among them; both inner comparators are built
with the `discard_alpha` flag of the constructor.  The renderer types are told
apart by it: on a pixel whose alpha is 254 where 255 is expected the result is
that of the fuzzy comparator exactly for the two software renderers. -/
theorem C19_fuzzy_for_software_renderers_only (discard_alpha : Bool)
    (actual_bmp expected_bmp : SkBitmap) :
    (∀ type : RendererType,
      (FuzzyForSoftwareOnlyPixelComparator.Create discard_alpha).Compare type actual_bmp
          expected_bmp
        = if type = RendererType.SoftwareRenderer
              ∨ type = RendererType.SoftwareRendererWithExpandedViewport then
            FuzzyPixelOffByOneComparator.Compare discard_alpha actual_bmp expected_bmp
          else ExactPixelComparator.Compare discard_alpha actual_bmp expected_bmp)
    ∧ (FuzzyForSoftwareOnlyPixelComparator.Create discard_alpha).Compare
          RendererType.GLRenderer actual_bmp expected_bmp
        = ExactPixelComparator.Compare discard_alpha actual_bmp expected_bmp
    ∧ (FuzzyForSoftwareOnlyPixelComparator.Create discard_alpha).Compare
          RendererType.GLRendererWithExpandedViewport actual_bmp expected_bmp
        = ExactPixelComparator.Compare discard_alpha actual_bmp expected_bmp
    ∧ (FuzzyForSoftwareOnlyPixelComparator.Create discard_alpha).fuzzy_ = discard_alpha
    ∧ (FuzzyForSoftwareOnlyPixelComparator.Create discard_alpha).exact_ = discard_alpha
    ∧ ∃ actual expected : SkBitmap,
        ∀ type : RendererType,
          ((FuzzyForSoftwareOnlyPixelComparator.Create false).Compare type actual expected
              = FuzzyPixelOffByOneComparator.Compare false actual expected
            ↔ (type = RendererType.SoftwareRenderer
              ∨ type = RendererType.SoftwareRendererWithExpandedViewport))
          ∧ ((FuzzyForSoftwareOnlyPixelComparator.Create false).Compare type actual expected
              = ExactPixelComparator.Compare false actual expected
            ↔ ¬ (type = RendererType.SoftwareRenderer
              ∨ type = RendererType.SoftwareRendererWithExpandedViewport)) := by
  refine ⟨?_, rfl, rfl, rfl, rfl, ?_⟩
  · intro type
    cases type <;> rfl
  · obtain ⟨hfuzzy, hexact⟩ := off_by_one_alpha_compares SK_ColorBLUE
    refine ⟨⟨1, 1, fun _ _ => ⟨254, SK_ColorBLUE.r, SK_ColorBLUE.g, SK_ColorBLUE.b⟩⟩,
      ⟨1, 1, fun _ _ => ⟨255, SK_ColorBLUE.r, SK_ColorBLUE.g, SK_ColorBLUE.b⟩⟩, ?_⟩
    intro type
    cases type <;>
      simp [FuzzyForSoftwareOnlyPixelComparator.Compare,
        FuzzyForSoftwareOnlyPixelComparator.Create, hfuzzy, hexact]

end cc
